import Mathlib

namespace clouds

/-- Which of its two backing fields the pointer current_value_ of a Parameter refers to. -/
inductive ValueRef where
  | control_value_
  | loaded_value_
  deriving DecidableEq, Repr

/-- The constant TOUCH_RANGE of parameters.cc, taken as the exact rational 1/100. -/
def TOUCH_RANGE : ℚ := 1 / 100

/-- The class Parameter of parameters.h, with values over exact rationals. -/
structure Parameter where
  current_value_ : ValueRef
  loaded_value_ : ℚ
  control_value_ : ℚ
  deriving DecidableEq

namespace Parameter

/-- Parameter::value: dereferences current_value_. -/
def value (p : Parameter) : ℚ :=
  match p.current_value_ with
  | .control_value_ => p.control_value_
  | .loaded_value_ => p.loaded_value_

/-- Parameter::sync. -/
def sync (p : Parameter) : Parameter :=
  { p with current_value_ := .control_value_ }

/-- Parameter::init(void). -/
def init (p : Parameter) : Parameter :=
  { p with current_value_ := .control_value_ }

/-- Parameter::init(float). -/
def initWith (p : Parameter) (v : ℚ) : Parameter :=
  { p with current_value_ := .control_value_, control_value_ := v }

/-- Parameter::update. -/
def update (p : Parameter) (control_value : ℚ) : Parameter :=
  let p1 := { p with control_value_ := control_value }
  if p1.current_value_ = .loaded_value_ then
    let touch : Bool := decide (|control_value - p1.loaded_value_| < TOUCH_RANGE)
    if touch then p1.sync else p1
  else p1

/-- Parameter::load. -/
def load (p : Parameter) (loaded_value : ℚ) : Parameter :=
  { p with loaded_value_ := loaded_value, current_value_ := .loaded_value_ }

/-- A sequence of update calls, oldest first. -/
def updates (p : Parameter) (xs : List ℚ) : Parameter :=
  xs.foldl update p

end Parameter

/-- The public mutators of Parameter, as a call trace alphabet. -/
inductive ParameterCall where
  | init
  | initWith (v : ℚ)
  | update (control_value : ℚ)
  | load (loaded_value : ℚ)
  | sync

/-- Runs one public call on a Parameter. -/
def Parameter.call (p : Parameter) : ParameterCall → Parameter
  | .init => p.init
  | .initWith v => p.initWith v
  | .update x => p.update x
  | .load v => p.load v
  | .sync => p.sync

/-- Whether a call is a call of load. -/
def ParameterCall.isLoad : ParameterCall → Bool
  | .load _ => true
  | _ => false

/-- The enum SwitchIndex of switches.h: SWITCH_MODE. -/
def SWITCH_MODE : Nat := 0
/-- The enum SwitchIndex of switches.h: SWITCH_WRITE. -/
def SWITCH_WRITE : Nat := 1
/-- The enum SwitchIndex of switches.h: SWITCH_FREEZE. -/
def SWITCH_FREEZE : Nat := 2
/-- The enum SwitchIndex of switches.h: SWITCH_BYPASS. -/
def SWITCH_BYPASS : Nat := 3
/-- The enum SwitchIndex of switches.h: kNumSwitches, the number of switches. -/
def kNumSwitches : Nat := 4

/-- The enum SwitchState of switches.h. -/
inductive SwitchState where
  | SwitchReleased
  | SwitchPressed
  | SwitchLongPressed
  | SwitchVLongPressed
  deriving DecidableEq, Repr

/-- The numeric value of a SwitchState enumerator. -/
def SwitchState.toInt : SwitchState → Int
  | .SwitchReleased => 0
  | .SwitchPressed => 1
  | .SwitchLongPressed => 2
  | .SwitchVLongPressed => 3

/-- The class Switch of switches.h without its pin address: debounce_buffer_ is a uint8_t,
press_time_ a uint32_t. -/
structure Switch where
  debounce_buffer_ : Nat
  state_ : SwitchState
  press_time_ : Nat
  deriving DecidableEq, Repr

namespace Switch

/-- Switch::released. -/
def released (s : Switch) : Bool := s.debounce_buffer_ == 0x7f

/-- Switch::just_pressed. -/
def just_pressed (s : Switch) : Bool := s.debounce_buffer_ == 0x80

/-- Switch::pressed. -/
def pressed (s : Switch) : Bool := s.debounce_buffer_ == 0x00

/-- Modelled from the spec: Switch::just_released, which Ui::Poll calls and switches.h does not
declare; the stable-release test of section 4.1, the pattern 0x7f that Switch::released
compares with. -/
def just_released (s : Switch) : Bool := s.debounce_buffer_ == 0x7f

/-- Switch::scan, with the bit read from the pin as argument; the result is truncated to the
8 bits of debounce_buffer_. -/
def scan (s : Switch) (pin : Bool) : Switch :=
  { s with debounce_buffer_ := ((s.debounce_buffer_ <<< 1) ||| pin.toNat) % 256 }

/-- Switch::capture_press, with the reading of the millisecond clock as argument. -/
def capture_press (s : Switch) (now : Nat) : Switch :=
  { s with press_time_ := now % 2 ^ 32, state_ := .SwitchPressed }

/-- Switch::reset. -/
def reset (s : Switch) : Switch :=
  { s with press_time_ := 0, state_ := .SwitchReleased }

/-- Switch::set_state. -/
def set_state (s : Switch) (state : SwitchState) : Switch :=
  { s with state_ := state }

/-- A run of Switch::scan calls over a list of pin readings, oldest first. -/
def scans (s : Switch) (pins : List Bool) : Switch :=
  pins.foldl scan s

end Switch

/-- The enum ControlType of the event queue; Ui::Poll only produces CONTROL_SWITCH. -/
inductive ControlType where
  | CONTROL_POT
  | CONTROL_ENCODER
  | CONTROL_ENCODER_CLICK
  | CONTROL_ENCODER_LONG_CLICK
  | CONTROL_SWITCH
  deriving DecidableEq, Repr

/-- The Event record of the event queue: control_id is a uint16_t, data an int32_t. -/
structure Event where
  control_type : ControlType
  control_id : Nat
  data : Int
  deriving DecidableEq, Repr

/-- Modelled from the spec: the event queue (section 4.3), a FIFO of events with the time of
the last enqueue or touch. -/
structure EventQueue where
  events_ : List Event := []
  last_event_time_ : Nat := 0
  deriving DecidableEq, Repr

/-- Modelled from the spec: EventQueue::AddEvent appends the event and touches the idle clock. -/
def EventQueue.AddEvent (q : EventQueue) (now : Nat) (control_type : ControlType)
    (id : Nat) (data : Int) : EventQueue :=
  { events_ := q.events_ ++ [{ control_type := control_type, control_id := id % 2 ^ 16,
                               data := data }],
    last_event_time_ := now }

/-- Modelled from the spec: the enum UiMode of ui.h, the closed set of modes of section 3 under
the names ui.cc uses. -/
inductive UiMode where
  | UI_MODE_SPLASH
  | UI_MODE_VU_METER
  | UI_MODE_QUALITY
  | UI_MODE_PLAYBACK_MODE
  | UI_MODE_LOAD
  | UI_MODE_SAVE
  | UI_MODE_SAVING
  | UI_MODE_CALIBRATION_1
  | UI_MODE_CALIBRATION_2
  | UI_MODE_PANIC
  deriving DecidableEq, Repr

/-- The constant kLongPressDuration of ui.cc. -/
def kLongPressDuration : Int := 1000

/-- The search of fls over at most fuel bits. -/
def flsAux : Nat → Nat → Nat
  | 0, _ => 0
  | fuel + 1, n => if n = 0 then 0 else flsAux fuel (n / 2) + 1

/-- The libc function fls on a 32-bit int: the one-based position of the most significant set
bit, 0 for 0. -/
def fls (n : Nat) : Nat := flsAux 32 n

/-- Conversion of a uint32_t value to int32_t (two's complement). -/
def toInt32 (n : Nat) : Int :=
  if n % 2 ^ 32 < 2 ^ 31 then (n % 2 ^ 32 : Nat) else (n % 2 ^ 32 : Nat) - 2 ^ 32

/-- Subtraction of uint32_t values. -/
def sub32 (a b : Nat) : Nat := (a % 2 ^ 32 + 2 ^ 32 - b % 2 ^ 32) % 2 ^ 32

/-- Modelled from the spec: Switches::Scan (switches.cc), one Switch::scan per switch with the
level read from its pin. -/
def Switches.Scan (switches_ : Nat → Switch) (pins : Nat → Bool) : Nat → Switch :=
  (List.range kNumSwitches).foldl
    (fun sw i => Function.update sw i ((sw i).scan (pins i))) switches_

/-- The enum CvPolarity of cv_scaler.h. -/
inductive CvPolarity where
  | kPolarityNormal
  | kPolarityInvert
  deriving DecidableEq, Repr

/-- The enum CvOffset of cv_scaler.h. -/
inductive CvOffset where
  | kNoOffset
  | kApplyOffset
  deriving DecidableEq, Repr

/-- The struct CvInput of cv_scaler.h, floats as exact rationals. -/
structure CvInput where
  polarity : CvPolarity
  offset : CvOffset
  filter_coefficient : ℚ
  value : ℚ
  deriving DecidableEq

/-- The enum AdcChannel (adc.h), in the order of the inputs_ table of cv_scaler.cc. -/
def ADC_POSITION_POTENTIOMETER_CV : Nat := 0
/-- The enum AdcChannel: density. -/
def ADC_DENSITY_POTENTIOMETER_CV : Nat := 1
/-- The enum AdcChannel: size. -/
def ADC_SIZE_POTENTIOMETER : Nat := 2
/-- The enum AdcChannel: feedback. -/
def ADC_FEEDBACK_POTENTIOMETER : Nat := 3
/-- The enum AdcChannel: pitch. -/
def ADC_PITCH_POTENTIOMETER : Nat := 4
/-- The enum AdcChannel: the 1V/octave input. -/
def ADC_V_OCT_CV : Nat := 5
/-- The enum AdcChannel: dry/wet. -/
def ADC_DRYWET_POTENTIOMETER : Nat := 6
/-- The enum AdcChannel: stereo spread. -/
def ADC_SPREAD_POTENTIOMETER : Nat := 7
/-- The enum AdcChannel: texture. -/
def ADC_TEXTURE_POTENTIOMETER : Nat := 8
/-- The enum AdcChannel: reverb. -/
def ADC_REVERB_POTENTIOMETER : Nat := 9
/-- The enum AdcChannel: the number of channels. -/
def ADC_CHANNEL_LAST : Nat := 10

/-- The struct CalibrationData of settings.h; offset has ADC_CHANNEL_LAST entries. -/
structure CalibrationData where
  pitch_offset : ℚ := 0
  pitch_scale : ℚ := 0
  offset : Nat → ℚ := fun _ => 0

/-- The struct State of settings.h (two uint8_t). -/
structure State where
  quality : Nat := 0
  playback_mode : Nat := 0
  deriving DecidableEq, Repr

/-- The struct SettingsData of settings.h. -/
structure SettingsData where
  calibration_data : CalibrationData := {}
  state : State := {}

/-- The macro PRESET_NUM_BANKS of settings.h. -/
def PRESET_NUM_BANKS : Nat := 3

/-- The macro PRESET_BANK_SIZE of settings.h. -/
def PRESET_BANK_SIZE : Nat := 4

/-- The macro CURRENT_PRESET_VERSION of settings.h. -/
def CURRENT_PRESET_VERSION : Nat := 1

/-- The macro CURRENT_PRESET_BANK_VERSION of settings.h. -/
def CURRENT_PRESET_BANK_VERSION : Nat := 1

/-- The struct Preset of settings.h; playback_mode is the numeric value of the PlaybackMode
enumerator, the pot positions are exact rationals. -/
structure Preset where
  version : Nat := 0
  playback_mode : Nat := 0
  stereo : Bool := false
  low_fidelity : Bool := false
  position : ℚ := 0
  size : ℚ := 0
  pitch : ℚ := 0
  density : ℚ := 0
  texture : ℚ := 0
  dry_wet : ℚ := 0
  stereo_spread : ℚ := 0
  feedback : ℚ := 0
  reverb : ℚ := 0
  deriving DecidableEq

/-- The struct PresetBank of settings.h. The array presets[PRESET_NUM_BANKS][PRESET_BANK_SIZE]
is kept in its row-major memory order: presets[b][l] is entry b * PRESET_BANK_SIZE + l, and
the entries from PRESET_NUM_BANKS * PRESET_BANK_SIZE on stand for the memory behind the array. -/
structure PresetBank where
  version : Nat := 0
  num_banks : Nat := 0
  bank_size : Nat := 0
  presets : Nat → Preset := fun _ => {}

/-- A pointer into presets_.presets, as the index pair presets[bank][location] it was formed
from. -/
structure PresetRef where
  bank : Nat
  location : Nat
  deriving DecidableEq, Repr

/-- The entry of the row-major array a PresetRef addresses. -/
def PresetRef.index (r : PresetRef) : Nat := r.bank * PRESET_BANK_SIZE + r.location

/-- The class Settings: the record data_, the preset bank presets_ and, for the two flash
storages, the lists of the records handed to them by Settings::Save and
Settings::SavePresets, oldest first. -/
structure Settings where
  data_ : SettingsData := {}
  saved_ : List SettingsData := []
  presets_ : PresetBank := {}
  presets_saved_ : List PresetBank := []

/-- Settings::Save: hands data_ to the storage. -/
def Settings.Save (s : Settings) : Settings :=
  { s with saved_ := s.saved_ ++ [s.data_] }

/-- Settings::SavePresets: hands presets_ to the preset storage. -/
def Settings.SavePresets (s : Settings) : Settings :=
  { s with presets_saved_ := s.presets_saved_ ++ [s.presets_] }

/-- Settings::init_presets. -/
def Settings.init_presets (s : Settings) : Settings :=
  let p1 : PresetBank :=
    { version := CURRENT_PRESET_BANK_VERSION, bank_size := PRESET_BANK_SIZE,
      num_banks := PRESET_NUM_BANKS,
      presets := fun i =>
        if i < PRESET_NUM_BANKS * PRESET_BANK_SIZE then {} else s.presets_.presets i }
  Settings.SavePresets { s with presets_ := p1 }

/-- The record behind a preset pointer. -/
def Settings.deref (s : Settings) (r : PresetRef) : clouds.Preset := s.presets_.presets r.index

/-- Settings::Preset: the settings afterwards (the version of a record below
CURRENT_PRESET_VERSION is raised) and the pointer returned, none for nullptr. -/
def Settings.Preset (s : Settings) (bank location : Nat) : Settings × Option PresetRef :=
  if bank ≥ s.presets_.num_banks ∨ location > s.presets_.bank_size then (s, none)
  else
    let r : PresetRef := { bank := bank, location := location }
    let preset := s.presets_.presets r.index
    if preset.version < CURRENT_PRESET_VERSION then
      let preset1 : clouds.Preset := { preset with version := CURRENT_PRESET_VERSION }
      let bank1 : PresetBank :=
        { s.presets_ with presets := Function.update s.presets_.presets r.index preset1 }
      ({ s with presets_ := bank1 }, some r)
    else (s, some r)

/-- Settings::ConstPreset: the pointer returned, none for nullptr. -/
def Settings.ConstPreset (s : Settings) (bank location : Nat) : Option PresetRef :=
  if bank ≥ PRESET_NUM_BANKS ∨ location > PRESET_BANK_SIZE then none
  else
    let r : PresetRef := { bank := bank, location := location }
    let preset := s.presets_.presets r.index
    if preset.version < CURRENT_PRESET_VERSION then none
    else some r

/-- Settings::IncrementPresetLocation on the two uint8_t references: the new (bank, location). -/
def Settings.IncrementPresetLocation (s : Settings) (bank location : Nat) : Nat × Nat :=
  let location1 := ((location + 1) % s.presets_.bank_size) % 256
  let bank1 := ((bank + (if location1 = 0 then 1 else 0)) % s.presets_.num_banks) % 256
  (bank1, location1)

/-- The struct Parameters of parameters.h: the nine continuous parameters and the three flags
CvScaler::Read and the UI write; the granular and spectral blocks are not touched by this code. -/
structure Parameters where
  position : Parameter
  size : Parameter
  pitch : Parameter
  density : Parameter
  texture : Parameter
  dry_wet : Parameter
  stereo_spread : Parameter
  feedback : Parameter
  reverb : Parameter
  freeze : Bool
  trigger : Bool
  gate : Bool

/-- The constant kAdcLatency of cv_scaler.h. -/
def kAdcLatency : Nat := 5

/-- The table CvScaler::inputs_ of cv_scaler.cc as initialised at program start. -/
def inputs_table : Nat → CvInput := fun i =>
  [ ({ polarity := .kPolarityInvert, offset := .kNoOffset, filter_coefficient := 5 / 100, value := 0 } : CvInput),
    { polarity := .kPolarityInvert, offset := .kNoOffset, filter_coefficient := 1 / 100, value := 0 },
    { polarity := .kPolarityNormal, offset := .kNoOffset, filter_coefficient := 1 / 100, value := 0 },
    { polarity := .kPolarityNormal, offset := .kNoOffset, filter_coefficient := 5 / 100, value := 0 },
    { polarity := .kPolarityNormal, offset := .kNoOffset, filter_coefficient := 1 / 100, value := 0 },
    { polarity := .kPolarityNormal, offset := .kNoOffset, filter_coefficient := 1, value := 0 },
    { polarity := .kPolarityNormal, offset := .kNoOffset, filter_coefficient := 5 / 100, value := 0 },
    { polarity := .kPolarityNormal, offset := .kNoOffset, filter_coefficient := 5 / 100, value := 0 },
    { polarity := .kPolarityNormal, offset := .kNoOffset, filter_coefficient := 1 / 100, value := 0 },
    { polarity := .kPolarityNormal, offset := .kNoOffset, filter_coefficient := 5 / 100, value := 0 }
  ].getD i { polarity := .kPolarityNormal, offset := .kNoOffset, filter_coefficient := 0, value := 0 }

/-- The members of the class CvScaler. The object behind the pointer calibration_data_ is not
a member: the methods that dereference it take it as an argument. -/
structure CvScaler where
  inputs_ : Nat → CvInput := inputs_table
  note_ : ℚ := 0
  cv_c1_ : ℚ := 0
  previous_trigger_ : Nat → Bool := fun _ => false
  previous_gate_ : Nat → Bool := fun _ => false

/-- What one call of CvScaler::Read takes from the hardware: the ADC readings
adc_.float_value(i) and, after gate_input_.Read(), the trigger edge and gate level. -/
structure ReadInput where
  adc : Nat → ℚ
  trigger_rising_edge : Bool
  gate : Bool

namespace CvScaler

/-- The std::fill of CvScaler::Init over the first n entries of an array. -/
def fill (a : Nat → Bool) (n : Nat) (v : Bool) : Nat → Bool :=
  (List.range n).foldl (fun a i => Function.update a i v) a

/-- CvScaler::Init; the hardware initialisation of the ADC and the gate input is left out. -/
def Init (cv : CvScaler) : CvScaler :=
  { cv with
    note_ := 0
    previous_trigger_ := fill cv.previous_trigger_ kAdcLatency false
    previous_gate_ := fill cv.previous_gate_ kAdcLatency false }

/-- CvScaler::CalibrateC1, with the ADC readings as argument. -/
def CalibrateC1 (cv : CvScaler) (adc : Nat → ℚ) : CvScaler :=
  { cv with cv_c1_ := adc ADC_V_OCT_CV }

/-- CvScaler::CalibrateOffsets on the object behind calibration_data_. -/
def CalibrateOffsets (_cv : CvScaler) (cal : CalibrationData) (adc : Nat → ℚ) :
    CalibrationData :=
  (List.range ADC_CHANNEL_LAST).foldl
    (fun cal i => { cal with offset := Function.update cal.offset i (adc i) }) cal

/-- CvScaler::CalibrateC3 on the object behind calibration_data_: the returned flag and the
calibration data afterwards. -/
def CalibrateC3 (cv : CvScaler) (cal : CalibrationData) (adc : Nat → ℚ) :
    Bool × CalibrationData :=
  let c3 := adc ADC_V_OCT_CV
  let c1 := cv.cv_c1_
  let delta := c3 - c1
  if delta > -(1 / 2) ∧ delta < -0 then
    let cal1 := { cal with pitch_scale := 24 / (c3 - c1) }
    let cal2 := { cal1 with pitch_offset := 12 - cal1.pitch_scale * c1 }
    (true, cal2)
  else
    (false, cal)

/-- CvScaler::value. -/
def value (cv : CvScaler) (channel : Nat) : ℚ := (cv.inputs_ channel).value

/-- CvScaler::saturate. -/
def saturate (value min max : ℚ) : ℚ :=
  if value < min then min
  else if value > max then max
  else value

/-- CvScaler::expanded_value. -/
def expanded_value (cv : CvScaler) (channel : Nat) : ℚ :=
  saturate (cv.value channel * (105 / 100) - 25 / 1000) 0 1

/-- The first loop of CvScaler::Read: polarity, offset and one-pole filter of every channel. -/
def smooth (cv : CvScaler) (cal : CalibrationData) (adc : Nat → ℚ) : CvScaler :=
  (List.range ADC_CHANNEL_LAST).foldl
    (fun cv i =>
      let input := cv.inputs_ i
      let value := adc i
      let value := if input.polarity = .kPolarityInvert then 1 - value else value
      let value := if input.offset = .kApplyOffset then value - cal.offset i else value
      let input1 : CvInput :=
        { input with value := input.value + input.filter_coefficient * (value - input.value) }
      { cv with inputs_ := Function.update cv.inputs_ i input1 })
    cv

/-- The shift loop of the delay line of CvScaler::Read. -/
def shift (cv : CvScaler) : CvScaler :=
  (List.range (kAdcLatency - 1)).foldl
    (fun cv i =>
      { cv with
        previous_trigger_ := Function.update cv.previous_trigger_ i (cv.previous_trigger_ (i + 1))
        previous_gate_ := Function.update cv.previous_gate_ i (cv.previous_gate_ (i + 1)) })
    cv

/-- CvScaler::Read. The argument quantized_pitch stands for the table lookup
stmlib::Interpolate(lut_quantized_pitch, x, 1024.0f), whose table is not part of these sources;
cal is the object behind calibration_data_. -/
def Read (quantized_pitch : ℚ → ℚ) (cv : CvScaler) (cal : CalibrationData)
    (parameters : Parameters) (hw : ReadInput) : CvScaler × Parameters :=
  let cv := cv.smooth cal hw.adc
  let parameters := { parameters with
    position := parameters.position.update (cv.value ADC_POSITION_POTENTIOMETER_CV) }
  let parameters := { parameters with
    texture := parameters.texture.update (saturate (cv.value ADC_TEXTURE_POTENTIOMETER) 0 1) }
  let parameters := { parameters with
    density := parameters.density.update (saturate (cv.value ADC_DENSITY_POTENTIOMETER_CV) 0 1) }
  let parameters := { parameters with
    size := parameters.size.update (saturate (cv.value ADC_SIZE_POTENTIOMETER) 0 1) }
  let parameters := { parameters with
    dry_wet := parameters.dry_wet.update (cv.expanded_value ADC_DRYWET_POTENTIOMETER) }
  let parameters := { parameters with
    reverb := parameters.reverb.update (cv.expanded_value ADC_REVERB_POTENTIOMETER) }
  let parameters := { parameters with
    feedback := parameters.feedback.update (cv.expanded_value ADC_FEEDBACK_POTENTIOMETER) }
  let parameters := { parameters with
    stereo_spread := parameters.stereo_spread.update (cv.expanded_value ADC_SPREAD_POTENTIOMETER) }
  let pitch := quantized_pitch (cv.value ADC_PITCH_POTENTIOMETER)
  let parameters := { parameters with
    pitch := parameters.pitch.update (saturate pitch (-48) 48) }
  let parameters := { parameters with trigger := cv.previous_trigger_ 0 }
  let parameters := { parameters with gate := cv.previous_gate_ 0 }
  let cv := cv.shift
  let cv := { cv with
    previous_trigger_ :=
      Function.update cv.previous_trigger_ (kAdcLatency - 1) hw.trigger_rising_edge }
  let cv := { cv with
    previous_gate_ := Function.update cv.previous_gate_ (kAdcLatency - 1) hw.gate }
  (cv, parameters)

/-- The state after the first n calls of CvScaler::Read, call k taking its hardware readings
from hw k. -/
def reads (quantized_pitch : ℚ → ℚ) (cal : CalibrationData) (hw : Nat → ReadInput)
    (start : CvScaler × Parameters) : Nat → CvScaler × Parameters
  | 0 => start
  | n + 1 =>
    Read quantized_pitch (reads quantized_pitch cal hw start n).1 cal
      (reads quantized_pitch cal hw start n).2 (hw n)

end CvScaler

/-- A command of the UI to the processing engine: the name of the GranularProcessor method
called and its argument; a preset pointer is none for nullptr. -/
inductive ProcessorCall where
  | set_quality (quality : Nat)
  | set_playback_mode (playback_mode : Nat)
  | ToggleBypass
  | ToggleFreeze
  | ToggleReverse
  | set_inf_reverb (inf_reverb : Bool)
  | set_silence (silence : Bool)
  | set_bypass (bypass : Bool)
  | LoadPreset (preset : Option PresetRef)
  | ExportPreset (preset : Option PresetRef)
  deriving DecidableEq, Repr

/-- Modelled from the spec: the state of the processing engine (class GranularProcessor of
dsp/granular_processor.h) that the UI reads and commands: the quality level, the playback mode
and the bypass, freeze, reverse, infinite-reverb and silence flags (section 4.6, simple
commands that set or toggle a flag), with the list of the commands received, oldest first. -/
structure GranularProcessor where
  quality_ : Nat := 0
  playback_mode_ : Nat := 0
  bypass_ : Bool := false
  frozen_ : Bool := false
  reversed_ : Bool := false
  inf_reverb_ : Bool := false
  silence_ : Bool := false
  calls_ : List ProcessorCall := []
  deriving DecidableEq, Repr

namespace GranularProcessor

/-- Modelled from the spec: GranularProcessor::quality. -/
def quality (p : GranularProcessor) : Nat := p.quality_

/-- Modelled from the spec: GranularProcessor::set_quality. -/
def set_quality (p : GranularProcessor) (q : Nat) : GranularProcessor :=
  { p with quality_ := q, calls_ := p.calls_ ++ [.set_quality q] }

/-- Modelled from the spec: GranularProcessor::playback_mode. -/
def playback_mode (p : GranularProcessor) : Nat := p.playback_mode_

/-- Modelled from the spec: GranularProcessor::set_playback_mode. -/
def set_playback_mode (p : GranularProcessor) (m : Nat) : GranularProcessor :=
  { p with playback_mode_ := m, calls_ := p.calls_ ++ [.set_playback_mode m] }

/-- Modelled from the spec: GranularProcessor::ToggleBypass. -/
def ToggleBypass (p : GranularProcessor) : GranularProcessor :=
  { p with bypass_ := !p.bypass_, calls_ := p.calls_ ++ [.ToggleBypass] }

/-- Modelled from the spec: GranularProcessor::ToggleFreeze. -/
def ToggleFreeze (p : GranularProcessor) : GranularProcessor :=
  { p with frozen_ := !p.frozen_, calls_ := p.calls_ ++ [.ToggleFreeze] }

/-- Modelled from the spec: GranularProcessor::ToggleReverse. -/
def ToggleReverse (p : GranularProcessor) : GranularProcessor :=
  { p with reversed_ := !p.reversed_, calls_ := p.calls_ ++ [.ToggleReverse] }

/-- Modelled from the spec: GranularProcessor::set_inf_reverb. -/
def set_inf_reverb (p : GranularProcessor) (b : Bool) : GranularProcessor :=
  { p with inf_reverb_ := b, calls_ := p.calls_ ++ [.set_inf_reverb b] }

/-- Modelled from the spec: GranularProcessor::set_silence. -/
def set_silence (p : GranularProcessor) (b : Bool) : GranularProcessor :=
  { p with silence_ := b, calls_ := p.calls_ ++ [.set_silence b] }

/-- Modelled from the spec: GranularProcessor::set_bypass. -/
def set_bypass (p : GranularProcessor) (b : Bool) : GranularProcessor :=
  { p with bypass_ := b, calls_ := p.calls_ ++ [.set_bypass b] }

end GranularProcessor

/-- What ui.cc uses of ui.h and dsp/granular_processor.h and these sources do not define, taken
as parameters: the enumerator PLAYBACK_MODE_LAST, the control id SWITCH_COMBO_FREEZE_BYPASS,
and the two preset methods of the engine. LoadPreset takes the record behind the pointer it
is given (none for nullptr) and gives the engine afterwards; ExportPreset takes the record
behind its pointer and gives the engine afterwards and the record it leaves there. -/
structure Engine where
  PLAYBACK_MODE_LAST : Nat
  SWITCH_COMBO_FREEZE_BYPASS : Nat
  LoadPreset : GranularProcessor → Option Preset → GranularProcessor
  ExportPreset : GranularProcessor → Preset → GranularProcessor × Preset

/-- The members of the class Ui: the mode, the switches, the event queue, the preset cursor
(two uint8_t) and the objects behind the pointers cv_scaler_, settings_ and processor_. -/
structure Ui where
  mode_ : UiMode := .UI_MODE_SPLASH
  switches_ : Nat → Switch
  queue_ : EventQueue := {}
  cv_scaler_ : CvScaler := {}
  settings_ : Settings := {}
  processor_ : GranularProcessor := {}
  load_save_bank_ : Nat := 0
  load_save_location_ : Nat := 0

namespace Ui

/-- Ui::resetFlaggedSwitches. -/
def resetFlaggedSwitches (ui : Ui) (flags : Nat) : Ui :=
  (List.range kNumSwitches).foldl
    (fun ui i =>
      if flags &&& (1 <<< i) ≠ 0 then
        { ui with switches_ := Function.update ui.switches_ i (ui.switches_ i).reset }
      else ui) ui

/-- Ui::setFlaggedSwitchState; as in the source, the state argument is not used and the flagged
switches are set to SwitchLongPressed. -/
def setFlaggedSwitchState (ui : Ui) (flags : Nat) (_state : SwitchState) : Ui :=
  (List.range kNumSwitches).foldl
    (fun ui i =>
      if flags &&& (1 <<< i) ≠ 0 then
        { ui with switches_ :=
            Function.update ui.switches_ i ((ui.switches_ i).set_state .SwitchLongPressed) }
      else ui) ui

/-- The call queue_.AddEvent of Ui::Poll at clock reading now. -/
def AddEvent (ui : Ui) (now : Nat) (control_type : ControlType) (id : Nat) (data : Int) : Ui :=
  { ui with queue_ := ui.queue_.AddEvent now control_type id data }

/-- The first loop of Ui::Poll: the bitmask and the count of the switches whose state is not
SwitchReleased, both uint16_t. -/
def comboScan (ui : Ui) : Nat × Nat :=
  (List.range kNumSwitches).foldl
    (fun acc i =>
      if (ui.switches_ i).state_ ≠ .SwitchReleased then
        ((acc.1 ||| (1 <<< i)) % 2 ^ 16, (acc.2 + 1) % 2 ^ 16)
      else acc) (0, 0)

/-- The body of the second loop of Ui::Poll for switch i. -/
def pollSwitch (now combo_flags combo_count combo_id : Nat) (ui : Ui) (i : Nat) : Ui :=
  let s := ui.switches_ i
  let pressed_time : Int := toInt32 (sub32 now s.press_time_)
  match s.state_ with
  | .SwitchPressed =>
    if s.just_released then
      if combo_count > 1 then
        let ui1 := ui.resetFlaggedSwitches combo_flags
        ui1.AddEvent now .CONTROL_SWITCH combo_id (ui1.switches_ i).state_.toInt
      else
        let ui1 := { ui with switches_ := Function.update ui.switches_ i s.reset }
        ui1.AddEvent now .CONTROL_SWITCH i (ui1.switches_ i).state_.toInt
    else if pressed_time > kLongPressDuration then
      if combo_count > 1 then
        let ui1 := ui.setFlaggedSwitchState combo_flags .SwitchLongPressed
        ui1.AddEvent now .CONTROL_SWITCH combo_id (ui1.switches_ i).state_.toInt
      else
        let ui1 := { ui with switches_ :=
                      Function.update ui.switches_ i (s.set_state .SwitchLongPressed) }
        ui1.AddEvent now .CONTROL_SWITCH i (ui1.switches_ i).state_.toInt
    else ui
  | .SwitchLongPressed =>
    if s.just_released then
      { ui with switches_ := Function.update ui.switches_ i s.reset }
    else ui
  | _ =>
    if s.just_pressed then
      { ui with switches_ := Function.update ui.switches_ i (s.capture_press now) }
    else ui

/-- Ui::Poll, with the millisecond clock reading after system_clock.Tick() and the levels of
the switch pins as arguments; PaintLeds only writes to the LEDs and is left out. -/
def Poll (ui : Ui) (now : Nat) (pins : Nat → Bool) : Ui :=
  let ui0 := { ui with switches_ := Switches.Scan ui.switches_ pins }
  let combo_flags := ui0.comboScan.1
  let combo_count := ui0.comboScan.2
  let combo_id := (combo_flags <<< fls (kNumSwitches - 1)) % 2 ^ 16
  (List.range kNumSwitches).foldl (pollSwitch now combo_flags combo_count combo_id) ui0

end Ui


namespace Ui

/-- Ui::CalibrateC1; the calibration data is the one of the settings record, to which the
pointer calibration_data_ of the scaler refers. -/
def CalibrateC1 (ui : Ui) (adc : Nat → ℚ) : Ui :=
  let cv := ui.cv_scaler_.CalibrateC1 adc
  let cal := cv.CalibrateOffsets ui.settings_.data_.calibration_data adc
  { ui with
    cv_scaler_ := cv
    settings_ := { ui.settings_ with data_ := { ui.settings_.data_ with calibration_data := cal } }
    mode_ := .UI_MODE_CALIBRATION_2 }

/-- Ui::CalibrateC3. -/
def CalibrateC3 (ui : Ui) (adc : Nat → ℚ) : Ui :=
  let r := ui.cv_scaler_.CalibrateC3 ui.settings_.data_.calibration_data adc
  let success := r.1
  let ui1 := { ui with
    settings_ := { ui.settings_ with data_ := { ui.settings_.data_ with calibration_data := r.2 } } }
  if success then
    { ui1 with settings_ := ui1.settings_.Save, mode_ := .UI_MODE_VU_METER }
  else
    { ui1 with mode_ := .UI_MODE_PANIC }

end Ui

/-- Whether the loop body of Ui::Poll enqueues an event when it visits a switch: the switch is
SwitchPressed and is detected as released or has been held longer than kLongPressDuration at
clock reading now. -/
def Switch.fires (s : Switch) (now : Nat) : Bool :=
  decide (s.state_ = .SwitchPressed) &&
    (s.just_released || decide (toInt32 (sub32 now s.press_time_) > kLongPressDuration))

/-- What the loop body of Ui::Poll does to a switch on the branches that call no AddEvent. -/
def Switch.quietStep (s : Switch) (now : Nat) : Switch :=
  match s.state_ with
  | .SwitchPressed => s
  | .SwitchLongPressed => if s.just_released then s.reset else s
  | _ => if s.just_pressed then s.capture_press now else s

/-- The switches after Switches::Scan, as Ui::Poll sees them. -/
def Ui.scanned (ui : Ui) (pins : Nat → Bool) : Ui :=
  { ui with switches_ := Switches.Scan ui.switches_ pins }

/-- The quiet step applied to the switches whose index satisfies p. -/
def Ui.quietOn (u : Ui) (now : Nat) (p : Nat → Prop) [DecidablePred p] : Ui :=
  { u with switches_ := fun j => if p j then (u.switches_ j).quietStep now else u.switches_ j }

/-- An idle switch: released, with a history of ones. -/
def Switch.idle : Switch := { debounce_buffer_ := 0xff, state_ := .SwitchReleased, press_time_ := 0 }

/-- Example state: SWITCH_WRITE pressed at 100 ms, its pin high for the last six scans. -/
def tapExample : Ui :=
  { switches_ := fun j =>
      if j = 1 then { debounce_buffer_ := 0x3f, state_ := .SwitchPressed, press_time_ := 100 }
      else Switch.idle }

/-- Example state: SWITCH_FREEZE pressed at 100 ms and held. -/
def holdExample : Ui :=
  { switches_ := fun j =>
      if j = 2 then { debounce_buffer_ := 0x00, state_ := .SwitchPressed, press_time_ := 100 }
      else Switch.idle }

/-- The pins of holdExample: SWITCH_FREEZE low (held), the others high. -/
def holdPins : Nat → Bool := fun j => decide (j ≠ 2)

/-- Example state: SWITCH_MODE and SWITCH_WRITE pressed, MODE about to be detected as
released, WRITE held. -/
def comboExample : Ui :=
  { switches_ := fun j =>
      if j = 0 then { debounce_buffer_ := 0x3f, state_ := .SwitchPressed, press_time_ := 100 }
      else if j = 1 then { debounce_buffer_ := 0x00, state_ := .SwitchPressed, press_time_ := 120 }
      else Switch.idle }

/-- The pins of comboExample and comboBounce: SWITCH_MODE high, SWITCH_WRITE low. -/
def comboPins : Nat → Bool := fun j => decide (j ≠ 1)

/-- Example state: SWITCH_MODE and SWITCH_WRITE both pressed at 8 ms; MODE is about to be
detected as released, WRITE is held and bounced for one sample seven scans ago. -/
def comboBounce : Ui :=
  { switches_ := fun j =>
      if j = 0 then { debounce_buffer_ := 0x3f, state_ := .SwitchPressed, press_time_ := 8 }
      else if j = 1 then { debounce_buffer_ := 0x40, state_ := .SwitchPressed, press_time_ := 8 }
      else Switch.idle }

/-- Example state: SWITCH_MODE long-pressed and about to be detected as released, SWITCH_WRITE
pressed at 1000 ms and held. -/
def longRace : Ui :=
  { switches_ := fun j =>
      if j = 0 then { debounce_buffer_ := 0x3f, state_ := .SwitchLongPressed, press_time_ := 5 }
      else if j = 1 then
        { debounce_buffer_ := 0x00, state_ := .SwitchPressed, press_time_ := 1000 }
      else Switch.idle }

/-- A run of Ui::Poll calls, one per millisecond from clock reading now, over the pin levels
of each tick. -/
def Ui.Polls (ui : Ui) (now : Nat) : List (Nat → Bool) → Ui
  | [] => ui
  | pins :: rest => (ui.Poll now pins).Polls (now + 1) rest

/-- Pin levels of 16 ticks: all high; SWITCH_MODE and SWITCH_WRITE low for eight ticks; WRITE
high for one tick (a bounce) while MODE stays low; then MODE high and WRITE low for six. -/
def bounceTrace : List (Nat → Bool) :=
  [fun _ => true] ++ List.replicate 8 (fun j => decide (2 ≤ j)) ++ [fun j => decide (1 ≤ j)] ++
    List.replicate 6 (fun j => decide (j ≠ 1))

/-- Example state: SWITCH_MODE pressed at 100 ms and held, SWITCH_WRITE pressed at 900 ms and
about to be detected as released. -/
def comboMixed : Ui :=
  { switches_ := fun j =>
      if j = 0 then { debounce_buffer_ := 0x00, state_ := .SwitchPressed, press_time_ := 100 }
      else if j = 1 then
        { debounce_buffer_ := 0x3f, state_ := .SwitchPressed, press_time_ := 900 }
      else Switch.idle }

/-- The pins of comboMixed: SWITCH_MODE low (held), the others high. -/
def mixedPins : Nat → Bool := fun j => decide (1 ≤ j)

namespace GranularProcessor

/-- The call processor_->LoadPreset(preset): the engine afterwards is given by the parameter
eng.LoadPreset from the record behind the pointer; the call is recorded. -/
def LoadPreset (p : GranularProcessor) (eng : Engine) (s : Settings)
    (preset : Option PresetRef) : GranularProcessor :=
  { eng.LoadPreset p (preset.map s.deref) with calls_ := p.calls_ ++ [.LoadPreset preset] }

/-- The call processor_->ExportPreset(preset): the engine and the settings afterwards. The
record behind the pointer becomes the one given by the parameter eng.ExportPreset; a nullptr
is taken to leave the presets alone. The call is recorded. -/
def ExportPreset (p : GranularProcessor) (eng : Engine) (s : Settings)
    (preset : Option PresetRef) : GranularProcessor × Settings :=
  match preset with
  | none => ({ p with calls_ := p.calls_ ++ [.ExportPreset none] }, s)
  | some r =>
    let out := eng.ExportPreset p (s.deref r)
    let bank1 : PresetBank :=
      { s.presets_ with presets := Function.update s.presets_.presets r.index out.2 }
    ({ out.1 with calls_ := p.calls_ ++ [.ExportPreset (some r)] }, { s with presets_ := bank1 })

end GranularProcessor

namespace Ui

/-- Ui::SaveState; the fields of State are uint8_t. -/
def SaveState (ui : Ui) : Ui :=
  let state : State :=
    { quality := ui.processor_.quality % 256, playback_mode := ui.processor_.playback_mode % 256 }
  let data1 : SettingsData := { ui.settings_.data_ with state := state }
  let settings1 : Settings := { ui.settings_ with data_ := data1 }
  { ui with settings_ := settings1.Save }

/-- Ui::IncrementLoadSaveLocation. -/
def IncrementLoadSaveLocation (ui : Ui) : Ui :=
  let c := ui.settings_.IncrementPresetLocation ui.load_save_bank_ ui.load_save_location_
  { ui with load_save_bank_ := c.1, load_save_location_ := c.2 }

/-- Ui::LoadPreset. -/
def LoadPreset (eng : Engine) (ui : Ui) : Ui :=
  let preset := ui.settings_.ConstPreset ui.load_save_bank_ ui.load_save_location_
  let ui1 := { ui with processor_ := ui.processor_.LoadPreset eng ui.settings_ preset }
  ui1.IncrementLoadSaveLocation

/-- Ui::SavePreset. -/
def SavePreset (eng : Engine) (ui : Ui) : Ui :=
  let ui1 := { ui with processor_ := ui.processor_.set_silence true }
  let r := ui1.settings_.Preset ui1.load_save_bank_ ui1.load_save_location_
  let out := ui1.processor_.ExportPreset eng r.1 r.2
  let ui2 := { ui1 with processor_ := out.1, settings_ := out.2 }
  let ui3 := { ui2 with settings_ := ui2.settings_.SavePresets }
  let ui4 := { ui3 with processor_ := ui3.processor_.set_silence false }
  ui4.IncrementLoadSaveLocation

/-- Ui::DecrementPlaybackMode; mode is a uint8_t. -/
def DecrementPlaybackMode (eng : Engine) (ui : Ui) : Ui :=
  let mode :=
    (if ui.processor_.playback_mode = 0 then eng.PLAYBACK_MODE_LAST - 1
     else ui.processor_.playback_mode - 1) % 256
  let ui1 := { ui with processor_ := ui.processor_.set_playback_mode mode }
  ui1.SaveState

/-- Ui::IncrementPlaybackMode; mode is a uint8_t. -/
def IncrementPlaybackMode (eng : Engine) (ui : Ui) : Ui :=
  let mode := ((ui.processor_.playback_mode + 1) % eng.PLAYBACK_MODE_LAST) % 256
  let ui1 := { ui with processor_ := ui.processor_.set_playback_mode mode }
  ui1.SaveState

/-- Ui::IncrementQuality. -/
def IncrementQuality (ui : Ui) : Ui :=
  let ui1 := { ui with processor_ := ui.processor_.set_quality ((ui.processor_.quality + 1) &&& 3) }
  ui1.SaveState

/-- Ui::OnSwitchEvent, with the ADC readings at the time of the call as argument (the
calibration steps read them). -/
def OnSwitchEvent (eng : Engine) (adc : Nat → ℚ) (ui : Ui) (e : Event) : Ui :=
  if e.data = SwitchState.SwitchPressed.toInt then ui
  else
    match ui.mode_ with
    | .UI_MODE_CALIBRATION_1 =>
      if e.control_id = SWITCH_WRITE then ui.CalibrateC1 adc
      else { ui with mode_ := .UI_MODE_VU_METER }
    | .UI_MODE_CALIBRATION_2 =>
      if e.control_id = SWITCH_WRITE then ui.CalibrateC3 adc
      else { ui with mode_ := .UI_MODE_VU_METER }
    | .UI_MODE_LOAD =>
      if e.control_id = SWITCH_FREEZE ∨ e.control_id = SWITCH_MODE then
        if e.data = SwitchState.SwitchLongPressed.toInt then
          { Ui.LoadPreset eng ui with mode_ := .UI_MODE_VU_METER }
        else if e.data = SwitchState.SwitchReleased.toInt then ui.IncrementLoadSaveLocation
        else ui
      else { ui with mode_ := .UI_MODE_VU_METER }
    | .UI_MODE_PLAYBACK_MODE =>
      if e.control_id = SWITCH_MODE then Ui.DecrementPlaybackMode eng ui
      else if e.control_id = SWITCH_WRITE then Ui.IncrementPlaybackMode eng ui
      else { ui with mode_ := .UI_MODE_VU_METER }
    | .UI_MODE_QUALITY =>
      if e.control_id = SWITCH_MODE then
        if e.data = SwitchState.SwitchReleased.toInt then ui.IncrementQuality
        else ui
      else { ui with mode_ := .UI_MODE_VU_METER }
    | .UI_MODE_SAVE =>
      if e.control_id = SWITCH_WRITE then
        if e.data = SwitchState.SwitchLongPressed.toInt then
          let ui1 := { ui with mode_ := .UI_MODE_SAVING }
          { Ui.SavePreset eng ui1 with mode_ := .UI_MODE_VU_METER }
        else if e.data = SwitchState.SwitchReleased.toInt then ui.IncrementLoadSaveLocation
        else ui
      else { ui with mode_ := .UI_MODE_VU_METER }
    | .UI_MODE_VU_METER =>
      if e.control_id = SWITCH_MODE then
        if e.data = SwitchState.SwitchLongPressed.toInt then { ui with mode_ := .UI_MODE_LOAD }
        else if e.data = SwitchState.SwitchReleased.toInt then
          { ui with mode_ := .UI_MODE_QUALITY }
        else ui
      else if e.control_id = SWITCH_WRITE then
        if e.data = SwitchState.SwitchLongPressed.toInt then { ui with mode_ := .UI_MODE_SAVE }
        else if e.data = SwitchState.SwitchReleased.toInt then
          { ui with mode_ := .UI_MODE_PLAYBACK_MODE }
        else ui
      else if e.control_id = SWITCH_BYPASS then
        if e.data = SwitchState.SwitchLongPressed.toInt then
          { ui with processor_ := ui.processor_.set_inf_reverb true }
        else if e.data = SwitchState.SwitchReleased.toInt then
          { ui with processor_ := ui.processor_.ToggleBypass }
        else ui
      else if e.control_id = SWITCH_FREEZE then
        if e.data = SwitchState.SwitchLongPressed.toInt then
          { ui with processor_ := ui.processor_.ToggleReverse }
        else if e.data = SwitchState.SwitchReleased.toInt then
          { ui with processor_ := ui.processor_.ToggleFreeze }
        else ui
      else if e.control_id = eng.SWITCH_COMBO_FREEZE_BYPASS then
        if e.data = SwitchState.SwitchLongPressed.toInt then { ui with mode_ := .UI_MODE_LOAD }
        else ui
      else ui
    | .UI_MODE_PANIC => ui
    | .UI_MODE_SAVING => ui
    | .UI_MODE_SPLASH => ui

/-- The case FACTORY_TESTING_CALIBRATE of Ui::HandleFactoryTestingRequest for an argument
(the low five bits of the command byte), with the ADC readings at the time of the call. -/
def FactoryTestingCalibrate (ui : Ui) (argument : Nat) (adc : Nat → ℚ) : Ui :=
  if argument = 0 then { ui with mode_ := .UI_MODE_CALIBRATION_1 }
  else if argument = 1 then ui.CalibrateC1 adc
  else (ui.CalibrateC3 adc).SaveState

/-- A run of Ui::OnSwitchEvent over a list of events, each with the ADC readings at its
time, oldest first. -/
def OnSwitchEvents (eng : Engine) (ui : Ui) (es : List (Event × (Nat → ℚ))) : Ui :=
  es.foldl (fun u x => Ui.OnSwitchEvent eng x.2 u x.1) ui

end Ui

/-- Example state: the UI in Calibration-1, switches idle, calibration data and settings at
their defaults (all zero), nothing saved. -/
def calibrationExample : Ui :=
  { switches_ := fun _ => Switch.idle, mode_ := .UI_MODE_CALIBRATION_1 }

/-- Example ADC readings of the first calibration step: every channel reads 1/2. -/
def calibrationAdc1 : Nat → ℚ := fun _ => 1 / 2

/-- Example ADC readings of the second calibration step: every channel reads 3/5, so that the
delta of the V/OCT channel is +1/10. -/
def calibrationAdc2 : Nat → ℚ := fun _ => 3 / 5

/-- A WRITE release event. -/
def writeRelease : Event :=
  { control_type := .CONTROL_SWITCH, control_id := SWITCH_WRITE,
    data := SwitchState.SwitchReleased.toInt }

/-- The UI parameters used in the examples: four playback modes, the combo identifier of
FREEZE and BYPASS as Ui::Poll computes it, and an engine whose preset methods change
nothing. -/
def exampleEngine : Engine :=
  { PLAYBACK_MODE_LAST := 4, SWITCH_COMBO_FREEZE_BYPASS := 48,
    LoadPreset := fun p _ => p, ExportPreset := fun p r => (p, r) }

/-- Example settings: the preset bank as Settings::init_presets leaves it, three banks of four
zeroed records. -/
def presetsFresh : Settings := Settings.init_presets {}

/-- The cursor after k calls of Settings::IncrementPresetLocation. -/
def Settings.IncrementPresetLocations (s : Settings) : Nat → Nat × Nat → Nat × Nat
  | 0, c => c
  | k + 1, c =>
    s.IncrementPresetLocation (s.IncrementPresetLocations k c).1
      (s.IncrementPresetLocations k c).2

/-- A MODE release event. -/
def modeRelease : Event :=
  { control_type := .CONTROL_SWITCH, control_id := SWITCH_MODE,
    data := SwitchState.SwitchReleased.toInt }

/-- A MODE long-press event. -/
def modeLongPress : Event :=
  { control_type := .CONTROL_SWITCH, control_id := SWITCH_MODE,
    data := SwitchState.SwitchLongPressed.toInt }

/-- A WRITE long-press event. -/
def writeLongPress : Event :=
  { control_type := .CONTROL_SWITCH, control_id := SWITCH_WRITE,
    data := SwitchState.SwitchLongPressed.toInt }

/-- A FREEZE long-press event. -/
def freezeLongPress : Event :=
  { control_type := .CONTROL_SWITCH, control_id := SWITCH_FREEZE,
    data := SwitchState.SwitchLongPressed.toInt }

/-- Example state: the UI in the given mode, switches idle, the preset bank freshly
initialised, the cursor at bank 2, slot 3. -/
def modeExample (mode : UiMode) : Ui :=
  { switches_ := fun _ => Switch.idle, mode_ := mode, settings_ := presetsFresh,
    load_save_bank_ := 2, load_save_location_ := 3 }

/-- Whether the switch statement of Ui::OnSwitchEvent for a mode has a case label for a
control id; the arms of Panic, Saving and Splash have none. -/
def Ui.handles (eng : Engine) : UiMode → Nat → Bool
  | .UI_MODE_CALIBRATION_1, id => id == SWITCH_WRITE
  | .UI_MODE_CALIBRATION_2, id => id == SWITCH_WRITE
  | .UI_MODE_LOAD, id => id == SWITCH_FREEZE || id == SWITCH_MODE
  | .UI_MODE_PLAYBACK_MODE, id => id == SWITCH_MODE || id == SWITCH_WRITE
  | .UI_MODE_QUALITY, id => id == SWITCH_MODE
  | .UI_MODE_SAVE, id => id == SWITCH_WRITE
  | .UI_MODE_VU_METER, id =>
    id == SWITCH_MODE || id == SWITCH_WRITE || id == SWITCH_BYPASS || id == SWITCH_FREEZE ||
      id == eng.SWITCH_COMBO_FREEZE_BYPASS
  | .UI_MODE_PANIC, _ => false
  | .UI_MODE_SAVING, _ => false
  | .UI_MODE_SPLASH, _ => false

/-- Modelled from the spec: EventQueue::idle_time at clock reading now, the time since the last
enqueue or touch (section 4.3), a uint32_t. -/
def EventQueue.idle_time (q : EventQueue) (now : Nat) : Nat := sub32 now q.last_event_time_

/-- Modelled from the spec: EventQueue::Touch at clock reading now resets the idle clock. -/
def EventQueue.Touch (q : EventQueue) (now : Nat) : EventQueue :=
  { q with last_event_time_ := now }

/-- Modelled from the spec: GranularProcessor::inf_reverb. -/
def GranularProcessor.inf_reverb (p : GranularProcessor) : Bool := p.inf_reverb_

/-- Switch::pressed_immediate, with the bit read from the pin as argument. -/
def Switch.pressed_immediate (pin : Bool) : Bool := !pin

namespace Ui

/-- The while loop of Ui::DoEvents, run for at most fuel iterations: while an event is
available (events_ has a head) it is pulled from the queue and, if it is a switch event, handed
to OnSwitchEvent. -/
def pullEvents (eng : Engine) (adc : Nat → ℚ) : Nat → Ui → Ui
  | 0, ui => ui
  | fuel + 1, ui =>
    match ui.queue_.events_ with
    | [] => ui
    | e :: rest =>
      let ui1 := { ui with queue_ := { ui.queue_ with events_ := rest } }
      let ui2 := if e.control_type = .CONTROL_SWITCH then Ui.OnSwitchEvent eng adc ui1 e else ui1
      pullEvents eng adc fuel ui2

/-- Ui::DoEvents, with the ADC readings and the millisecond clock reading at the time of the
call as arguments. The while loop gets one iteration per event pending at entry. -/
def DoEvents (eng : Engine) (adc : Nat → ℚ) (ui : Ui) (now : Nat) : Ui :=
  let ui := Ui.pullEvents eng adc ui.queue_.events_.length ui
  let ui :=
    if ui.queue_.idle_time now > 1000 ∧ ui.mode_ = .UI_MODE_PANIC then
      { ui with queue_ := ui.queue_.Touch now, mode_ := .UI_MODE_VU_METER }
    else ui
  let ui :=
    if ui.queue_.idle_time now > 3000 ∧
        (ui.mode_ = .UI_MODE_QUALITY ∨ ui.mode_ = .UI_MODE_PLAYBACK_MODE ∨
          ui.mode_ = .UI_MODE_SPLASH) then
      { ui with queue_ := ui.queue_.Touch now, mode_ := .UI_MODE_VU_METER }
    else ui
  let ui :=
    if ui.queue_.idle_time now > 6000 then
      let ui1 := { ui with queue_ := ui.queue_.Touch now }
      if ui1.mode_ = .UI_MODE_SAVE ∨ ui1.mode_ = .UI_MODE_LOAD then
        { ui1 with mode_ := .UI_MODE_VU_METER }
      else ui1
    else ui
  if ui.processor_.inf_reverb = true ∧ ¬ (ui.switches_ SWITCH_BYPASS).pressed = true then
    { ui with processor_ := ui.processor_.set_inf_reverb false }
  else ui

/-- A run of Ui::DoEvents calls at the clock readings of a list, oldest first. -/
def DoEventsAt (eng : Engine) (adc : Nat → ℚ) (ui : Ui) (ts : List Nat) : Ui :=
  ts.foldl (Ui.DoEvents eng adc) ui

/-- Ui::Init. The arguments are the objects behind the pointers handed in, the switches as
Switches::Init (switches.cc, not part of these sources) leaves them, and the levels of the
switch pins; the LEDs and the meter are left out. -/
def Init (eng : Engine) (ui : Ui) (settings : Settings) (cv_scaler : CvScaler)
    (processor : GranularProcessor) (switches0 : Nat → Switch) (pins : Nat → Bool) : Ui :=
  let ui := { ui with settings_ := settings, cv_scaler_ := cv_scaler, switches_ := switches0 }
  let ui := { ui with processor_ := processor, mode_ := .UI_MODE_SPLASH }
  let state := ui.settings_.data_.state
  let ui := { ui with processor_ := ui.processor_.set_quality (state.quality &&& 3) }
  let ui := { ui with processor_ :=
    ui.processor_.set_playback_mode (state.playback_mode % eng.PLAYBACK_MODE_LAST) }
  if Switch.pressed_immediate (pins SWITCH_WRITE) then
    { ui with
      mode_ := .UI_MODE_CALIBRATION_1
      switches_ := Function.update ui.switches_ SWITCH_WRITE (ui.switches_ SWITCH_WRITE).reset }
  else ui

/-- The combo identifier Ui::Poll computes from the bitmask combo_flags, a uint16_t. -/
def combo_id (combo_flags : Nat) : Nat := (combo_flags <<< fls (kNumSwitches - 1)) % 2 ^ 16

/-- A run of Ui::Poll calls, each with the clock reading and the pin levels of its tick,
oldest first. -/
def PollsAt (ui : Ui) : List (Nat × (Nat → Bool)) → Ui
  | [] => ui
  | t :: rest => (ui.Poll t.1 t.2).PollsAt rest

end Ui

/-- The number of switches a bitmask flags. -/
def flaggedCount (flags : Nat) : Nat :=
  ((List.range kNumSwitches).filter (fun i => flags &&& (1 <<< i) ≠ 0)).length

/-- The reading of a channel after the polarity step of CvScaler::Read. -/
def CvInput.adjusted (input : CvInput) (value : ℚ) : ℚ :=
  if input.polarity = .kPolarityInvert then 1 - value else value

/-- Example state: every switch reset, with a debounce history of ones. -/
def resetExample : Ui := { switches_ := fun _ => Switch.idle }

/-- Example state: the UI in VU-Meter with a MODE release enqueued at clock 5000. -/
def qualityEntry : Ui :=
  (modeExample .UI_MODE_VU_METER).AddEvent 5000 .CONTROL_SWITCH SWITCH_MODE
    SwitchState.SwitchReleased.toInt

/-- Example ADC readings: every channel reads 1/2. -/
def adcHalf : Nat → ℚ := fun _ => 1 / 2

/-- Example hardware readings: every channel reads 1/4 at every call, no gate, no trigger. -/
def readsExample : Nat → ReadInput :=
  fun _ => { adc := fun _ => 1 / 4, trigger_rising_edge := false, gate := false }

/-- Example parameters: every parameter following its control, at 0. -/
def parametersExample : Parameters :=
  let p : Parameter := { current_value_ := .control_value_, loaded_value_ := 0, control_value_ := 0 }
  { position := p, size := p, pitch := p, density := p, texture := p, dry_wet := p,
    stereo_spread := p, feedback := p, reverb := p, freeze := false, trigger := false,
    gate := false }

/-- Whether the idle checks of Ui::DoEvents, entered in a mode with idle time t, set the mode
to VU-Meter: the conditions of its three if statements. -/
def idleReverts (mode : UiMode) (t : Nat) : Bool :=
  (decide (t > 1000) && decide (mode = .UI_MODE_PANIC)) ||
  (decide (t > 3000) &&
    (decide (mode = .UI_MODE_QUALITY) || decide (mode = .UI_MODE_PLAYBACK_MODE) ||
      decide (mode = .UI_MODE_SPLASH))) ||
  (decide (t > 6000) && (decide (mode = .UI_MODE_SAVE) || decide (mode = .UI_MODE_LOAD)))

/-- Pin levels: SWITCH_MODE low (held), the others high. -/
def modeHeld : Nat → Bool := fun j => decide (j ≠ 0)

/-- Pin levels: SWITCH_MODE and SWITCH_WRITE low (held), the others high. -/
def bothHeld : Nat → Bool := fun j => decide (2 ≤ j)

/-- Example state: SWITCH_MODE captured at clock 7 and held, the other switches idle, nothing
enqueued. -/
def raceHeld : Ui :=
  { switches_ := fun j =>
      if j = 0 then { debounce_buffer_ := 0x00, state_ := .SwitchPressed, press_time_ := 7 }
      else Switch.idle }

/-- Example state: SWITCH_MODE long-pressed since clock 1008 and held, SWITCH_WRITE captured at
clock 1015 and held, the long-press event of MODE enqueued. -/
def raceBoth : Ui :=
  { switches_ := fun j =>
      if j = 0 then { debounce_buffer_ := 0x00, state_ := .SwitchLongPressed, press_time_ := 7 }
      else if j = 1 then
        { debounce_buffer_ := 0x00, state_ := .SwitchPressed, press_time_ := 1015 }
      else Switch.idle
    queue_ :=
      { events_ := [{ control_type := .CONTROL_SWITCH, control_id := SWITCH_MODE,
                      data := SwitchState.SwitchLongPressed.toInt }],
        last_event_time_ := 1008 } }

/-- Pin levels of 2016 ticks, one per millisecond from clock 1: MODE is held for the first 2009
ticks and let go for the last 7; WRITE is held from tick 1009 on. -/
def raceTicks : List (Nat → Bool) :=
  List.replicate 1008 modeHeld ++ List.replicate 1001 bothHeld ++ List.replicate 7 comboPins

/-- Example calibration data: the values Settings::Init falls back to, as rationals. -/
def calibrationFallback : CalibrationData :=
  { pitch_offset := 6667 / 100, pitch_scale := -(8426 / 100), offset := fun _ => 505 / 1000 }

/-- Example scaler outside the configuration of cv_scaler.cc: every channel with kApplyOffset,
coefficient 1 and smoothed value 0. -/
def offsetScaler : CvScaler :=
  { inputs_ := fun _ =>
      { polarity := .kPolarityNormal, offset := .kApplyOffset, filter_coefficient := 1,
        value := 0 } }

/-- Example settings: three banks of four initialised records; record i of the row-major array
carries the number i in its playback_mode field. -/
def presetsFilled : Settings :=
  { presets_ :=
      { version := CURRENT_PRESET_BANK_VERSION, num_banks := PRESET_NUM_BANKS,
        bank_size := PRESET_BANK_SIZE,
        presets := fun i => { version := CURRENT_PRESET_VERSION, playback_mode := i } } }

/-- Example UI parameters: those of exampleEngine with an engine whose LoadPreset takes the
playback mode of the record it is handed and does nothing on a nullptr. -/
def recallEngine : Engine :=
  { PLAYBACK_MODE_LAST := 4, SWITCH_COMBO_FREEZE_BYPASS := 48,
    LoadPreset := fun p r =>
      match r with
      | some r => { p with playback_mode_ := r.playback_mode }
      | none => p,
    ExportPreset := fun p r => (p, r) }

/-- Example state: the UI in VU-Meter, switches idle, the preset bank presetsFilled, the cursor
at bank 2, slot 3. -/
def filledExample : Ui :=
  { switches_ := fun _ => Switch.idle, mode_ := .UI_MODE_VU_METER, settings_ := presetsFilled,
    load_save_bank_ := 2, load_save_location_ := 3 }

/-! Parameter pickup -/

theorem Parameter.update_far (p : Parameter) (x : ℚ)
    (hc : p.current_value_ = .loaded_value_) (hx : ¬ |x - p.loaded_value_| < TOUCH_RANGE) :
    p.update x = { p with control_value_ := x } := by
  simp [Parameter.update, hc, hx]

theorem Parameter.update_near (p : Parameter) (x : ℚ)
    (hx : |x - p.loaded_value_| < TOUCH_RANGE) :
    (p.update x).current_value_ = .control_value_ ∧ (p.update x).control_value_ = x := by
  unfold Parameter.update
  cases hc : p.current_value_ <;> simp [hc, hx, Parameter.sync]

theorem Parameter.update_control (p : Parameter) (x : ℚ)
    (hc : p.current_value_ = .control_value_) :
    (p.update x).current_value_ = .control_value_ ∧ (p.update x).control_value_ = x := by
  simp [Parameter.update, hc]

theorem Parameter.updates_far (xs : List ℚ) (p : Parameter)
    (hc : p.current_value_ = .loaded_value_)
    (hx : ∀ y ∈ xs, ¬ |y - p.loaded_value_| < TOUCH_RANGE) :
    (p.updates xs).current_value_ = .loaded_value_ ∧
      (p.updates xs).loaded_value_ = p.loaded_value_ := by
  induction xs generalizing p with
  | nil => exact ⟨hc, rfl⟩
  | cons x xs ih =>
    have h1 := Parameter.update_far p x hc (hx x (List.mem_cons_self _ _))
    have := ih (p.update x) (by rw [h1]; exact hc)
      (by rw [h1]; exact fun y hy => hx y (List.mem_cons_of_mem _ hy))
    simp only [Parameter.updates, List.foldl_cons] at this ⊢
    rw [this.1, this.2, h1]
    exact ⟨rfl, rfl⟩

theorem Parameter.updates_control (xs : List ℚ) (p : Parameter)
    (hc : p.current_value_ = .control_value_) :
    (p.updates xs).current_value_ = .control_value_ := by
  induction xs generalizing p with
  | nil => exact hc
  | cons x xs ih => exact ih (p.update x) (Parameter.update_control p x hc).1

/-- C1: after load(L), value() is L after every update that stays at least TOUCH_RANGE away
from L, and the first update x with |x - L| < TOUCH_RANGE makes value() equal to x, a move of
less than TOUCH_RANGE. -/
theorem pickup_convergence (p : Parameter) (L : ℚ) (xs : List ℚ) (x : ℚ)
    (hfar : ∀ y ∈ xs, ¬ |y - L| < TOUCH_RANGE) (hnear : |x - L| < TOUCH_RANGE) :
    (∀ k, k ≤ xs.length → ((p.load L).updates (xs.take k)).value = L) ∧
      ((p.load L).updates (xs ++ [x])).value = x ∧
      (((p.load L).updates (xs ++ [x])).current_value_ = .control_value_) ∧
      |((p.load L).updates (xs ++ [x])).value - ((p.load L).updates xs).value| < 1 / 100 := by
  have key : ∀ ys : List ℚ, (∀ y ∈ ys, ¬ |y - L| < TOUCH_RANGE) →
      ((p.load L).updates ys).current_value_ = .loaded_value_ ∧
      ((p.load L).updates ys).loaded_value_ = L := fun ys hys =>
    Parameter.updates_far ys (p.load L) rfl hys
  have hval : ∀ ys : List ℚ, (∀ y ∈ ys, ¬ |y - L| < TOUCH_RANGE) →
      ((p.load L).updates ys).value = L := by
    intro ys hys
    have := key ys hys
    simp [Parameter.value, this.1, this.2]
  have hlast : ((p.load L).updates (xs ++ [x])).current_value_ = .control_value_ ∧
      ((p.load L).updates (xs ++ [x])).control_value_ = x := by
    have h := key xs hfar
    simp only [Parameter.updates, List.foldl_append, List.foldl_cons, List.foldl_nil]
    exact Parameter.update_near _ x (by rw [show (List.foldl Parameter.update (p.load L) xs).loaded_value_ = L from h.2]; exact hnear)
  have hv : ((p.load L).updates (xs ++ [x])).value = x := by
    simp [Parameter.value, hlast.1, hlast.2]
  refine ⟨fun k _ => hval _ (fun y hy => hfar y (List.mem_of_mem_take hy)), hv, hlast.1, ?_⟩
  rw [hv, hval xs hfar]
  exact hnear

theorem pickup_convergence_witness :
    ((∀ k, k ≤ [(0 : ℚ), 1 / 4].length →
        (((Parameter.mk .control_value_ 0 0).load (1 / 2)).updates
          ([(0 : ℚ), 1 / 4].take k)).value = 1 / 2) ∧
      (((Parameter.mk .control_value_ 0 0).load (1 / 2)).updates
          ([(0 : ℚ), 1 / 4] ++ [101 / 200])).value = 101 / 200 ∧
      ((((Parameter.mk .control_value_ 0 0).load (1 / 2)).updates
          ([(0 : ℚ), 1 / 4] ++ [101 / 200])).current_value_ = .control_value_) ∧
      |(((Parameter.mk .control_value_ 0 0).load (1 / 2)).updates
          ([(0 : ℚ), 1 / 4] ++ [101 / 200])).value -
        (((Parameter.mk .control_value_ 0 0).load (1 / 2)).updates [(0 : ℚ), 1 / 4]).value|
        < 1 / 100) :=
  pickup_convergence (Parameter.mk .control_value_ 0 0) (1 / 2) [0, 1 / 4] (101 / 200)
    (by
      intro y hy
      simp only [List.mem_cons, List.mem_singleton, List.not_mem_nil, or_false] at hy
      rcases hy with rfl | rfl <;> norm_num [TOUCH_RANGE, abs_lt])
    (by norm_num [TOUCH_RANGE, abs_lt])

/-- C2: once the live control value is authoritative (after init, after init with a value, or
after an update within TOUCH_RANGE of the loaded value), it stays authoritative under every
sequence of update calls and value() is the argument of the latest update; under every sequence
of public calls without a load it stays authoritative, a single call that makes the loaded
value authoritative is a load, and a load does make it authoritative. -/
theorem pickup_one_way :
    (∀ q : Parameter, q.init.current_value_ = .control_value_) ∧
    (∀ (q : Parameter) (v : ℚ), (q.initWith v).current_value_ = .control_value_) ∧
    (∀ (q : Parameter) (x : ℚ), q.current_value_ = .loaded_value_ →
      |x - q.loaded_value_| < TOUCH_RANGE → (q.update x).current_value_ = .control_value_) ∧
    (∀ p : Parameter, p.current_value_ = .control_value_ →
      (∀ (xs : List ℚ) (x : ℚ),
        ((p.updates xs).update x).current_value_ = .control_value_ ∧
        ((p.updates xs).update x).value = x) ∧
      (∀ cs : List ParameterCall, (∀ c ∈ cs, c.isLoad = false) →
        (cs.foldl Parameter.call p).current_value_ = .control_value_) ∧
      (∀ c : ParameterCall, (p.call c).current_value_ = .loaded_value_ → c.isLoad = true) ∧
      (∀ v : ℚ, (p.load v).current_value_ = .loaded_value_ ∧ (p.load v).value = v)) := by
  refine ⟨fun _ => rfl, fun _ _ => rfl, fun q x _ hx => (Parameter.update_near q x hx).1, ?_⟩
  intro p hp
  refine ⟨?_, ?_, ?_, fun v => ⟨rfl, rfl⟩⟩
  · intro xs x
    have h := Parameter.update_control (p.updates xs) x (Parameter.updates_control xs p hp)
    exact ⟨h.1, by simp [Parameter.value, h.1, h.2]⟩
  · intro cs
    induction cs generalizing p with
    | nil => intro _; exact hp
    | cons c cs ih =>
      intro hcs
      have hc : c.isLoad = false := hcs c (List.mem_cons_self _ _)
      have hstep : (p.call c).current_value_ = .control_value_ := by
        cases c with
        | init => rfl
        | initWith v => rfl
        | update x => exact (Parameter.update_control p x hp).1
        | load v => simp [ParameterCall.isLoad] at hc
        | sync => rfl
      exact ih (p.call c) hstep (fun c' hc' => hcs c' (List.mem_cons_of_mem _ hc'))
  · intro c hc
    cases c with
    | init => simp [Parameter.call, Parameter.init] at hc
    | initWith v => simp [Parameter.call, Parameter.initWith] at hc
    | update x => simp [Parameter.call, (Parameter.update_control p x hp).1] at hc
    | load v => rfl
    | sync => simp [Parameter.call, Parameter.sync] at hc

/-! Debounce -/

theorem Switch.scan_buffer (s : Switch) (pin : Bool) :
    (s.scan pin).debounce_buffer_ = (2 * s.debounce_buffer_ + pin.toNat) % 256 := by
  have h : pin.toNat < 2 ^ 1 := by cases pin <;> decide
  have := Nat.mul_add_lt_is_or h s.debounce_buffer_
  simp only [Switch.scan, Nat.shiftLeft_eq, pow_one] at this ⊢
  rw [Nat.mul_comm s.debounce_buffer_ 2, ← this]

theorem Switch.scans_append (s : Switch) (xs ys : List Bool) :
    s.scans (xs ++ ys) = (s.scans xs).scans ys := by
  simp [Switch.scans, List.foldl_append]

theorem Switch.scans_replicate_succ (s : Switch) (b : Bool) (k : Nat) :
    s.scans (List.replicate (k + 1) b) = (s.scans (List.replicate k b)).scan b := by
  rw [List.replicate_succ', Switch.scans_append]
  rfl

/-- The buffer after a 1 sample and then k samples of 0. -/
theorem Switch.buffer_one_zeros (s : Switch) (k : Nat) :
    (s.scans (true :: List.replicate k false)).debounce_buffer_ =
      ((2 * s.debounce_buffer_ + 1) * 2 ^ k) % 256 := by
  induction k with
  | zero =>
    simp [Switch.scans, Switch.scan_buffer]
  | succ k ih =>
    have : s.scans (true :: List.replicate (k + 1) false) =
        (s.scans (true :: List.replicate k false)).scan false := by
      rw [show true :: List.replicate (k + 1) false =
        (true :: List.replicate k false) ++ [false] by
          rw [List.replicate_succ']; rfl, Switch.scans_append]
      rfl
    rw [this, Switch.scan_buffer, ih, pow_succ, ← Nat.mul_assoc]
    simp only [Bool.toNat_false, Nat.add_zero]
    generalize (2 * s.debounce_buffer_ + 1) * 2 ^ k = X
    omega

/-- The buffer after a 0 sample and then k samples of 1. -/
theorem Switch.buffer_zero_ones (s : Switch) (k : Nat) :
    (s.scans (false :: List.replicate k true)).debounce_buffer_ =
      (2 * s.debounce_buffer_ * 2 ^ k + (2 ^ k - 1)) % 256 := by
  induction k with
  | zero =>
    simp [Switch.scans, Switch.scan_buffer]
  | succ k ih =>
    have : s.scans (false :: List.replicate (k + 1) true) =
        (s.scans (false :: List.replicate k true)).scan true := by
      rw [show false :: List.replicate (k + 1) true =
        (false :: List.replicate k true) ++ [true] by
          rw [List.replicate_succ']; rfl, Switch.scans_append]
      rfl
    rw [this, Switch.scan_buffer, ih, pow_succ, ← Nat.mul_assoc]
    have hk : 1 ≤ 2 ^ k := Nat.one_le_two_pow
    simp only [Bool.toNat_true]
    generalize 2 * s.debounce_buffer_ * 2 ^ k = X
    generalize 2 ^ k = Y at hk ⊢
    omega

theorem Switch.scan_true_odd (s : Switch) : (s.scan true).debounce_buffer_ % 2 = 1 := by
  rw [Switch.scan_buffer]
  simp only [Bool.toNat_true]
  omega

theorem Switch.scan_false_even (s : Switch) : (s.scan false).debounce_buffer_ % 2 = 0 := by
  rw [Switch.scan_buffer]
  simp only [Bool.toNat_false]
  omega

theorem Switch.pressed_run_iff (s : Switch) (k : Nat) :
    (s.scans (true :: List.replicate k false)).debounce_buffer_ = 0x80 ↔ k = 7 := by
  rw [Switch.buffer_one_zeros]
  rcases Nat.lt_or_ge k 8 with hk | hk
  · interval_cases k <;> omega
  · obtain ⟨d, rfl⟩ := Nat.exists_eq_add_of_le hk
    rw [pow_add]
    generalize 2 ^ d = Y
    have : (2 * s.debounce_buffer_ + 1) * (2 ^ 8 * Y) =
        256 * ((2 * s.debounce_buffer_ + 1) * Y) := by ring
    rw [this, Nat.mul_mod_right]
    omega

theorem Switch.released_run_iff (s : Switch) (k : Nat) :
    (s.scans (false :: List.replicate k true)).debounce_buffer_ = 0x7f ↔ k = 7 := by
  rw [Switch.buffer_zero_ones]
  rcases Nat.lt_or_ge k 8 with hk | hk
  · interval_cases k <;> omega
  · obtain ⟨d, rfl⟩ := Nat.exists_eq_add_of_le hk
    rw [pow_add]
    have hY : 1 ≤ 2 ^ d := Nat.one_le_two_pow
    generalize 2 ^ d = Y at hY ⊢
    have : 2 * s.debounce_buffer_ * (2 ^ 8 * Y) + (2 ^ 8 * Y - 1) =
        255 + 256 * (2 * s.debounce_buffer_ * Y + (Y - 1)) := by
      obtain ⟨z, rfl⟩ := Nat.exists_eq_add_of_le hY
      simp only [Nat.add_sub_cancel_left]
      have : 2 ^ 8 * (1 + z) - 1 = 255 + 256 * z := by omega
      rw [this]
      ring
    rw [this, Nat.add_mul_mod_self_left]
    omega

/-- C7: from any prior history, after a sample of 1 followed by k samples of 0, just_pressed()
holds exactly when k = 7, so within a run of n >= 7 zeros it is true after the 7th scan and
after no other; symmetrically, after a sample of 0 followed by k samples of 1, released() (and
the just_released test of Ui::Poll) holds exactly when k = 7. -/
theorem debounce_exactly_once (s : Switch) (k : Nat) :
    ((s.scans (true :: List.replicate k false)).just_pressed = true ↔ k = 7) ∧
    ((s.scans (false :: List.replicate k true)).released = true ↔ k = 7) ∧
    ((s.scans (false :: List.replicate k true)).just_released = true ↔ k = 7) := by
  have h1 := Switch.pressed_run_iff s k
  have h2 := Switch.released_run_iff s k
  simp only [Switch.just_pressed, Switch.released, Switch.just_released, beq_iff_eq]
  exact ⟨h1, h2, h2⟩

/-- C8: from any prior history, a run of k < 7 samples of 0 after a sample of 1 makes
just_pressed() true neither after any scan of the run nor after any number i >= 1 of following
samples of 1; likewise a run of k < 7 samples of 1 after a sample of 0 never makes released()
true, inside the run or after i >= 1 following samples of 0. -/
theorem bounce_rejection (s : Switch) (k : Nat) (hk : k < 7) :
    (∀ j, j ≤ k → (s.scans (true :: List.replicate j false)).just_pressed = false) ∧
    (∀ i, 1 ≤ i →
      (s.scans (true :: List.replicate k false ++ List.replicate i true)).just_pressed = false) ∧
    (∀ j, j ≤ k → (s.scans (false :: List.replicate j true)).released = false) ∧
    (∀ i, 1 ≤ i →
      (s.scans (false :: List.replicate k true ++ List.replicate i false)).released = false) := by
  refine ⟨?_, ?_, ?_, ?_⟩
  · intro j hj
    have := Switch.pressed_run_iff s j
    simp only [Switch.just_pressed, beq_eq_false_iff_ne, ne_eq]
    intro h
    have := this.1 h
    omega
  · intro i hi
    obtain ⟨d, rfl⟩ := Nat.exists_eq_add_of_le hi
    rw [Nat.add_comm, List.replicate_succ', ← List.append_assoc, Switch.scans_append,
      Switch.scans_append]
    have := Switch.scan_true_odd
      ((s.scans (true :: List.replicate k false)).scans (List.replicate d true))
    simp only [Switch.just_pressed, beq_eq_false_iff_ne, ne_eq]
    intro h
    simp only [Switch.scans, List.foldl_cons, List.foldl_nil, List.foldl_append] at h this
    omega
  · intro j hj
    have := Switch.released_run_iff s j
    simp only [Switch.released, beq_eq_false_iff_ne, ne_eq]
    intro h
    have := this.1 h
    omega
  · intro i hi
    obtain ⟨d, rfl⟩ := Nat.exists_eq_add_of_le hi
    rw [Nat.add_comm, List.replicate_succ', ← List.append_assoc, Switch.scans_append,
      Switch.scans_append]
    have := Switch.scan_false_even
      ((s.scans (false :: List.replicate k true)).scans (List.replicate d false))
    simp only [Switch.released, beq_eq_false_iff_ne, ne_eq]
    intro h
    simp only [Switch.scans, List.foldl_cons, List.foldl_nil, List.foldl_append] at h this
    omega

theorem bounce_rejection_witness :
    (3 < 7) ∧
    (∀ j, j ≤ 3 →
      (Switch.scans ⟨0xff, .SwitchReleased, 0⟩ (true :: List.replicate j false)).just_pressed
        = false) ∧
    (∀ i, 1 ≤ i →
      (Switch.scans ⟨0xff, .SwitchReleased, 0⟩
        (true :: List.replicate 3 false ++ List.replicate i true)).just_pressed = false) ∧
    (∀ j, j ≤ 3 →
      (Switch.scans ⟨0xff, .SwitchReleased, 0⟩ (false :: List.replicate j true)).released
        = false) ∧
    (∀ i, 1 ≤ i →
      (Switch.scans ⟨0xff, .SwitchReleased, 0⟩
        (false :: List.replicate 3 true ++ List.replicate i false)).released = false) :=
  ⟨by decide, bounce_rejection ⟨0xff, .SwitchReleased, 0⟩ 3 (by decide)⟩

/-! Gate and trigger delay line -/

theorem CvScaler.smooth_previous (cal : CalibrationData) (adc : Nat → ℚ) (cv : CvScaler) :
    (cv.smooth cal adc).previous_gate_ = cv.previous_gate_ ∧
      (cv.smooth cal adc).previous_trigger_ = cv.previous_trigger_ := by
  unfold CvScaler.smooth
  generalize List.range ADC_CHANNEL_LAST = l
  induction l generalizing cv with
  | nil => exact ⟨rfl, rfl⟩
  | cons i l ih =>
    rw [List.foldl_cons]
    exact ih _

theorem CvScaler.shift_previous (cv : CvScaler) (i : Nat) :
    (cv.shift.previous_gate_ i =
        if i < kAdcLatency - 1 then cv.previous_gate_ (i + 1) else cv.previous_gate_ i) ∧
      (cv.shift.previous_trigger_ i =
        if i < kAdcLatency - 1 then cv.previous_trigger_ (i + 1)
        else cv.previous_trigger_ i) := by
  have hr : List.range 4 = [0, 1, 2, 3] := by decide
  simp only [CvScaler.shift, kAdcLatency, Nat.add_one_sub_one, hr, List.foldl_cons,
    List.foldl_nil]
  by_cases h0 : i = 0
  · subst h0; simp [Function.update]
  by_cases h1 : i = 1
  · subst h1; simp [Function.update]
  by_cases h2 : i = 2
  · subst h2; simp [Function.update]
  by_cases h3 : i = 3
  · subst h3; simp [Function.update]
  have h4 : ¬ i < 4 := by omega
  simp [Function.update, h0, h1, h2, h3, h4]

theorem CvScaler.Read_delay (qp : ℚ → ℚ) (cv : CvScaler) (cal : CalibrationData)
    (P : Parameters) (hw : ReadInput) :
    (cv.Read qp cal P hw).2.gate = cv.previous_gate_ 0 ∧
    (cv.Read qp cal P hw).2.trigger = cv.previous_trigger_ 0 ∧
    (∀ i, (cv.Read qp cal P hw).1.previous_gate_ i =
      if i = kAdcLatency - 1 then hw.gate
      else if i < kAdcLatency - 1 then cv.previous_gate_ (i + 1) else cv.previous_gate_ i) ∧
    (∀ i, (cv.Read qp cal P hw).1.previous_trigger_ i =
      if i = kAdcLatency - 1 then hw.trigger_rising_edge
      else if i < kAdcLatency - 1 then cv.previous_trigger_ (i + 1)
      else cv.previous_trigger_ i) := by
  have hs := CvScaler.smooth_previous cal hw.adc cv
  refine ⟨?_, ?_, ?_, ?_⟩
  · simp only [CvScaler.Read, hs.1]
  · simp only [CvScaler.Read, hs.2]
  · intro i
    have := (CvScaler.shift_previous (cv.smooth cal hw.adc) i).1
    simp only [CvScaler.Read, Function.update_apply, this, hs.1]
  · intro i
    have := (CvScaler.shift_previous (cv.smooth cal hw.adc) i).2
    simp only [CvScaler.Read, Function.update_apply, this, hs.2]

theorem CvScaler.fill_apply (a : Nat → Bool) (n : Nat) (v : Bool) (i : Nat) :
    CvScaler.fill a n v i = if i < n then v else a i := by
  unfold CvScaler.fill
  induction n with
  | zero => simp
  | succ n ih =>
    rw [List.range_succ, List.foldl_append, List.foldl_cons, List.foldl_nil,
      Function.update_apply, ih]
    by_cases h : i = n
    · simp [h]
    · by_cases h2 : i < n
      · simp [h, h2, Nat.lt_succ_of_lt h2]
      · have : ¬ i < n + 1 := by omega
        simp [h, h2, this]

theorem CvScaler.reads_delay (qp : ℚ → ℚ) (cal : CalibrationData) (hw : Nat → ReadInput)
    (cv : CvScaler) (P : Parameters) (n : Nat) :
    ∀ i, i < kAdcLatency →
      ((CvScaler.reads qp cal hw (cv.Init, P) n).1.previous_gate_ i =
        if n + i < kAdcLatency then false else (hw (n + i - kAdcLatency)).gate) ∧
      ((CvScaler.reads qp cal hw (cv.Init, P) n).1.previous_trigger_ i =
        if n + i < kAdcLatency then false
        else (hw (n + i - kAdcLatency)).trigger_rising_edge) := by
  induction n with
  | zero =>
    intro i hi
    simp [CvScaler.reads, CvScaler.Init, CvScaler.fill_apply, hi]
  | succ n ih =>
    intro i hi
    have hR := CvScaler.Read_delay qp (CvScaler.reads qp cal hw (cv.Init, P) n).1 cal
      (CvScaler.reads qp cal hw (cv.Init, P) n).2 (hw n)
    simp only [CvScaler.reads]
    rw [hR.2.2.1 i, hR.2.2.2 i]
    simp only [kAdcLatency] at hi ih ⊢
    by_cases h4 : i = 4
    · subst h4
      have e : n + 1 + 4 - 5 = n := by omega
      have : ¬ n + 1 + 4 < 5 := by omega
      simp [this, e]
    · have hlt : i < 4 := by omega
      have := ih (i + 1) (by omega)
      have e : n + (i + 1) = n + 1 + i := by omega
      simp only [e] at this
      simp [h4, hlt, this]

/-- C9: after CvScaler::Init, whatever the raw inputs, the gate and trigger published by call n
of CvScaler::Read (n from 0) are false for n < kAdcLatency = 5 and otherwise the raw gate level
and trigger edge read during call n - 5. -/
theorem gate_trigger_realignment (qp : ℚ → ℚ) (cal : CalibrationData) (hw : Nat → ReadInput)
    (cv : CvScaler) (P : Parameters) (n : Nat) :
    ((CvScaler.reads qp cal hw (cv.Init, P) (n + 1)).2.gate =
      if n < kAdcLatency then false else (hw (n - kAdcLatency)).gate) ∧
    ((CvScaler.reads qp cal hw (cv.Init, P) (n + 1)).2.trigger =
      if n < kAdcLatency then false else (hw (n - kAdcLatency)).trigger_rising_edge) := by
  have hR := CvScaler.Read_delay qp (CvScaler.reads qp cal hw (cv.Init, P) n).1 cal
    (CvScaler.reads qp cal hw (cv.Init, P) n).2 (hw n)
  have h0 := CvScaler.reads_delay qp cal hw cv P n 0 (by decide)
  simp only [Nat.add_zero] at h0
  simp only [CvScaler.reads]
  rw [hR.1, hR.2.1, h0.1, h0.2]
  exact ⟨rfl, rfl⟩

/-! Calibration -/

theorem CvScaler.CalibrateC3_flag (cv : CvScaler) (cal : CalibrationData) (adc : Nat → ℚ) :
    (cv.CalibrateC3 cal adc).1 = true ↔
      (-(1 / 2) < adc ADC_V_OCT_CV - cv.cv_c1_ ∧ adc ADC_V_OCT_CV - cv.cv_c1_ < 0) := by
  unfold CvScaler.CalibrateC3
  by_cases h : adc ADC_V_OCT_CV - cv.cv_c1_ > -(1 / 2) ∧ adc ADC_V_OCT_CV - cv.cv_c1_ < -0
  · rw [if_pos h]
    exact ⟨fun _ => ⟨h.1, by simpa using h.2⟩, fun _ => rfl⟩
  · rw [if_neg h]
    refine ⟨fun h2 => by simp at h2, fun h2 => absurd ⟨h2.1, by simpa using h2.2⟩ h⟩

/-- C10: with c1 the captured reading cv_c1_ and c3 the V/OCT reading, CvScaler::CalibrateC3
returns true exactly when -0.5 < c3 - c1 < 0 (exact rationals), so a delta of -0.3 is accepted
and +0.1, -0.6, 0 and -0.5 are rejected; Ui::CalibrateC3 ends in UI_MODE_VU_METER when it
returned true and in UI_MODE_PANIC when it returned false. -/
theorem calibration_acceptance (ui : Ui) (cv : CvScaler) (cal : CalibrationData)
    (adc : Nat → ℚ) :
    ((cv.CalibrateC3 cal adc).1 = true ↔
      (-(1 / 2) < adc ADC_V_OCT_CV - cv.cv_c1_ ∧ adc ADC_V_OCT_CV - cv.cv_c1_ < 0)) ∧
    (adc ADC_V_OCT_CV - cv.cv_c1_ = -(3 / 10) → (cv.CalibrateC3 cal adc).1 = true) ∧
    (adc ADC_V_OCT_CV - cv.cv_c1_ = 1 / 10 → (cv.CalibrateC3 cal adc).1 = false) ∧
    (adc ADC_V_OCT_CV - cv.cv_c1_ = -(6 / 10) → (cv.CalibrateC3 cal adc).1 = false) ∧
    (adc ADC_V_OCT_CV - cv.cv_c1_ = 0 → (cv.CalibrateC3 cal adc).1 = false) ∧
    (adc ADC_V_OCT_CV - cv.cv_c1_ = -(1 / 2) → (cv.CalibrateC3 cal adc).1 = false) ∧
    ((ui.cv_scaler_.CalibrateC3 ui.settings_.data_.calibration_data adc).1 = true →
      (ui.CalibrateC3 adc).mode_ = .UI_MODE_VU_METER) ∧
    ((ui.cv_scaler_.CalibrateC3 ui.settings_.data_.calibration_data adc).1 = false →
      (ui.CalibrateC3 adc).mode_ = .UI_MODE_PANIC) := by
  have key := CvScaler.CalibrateC3_flag cv cal adc
  have neg : ∀ {b : Bool}, ¬ b = true → b = false := fun h => by simpa using h
  refine ⟨key, ?_, ?_, ?_, ?_, ?_, ?_, ?_⟩
  · intro h
    rw [key, h]
    norm_num
  · intro h
    apply neg
    rw [key, h]
    norm_num
  · intro h
    apply neg
    rw [key, h]
    norm_num
  · intro h
    apply neg
    rw [key, h]
    norm_num
  · intro h
    apply neg
    rw [key, h]
    norm_num
  · intro h
    simp [Ui.CalibrateC3, h]
  · intro h
    simp [Ui.CalibrateC3, h]

/-! Ui::Poll -/

theorem range_kNumSwitches : List.range kNumSwitches = [0, 1, 2, 3] := by decide

theorem foldl_update_each (g : Nat → Switch → Switch) (l : List Nat) (hl : l.Nodup)
    (sw : Nat → Switch) :
    l.foldl (fun sw i => Function.update sw i (g i (sw i))) sw =
      fun j => if j ∈ l then g j (sw j) else sw j := by
  induction l generalizing sw with
  | nil => simp
  | cons i l ih =>
    have hi : i ∉ l := (List.nodup_cons.1 hl).1
    rw [List.foldl_cons, ih (List.nodup_cons.1 hl).2]
    funext j
    by_cases hj : j = i
    · subst hj
      simp [hi]
    · by_cases hjl : j ∈ l
      · simp [hj, hjl, Function.update_noteq hj]
      · simp [hj, hjl, Function.update_noteq hj]

theorem Ui.foldl_lift (f : (Nat → Switch) → Nat → (Nat → Switch)) (l : List Nat) (u : Ui) :
    l.foldl (fun u i => { u with switches_ := f u.switches_ i }) u =
      { u with switches_ := l.foldl f u.switches_ } := by
  induction l generalizing u with
  | nil => rfl
  | cons i l ih => rw [List.foldl_cons, List.foldl_cons, ih]

theorem Switches.Scan_apply (sw : Nat → Switch) (pins : Nat → Bool) (j : Nat) :
    Switches.Scan sw pins j = if j < kNumSwitches then (sw j).scan (pins j) else sw j := by
  unfold Switches.Scan
  rw [foldl_update_each (fun i s => s.scan (pins i)) _ (List.nodup_range _)]
  simp [List.mem_range]

theorem Ui.resetFlaggedSwitches_eq (ui : Ui) (flags : Nat) :
    ui.resetFlaggedSwitches flags =
      { ui with switches_ := fun j =>
          if j < kNumSwitches ∧ flags &&& (1 <<< j) ≠ 0 then (ui.switches_ j).reset
          else ui.switches_ j } := by
  let g : Nat → Switch → Switch := fun i s => if flags &&& (1 <<< i) ≠ 0 then s.reset else s
  have hf : (fun (ui : Ui) (i : Nat) =>
      if flags &&& (1 <<< i) ≠ 0 then
        { ui with switches_ := Function.update ui.switches_ i (ui.switches_ i).reset }
      else ui) = (fun u i =>
        { u with switches_ := (fun sw i => Function.update sw i (g i (sw i))) u.switches_ i }) := by
    funext u i
    by_cases hc : flags &&& (1 <<< i) ≠ 0
    · simp only [g, if_pos hc]
    · simp only [g, if_neg hc, Function.update_eq_self]
  unfold Ui.resetFlaggedSwitches
  rw [hf, Ui.foldl_lift (fun sw i => Function.update sw i (g i (sw i))),
    foldl_update_each g _ (List.nodup_range _)]
  congr 1
  funext j
  by_cases hj : j < kNumSwitches <;> by_cases hc : flags &&& (1 <<< j) ≠ 0 <;>
    simp [g, List.mem_range, hj, hc]

theorem Ui.setFlaggedSwitchState_eq (ui : Ui) (flags : Nat) (st : SwitchState) :
    ui.setFlaggedSwitchState flags st =
      { ui with switches_ := fun j =>
          if j < kNumSwitches ∧ flags &&& (1 <<< j) ≠ 0 then
            (ui.switches_ j).set_state .SwitchLongPressed
          else ui.switches_ j } := by
  let g : Nat → Switch → Switch := fun i s =>
    if flags &&& (1 <<< i) ≠ 0 then s.set_state .SwitchLongPressed else s
  have hf : (fun (ui : Ui) (i : Nat) =>
      if flags &&& (1 <<< i) ≠ 0 then
        { ui with switches_ :=
            Function.update ui.switches_ i ((ui.switches_ i).set_state .SwitchLongPressed) }
      else ui) = (fun u i =>
        { u with switches_ := (fun sw i => Function.update sw i (g i (sw i))) u.switches_ i }) := by
    funext u i
    by_cases hc : flags &&& (1 <<< i) ≠ 0
    · simp only [g, if_pos hc]
    · simp only [g, if_neg hc, Function.update_eq_self]
  unfold Ui.setFlaggedSwitchState
  rw [hf, Ui.foldl_lift (fun sw i => Function.update sw i (g i (sw i))),
    foldl_update_each g _ (List.nodup_range _)]
  congr 1
  funext j
  by_cases hj : j < kNumSwitches <;> by_cases hc : flags &&& (1 <<< j) ≠ 0 <;>
    simp [g, List.mem_range, hj, hc]

theorem Ui.pollSwitch_quiet (now F C id : Nat) (ui : Ui) (i : Nat)
    (h : (ui.switches_ i).fires now = false) :
    Ui.pollSwitch now F C id ui i =
      { ui with switches_ :=
          Function.update ui.switches_ i ((ui.switches_ i).quietStep now) } := by
  unfold Ui.pollSwitch Switch.quietStep
  unfold Switch.fires at h
  cases hs : (ui.switches_ i).state_ <;> simp only [hs] at h ⊢
  · by_cases hp : (ui.switches_ i).just_pressed = true
    · simp [hp]
    · simp [hp]
  · simp at h
    simp [h.1, not_lt.2 h.2]
  · by_cases hp : (ui.switches_ i).just_released = true
    · simp [hp]
    · simp [hp]
  · by_cases hp : (ui.switches_ i).just_pressed = true
    · simp [hp]
    · simp [hp]

theorem Ui.quietOn_congr (u : Ui) (now : Nat) (p q : Nat → Prop) [DecidablePred p]
    [DecidablePred q] (h : ∀ j, p j ↔ q j) : u.quietOn now p = u.quietOn now q := by
  unfold Ui.quietOn
  congr 1
  funext j
  by_cases hp : p j
  · rw [if_pos hp, if_pos ((h j).1 hp)]
  · rw [if_neg hp, if_neg (fun hq => hp ((h j).2 hq))]

theorem Ui.foldl_pollSwitch_quiet (now F C id : Nat) (l : List Nat) (hl : l.Nodup) (u : Ui)
    (h : ∀ i ∈ l, (u.switches_ i).fires now = false) :
    l.foldl (Ui.pollSwitch now F C id) u = u.quietOn now (fun j => j ∈ l) := by
  unfold Ui.quietOn
  induction l generalizing u with
  | nil => simp
  | cons i l ih =>
    have hi : i ∉ l := (List.nodup_cons.1 hl).1
    rw [List.foldl_cons, Ui.pollSwitch_quiet now F C id u i (h i (List.mem_cons_self _ _)),
      ih (List.nodup_cons.1 hl).2]
    · congr 1
      funext j
      by_cases hj : j = i
      · subst hj
        simp [hi]
      · by_cases hjl : j ∈ l
        · simp [hj, hjl, Function.update_noteq hj]
        · simp [hj, hjl, Function.update_noteq hj]
    · intro i' hi'
      have hne : i' ≠ i := fun e => hi (e ▸ hi')
      simp only [Function.update_noteq hne]
      exact h i' (List.mem_cons_of_mem _ hi')

theorem Ui.comboScan_flag (ui : Ui) (j : Nat) (hj : j < kNumSwitches) :
    ui.comboScan.1 &&& (1 <<< j) ≠ 0 ↔ (ui.switches_ j).state_ ≠ .SwitchReleased := by
  simp only [Ui.comboScan, range_kNumSwitches, List.foldl_cons, List.foldl_nil]
  simp only [kNumSwitches] at hj
  by_cases h0 : (ui.switches_ 0).state_ = .SwitchReleased <;>
  by_cases h1 : (ui.switches_ 1).state_ = .SwitchReleased <;>
  by_cases h2 : (ui.switches_ 2).state_ = .SwitchReleased <;>
  by_cases h3 : (ui.switches_ 3).state_ = .SwitchReleased <;>
  interval_cases j <;> simp [h0, h1, h2, h3] <;> decide

theorem Ui.comboScan_count (ui : Ui) :
    1 < ui.comboScan.2 ↔
      ∃ i j, i < kNumSwitches ∧ j < kNumSwitches ∧ i ≠ j ∧
        (ui.switches_ i).state_ ≠ .SwitchReleased ∧ (ui.switches_ j).state_ ≠ .SwitchReleased := by
  have key : ∀ P : Nat → Prop, (∃ i j, i < kNumSwitches ∧ j < kNumSwitches ∧ i ≠ j ∧ P i ∧ P j) ↔
      ((P 0 ∧ P 1) ∨ (P 0 ∧ P 2) ∨ (P 0 ∧ P 3) ∨ (P 1 ∧ P 2) ∨ (P 1 ∧ P 3) ∨ (P 2 ∧ P 3)) := by
    intro P
    constructor
    · rintro ⟨i, j, hi, hj, hne, hPi, hPj⟩
      simp only [kNumSwitches] at hi hj
      interval_cases i <;> interval_cases j <;> simp_all
    · rintro (⟨a, b⟩ | ⟨a, b⟩ | ⟨a, b⟩ | ⟨a, b⟩ | ⟨a, b⟩ | ⟨a, b⟩)
      · exact ⟨0, 1, by decide, by decide, by decide, a, b⟩
      · exact ⟨0, 2, by decide, by decide, by decide, a, b⟩
      · exact ⟨0, 3, by decide, by decide, by decide, a, b⟩
      · exact ⟨1, 2, by decide, by decide, by decide, a, b⟩
      · exact ⟨1, 3, by decide, by decide, by decide, a, b⟩
      · exact ⟨2, 3, by decide, by decide, by decide, a, b⟩
  rw [key]
  simp only [Ui.comboScan, range_kNumSwitches, List.foldl_cons, List.foldl_nil]
  by_cases h0 : (ui.switches_ 0).state_ = .SwitchReleased <;>
  by_cases h1 : (ui.switches_ 1).state_ = .SwitchReleased <;>
  by_cases h2 : (ui.switches_ 2).state_ = .SwitchReleased <;>
  by_cases h3 : (ui.switches_ 3).state_ = .SwitchReleased <;>
  simp [h0, h1, h2, h3]

theorem Ui.comboScan_bounds (ui : Ui) :
    ui.comboScan.1 < 16 ∧ (1 < ui.comboScan.2 → 3 ≤ ui.comboScan.1) := by
  simp only [Ui.comboScan, range_kNumSwitches, List.foldl_cons, List.foldl_nil]
  by_cases h0 : (ui.switches_ 0).state_ = .SwitchReleased <;>
  by_cases h1 : (ui.switches_ 1).state_ = .SwitchReleased <;>
  by_cases h2 : (ui.switches_ 2).state_ = .SwitchReleased <;>
  by_cases h3 : (ui.switches_ 3).state_ = .SwitchReleased <;>
  simp [h0, h1, h2, h3]

theorem Ui.comboScan_scanned (ui : Ui) (pins : Nat → Bool) :
    (ui.scanned pins).comboScan = ui.comboScan := by
  have h : ∀ j, ((ui.scanned pins).switches_ j).state_ = (ui.switches_ j).state_ := by
    intro j
    simp only [Ui.scanned, Switches.Scan_apply]
    split <;> rfl
  simp only [Ui.comboScan, h]

theorem fls_three : fls (kNumSwitches - 1) = 2 := by decide

theorem Ui.Poll_eq (ui : Ui) (now : Nat) (pins : Nat → Bool) :
    ui.Poll now pins =
      (List.range kNumSwitches).foldl
        (Ui.pollSwitch now ui.comboScan.1 ui.comboScan.2 ((ui.comboScan.1 <<< 2) % 2 ^ 16))
        (ui.scanned pins) := by
  have h := Ui.comboScan_scanned ui pins
  unfold Ui.scanned at h
  simp only [Ui.Poll, Ui.scanned, h, fls_three]

theorem Switch.fires_of_not_pressed (s : Switch) (now : Nat)
    (h : s.state_ ≠ .SwitchPressed) : s.fires now = false := by
  simp [Switch.fires, h]

theorem Ui.scanned_state (ui : Ui) (pins : Nat → Bool) (j : Nat) :
    ((ui.scanned pins).switches_ j).state_ = (ui.switches_ j).state_ ∧
      ((ui.scanned pins).switches_ j).press_time_ = (ui.switches_ j).press_time_ := by
  simp only [Ui.scanned, Switches.Scan_apply]
  split <;> exact ⟨rfl, rfl⟩

theorem Ui.scanned_switch (ui : Ui) (pins : Nat → Bool) (j : Nat) (hj : j < kNumSwitches) :
    (ui.scanned pins).switches_ j = (ui.switches_ j).scan (pins j) := by
  simp only [Ui.scanned, Switches.Scan_apply, if_pos hj]

theorem Ui.Poll_quiet (ui : Ui) (now : Nat) (pins : Nat → Bool)
    (h : ∀ j, j < kNumSwitches → ((ui.scanned pins).switches_ j).fires now = false) :
    ui.Poll now pins = (ui.scanned pins).quietOn now (fun j => j < kNumSwitches) := by
  rw [Ui.Poll_eq, Ui.foldl_pollSwitch_quiet _ _ _ _ _ (List.nodup_range _) _
    (fun i hi => h i (List.mem_range.1 hi))]
  exact Ui.quietOn_congr _ _ _ _ (fun j => List.mem_range)

theorem Ui.foldl_pollSwitch_fire (now F C id : Nat) (pre post : List Nat) (i0 : Nat)
    (hnd : (pre ++ i0 :: post).Nodup) (u : Ui)
    (hpre : ∀ i ∈ pre, (u.switches_ i).fires now = false)
    (hpost : ∀ i ∈ post,
      ((Ui.pollSwitch now F C id (u.quietOn now (fun j => j ∈ pre)) i0).switches_ i).fires now
        = false) :
    (pre ++ i0 :: post).foldl (Ui.pollSwitch now F C id) u =
      (Ui.pollSwitch now F C id (u.quietOn now (fun j => j ∈ pre)) i0).quietOn now
        (fun j => j ∈ post) := by
  have hn := List.nodup_append.1 hnd
  rw [List.foldl_append, List.foldl_cons,
    Ui.foldl_pollSwitch_quiet now F C id pre hn.1 u hpre,
    Ui.foldl_pollSwitch_quiet now F C id post (List.nodup_cons.1 hn.2.1).2 _ hpost]

theorem range_split (i0 : Nat) (h : i0 < kNumSwitches) :
    List.range kNumSwitches = List.range i0 ++ i0 :: List.range' (i0 + 1) (3 - i0) := by
  simp only [kNumSwitches] at h ⊢
  interval_cases i0 <;> decide

theorem Ui.pollSwitch_release_combo (now F C id : Nat) (u : Ui) (i : Nat)
    (hP : (u.switches_ i).state_ = .SwitchPressed) (hjr : (u.switches_ i).just_released = true)
    (hC : 1 < C) (hi : i < kNumSwitches) (hflag : F &&& (1 <<< i) ≠ 0) :
    Ui.pollSwitch now F C id u i =
      { u with
        switches_ := fun j =>
          if j < kNumSwitches ∧ F &&& (1 <<< j) ≠ 0 then (u.switches_ j).reset
          else u.switches_ j
        queue_ := u.queue_.AddEvent now .CONTROL_SWITCH id SwitchState.SwitchReleased.toInt } := by
  simp only [Ui.pollSwitch, hP, hjr, if_true, gt_iff_lt, hC, Ui.resetFlaggedSwitches_eq,
    Ui.AddEvent]
  simp [hi, hflag, Switch.reset]

theorem Ui.pollSwitch_release_single (now F C id : Nat) (u : Ui) (i : Nat)
    (hP : (u.switches_ i).state_ = .SwitchPressed) (hjr : (u.switches_ i).just_released = true)
    (hC : ¬ 1 < C) :
    Ui.pollSwitch now F C id u i =
      { u with
        switches_ := Function.update u.switches_ i (u.switches_ i).reset
        queue_ := u.queue_.AddEvent now .CONTROL_SWITCH i SwitchState.SwitchReleased.toInt } := by
  simp only [Ui.pollSwitch, hP, hjr, if_true, gt_iff_lt, hC, if_false, Ui.AddEvent]
  simp [Switch.reset]

theorem Ui.pollSwitch_long_combo (now F C id : Nat) (u : Ui) (i : Nat)
    (hP : (u.switches_ i).state_ = .SwitchPressed) (hjr : (u.switches_ i).just_released = false)
    (hlong : toInt32 (sub32 now (u.switches_ i).press_time_) > kLongPressDuration)
    (hC : 1 < C) (hi : i < kNumSwitches) (hflag : F &&& (1 <<< i) ≠ 0) :
    Ui.pollSwitch now F C id u i =
      { u with
        switches_ := fun j =>
          if j < kNumSwitches ∧ F &&& (1 <<< j) ≠ 0 then
            (u.switches_ j).set_state .SwitchLongPressed
          else u.switches_ j
        queue_ :=
          u.queue_.AddEvent now .CONTROL_SWITCH id SwitchState.SwitchLongPressed.toInt } := by
  simp only [Ui.pollSwitch, hP, hjr, Bool.false_eq_true, if_false, hlong, if_true, gt_iff_lt, hC,
    Ui.setFlaggedSwitchState_eq, Ui.AddEvent]
  simp [hi, hflag, Switch.set_state]

theorem Ui.pollSwitch_long_single (now F C id : Nat) (u : Ui) (i : Nat)
    (hP : (u.switches_ i).state_ = .SwitchPressed) (hjr : (u.switches_ i).just_released = false)
    (hlong : toInt32 (sub32 now (u.switches_ i).press_time_) > kLongPressDuration)
    (hC : ¬ 1 < C) :
    Ui.pollSwitch now F C id u i =
      { u with
        switches_ := Function.update u.switches_ i ((u.switches_ i).set_state .SwitchLongPressed)
        queue_ :=
          u.queue_.AddEvent now .CONTROL_SWITCH i SwitchState.SwitchLongPressed.toInt } := by
  simp only [Ui.pollSwitch, hP, hjr, Bool.false_eq_true, if_false, hlong, if_true, gt_iff_lt, hC,
    Ui.AddEvent]
  simp [Switch.set_state]

theorem Switch.fires_iff (s : Switch) (now : Nat) :
    s.fires now = true ↔ s.state_ = .SwitchPressed ∧
      (s.just_released = true ∨
        (s.just_released = false ∧
          toInt32 (sub32 now s.press_time_) > kLongPressDuration)) := by
  unfold Switch.fires
  cases s.just_released <;> simp

theorem Ui.pollSwitch_fire_others (ui : Ui) (now id : Nat) (u : Ui) (i0 : Nat)
    (hi0 : i0 < kNumSwitches)
    (hst : ∀ j, j < kNumSwitches → i0 ≤ j → (u.switches_ j).state_ = (ui.switches_ j).state_)
    (hf : (u.switches_ i0).fires now = true) (j : Nat) (hj4 : j < kNumSwitches) (hj : i0 < j) :
    ((Ui.pollSwitch now ui.comboScan.1 ui.comboScan.2 id u i0).switches_ j).state_ ≠
      .SwitchPressed := by
  obtain ⟨hP, hcase⟩ := (Switch.fires_iff _ _).1 hf
  have hPi : (ui.switches_ i0).state_ ≠ .SwitchReleased := by
    rw [← hst i0 hi0 (Nat.le_refl _), hP]; decide
  have hflag := (Ui.comboScan_flag ui i0 hi0).2 hPi
  have hne : j ≠ i0 := by omega
  by_cases hC : 1 < ui.comboScan.2
  · have hjR : ¬ ui.comboScan.1 &&& (1 <<< j) ≠ 0 → (u.switches_ j).state_ ≠ .SwitchPressed := by
      intro hnf
      have := (not_congr (Ui.comboScan_flag ui j hj4)).1 hnf
      rw [hst j hj4 (Nat.le_of_lt hj), not_not.1 this]
      decide
    rcases hcase with hjr | ⟨hjr, hlong⟩
    · rw [Ui.pollSwitch_release_combo now _ _ id u i0 hP hjr hC hi0 hflag]
      by_cases hfj : ui.comboScan.1 &&& (1 <<< j) ≠ 0
      · simp [hj4, hfj, Switch.reset]
      · simpa [hj4, hfj] using hjR hfj
    · rw [Ui.pollSwitch_long_combo now _ _ id u i0 hP hjr hlong hC hi0 hflag]
      by_cases hfj : ui.comboScan.1 &&& (1 <<< j) ≠ 0
      · simp [hj4, hfj, Switch.set_state]
      · simpa [hj4, hfj] using hjR hfj
  · have hjR : (u.switches_ j).state_ ≠ .SwitchPressed := by
      have hrel : (ui.switches_ j).state_ = .SwitchReleased := by
        by_contra hnr
        exact hC ((Ui.comboScan_count ui).2 ⟨i0, j, hi0, hj4, fun e => hne e.symm, hPi, hnr⟩)
      rw [hst j hj4 (Nat.le_of_lt hj), hrel]
      decide
    rcases hcase with hjr | ⟨hjr, hlong⟩
    · rw [Ui.pollSwitch_release_single now _ _ id u i0 hP hjr hC]
      simpa [Function.update_noteq hne] using hjR
    · rw [Ui.pollSwitch_long_single now _ _ id u i0 hP hjr hlong hC]
      simpa [Function.update_noteq hne] using hjR

/-- The shape of Ui::Poll when switch i0 is the first one for which the loop enqueues an
event: the switches before it take the quiet step, the body runs for i0, and the switches
after it take the quiet step. -/
theorem Ui.Poll_fire (ui : Ui) (now : Nat) (pins : Nat → Bool) (i0 : Nat)
    (hi0 : i0 < kNumSwitches) (hf : ((ui.scanned pins).switches_ i0).fires now = true)
    (hfirst : ∀ j, j < i0 → ((ui.scanned pins).switches_ j).fires now = false) :
    ui.Poll now pins =
      (Ui.pollSwitch now ui.comboScan.1 ui.comboScan.2 ((ui.comboScan.1 <<< 2) % 2 ^ 16)
        ((ui.scanned pins).quietOn now (fun j => j < i0)) i0).quietOn now
        (fun j => i0 < j ∧ j < kNumSwitches) := by
  have hsplit := range_split i0 hi0
  have hnd : (List.range i0 ++ i0 :: List.range' (i0 + 1) (3 - i0)).Nodup := by
    rw [← hsplit]; exact List.nodup_range _
  have hmem : ∀ j, j ∈ List.range' (i0 + 1) (3 - i0) ↔ i0 < j ∧ j < kNumSwitches := by
    intro j
    simp only [List.mem_range'_1, kNumSwitches] at hi0 ⊢
    omega
  have hq : (ui.scanned pins).quietOn now (fun j => j ∈ List.range i0) =
      (ui.scanned pins).quietOn now (fun j => j < i0) :=
    Ui.quietOn_congr _ _ _ _ (fun j => List.mem_range)
  have hu1i : ∀ j, i0 ≤ j →
      ((ui.scanned pins).quietOn now (fun j => j < i0)).switches_ j =
        (ui.scanned pins).switches_ j := by
    intro j hj
    simp [Ui.quietOn, Nat.not_lt.2 hj]
  have hpost : ∀ i ∈ List.range' (i0 + 1) (3 - i0),
      ((Ui.pollSwitch now ui.comboScan.1 ui.comboScan.2 ((ui.comboScan.1 <<< 2) % 2 ^ 16)
        ((ui.scanned pins).quietOn now (fun j => j ∈ List.range i0)) i0).switches_ i).fires now
        = false := by
    intro j hj
    have hj' := (hmem j).1 hj
    apply Switch.fires_of_not_pressed
    rw [hq]
    apply Ui.pollSwitch_fire_others ui now _ _ i0 hi0 _ _ j hj'.2 hj'.1
    · intro k _ hk
      rw [hu1i k hk]
      exact (Ui.scanned_state ui pins k).1
    · rw [hu1i i0 (Nat.le_refl _)]
      exact hf
  rw [Ui.Poll_eq, hsplit,
    Ui.foldl_pollSwitch_fire now _ _ _ (List.range i0) _ i0 hnd (ui.scanned pins)
      (fun i hi => hfirst i (List.mem_range.1 hi)) hpost, hq]
  exact Ui.quietOn_congr _ _ _ _ hmem

theorem Switch.reset_quietStep (s : Switch) (now : Nat) : (s.quietStep now).reset = s.reset := by
  unfold Switch.quietStep
  cases hs : s.state_ <;> simp only [] <;> try split
  all_goals simp [Switch.reset, Switch.capture_press]

theorem Switch.quietStep_reset (s : Switch) (now : Nat) :
    s.reset.quietStep now = if s.just_pressed then s.reset.capture_press now else s.reset := by
  simp [Switch.quietStep, Switch.reset, Switch.just_pressed]

theorem Switch.quietStep_long (s : Switch) (now : Nat) :
    (s.set_state .SwitchLongPressed).quietStep now =
      if s.just_released then s.reset else s.set_state .SwitchLongPressed := by
  simp [Switch.quietStep, Switch.reset, Switch.set_state, Switch.just_released]

theorem Switch.quietStep_state_long (s : Switch) (now : Nat) :
    ((s.quietStep now).set_state .SwitchLongPressed).state_ = .SwitchLongPressed := rfl

theorem exists_first (P : Nat → Prop) [DecidablePred P] (i : Nat) (h : P i) :
    ∃ i0, i0 ≤ i ∧ P i0 ∧ ∀ j, j < i0 → ¬ P j :=
  ⟨Nat.find ⟨i, h⟩, Nat.find_min' _ h, Nat.find_spec _, fun _ hj => Nat.find_min _ hj⟩

theorem combo_id_small (ui : Ui) :
    ((ui.comboScan.1 <<< 2) % 2 ^ 16) % 2 ^ 16 = ui.comboScan.1 <<< 2 := by
  have h := (Ui.comboScan_bounds ui).1
  rw [Nat.shiftLeft_eq]
  omega

/-- Ui::Poll when more than one switch is non-released and the first switch for which the
loop enqueues an event, i0, is detected as released. -/
theorem Ui.Poll_release_combo (ui : Ui) (now : Nat) (pins : Nat → Bool) (i0 : Nat)
    (hi0 : i0 < kNumSwitches) (hf : ((ui.scanned pins).switches_ i0).fires now = true)
    (hfirst : ∀ j, j < i0 → ((ui.scanned pins).switches_ j).fires now = false)
    (hC : 1 < ui.comboScan.2)
    (hjr : ((ui.scanned pins).switches_ i0).just_released = true) :
    (ui.Poll now pins).queue_.events_ = ui.queue_.events_ ++
        [{ control_type := .CONTROL_SWITCH, control_id := ui.comboScan.1 <<< 2,
           data := SwitchState.SwitchReleased.toInt }] ∧
    ∀ j, j < kNumSwitches → (ui.switches_ j).state_ ≠ .SwitchReleased →
      (ui.Poll now pins).switches_ j =
        if i0 < j ∧ ((ui.scanned pins).switches_ j).just_pressed = true then
          ((ui.scanned pins).switches_ j).reset.capture_press now
        else ((ui.scanned pins).switches_ j).reset := by
  have hP := ((Switch.fires_iff _ _).1 hf).1
  have hPi : (ui.switches_ i0).state_ ≠ .SwitchReleased := by
    rw [← (Ui.scanned_state ui pins i0).1, hP]; decide
  have hflag := (Ui.comboScan_flag ui i0 hi0).2 hPi
  have hu1 : ((ui.scanned pins).quietOn now (fun j => j < i0)).switches_ i0 =
      (ui.scanned pins).switches_ i0 := by
    simp [Ui.quietOn]
  rw [Ui.Poll_fire ui now pins i0 hi0 hf hfirst,
    Ui.pollSwitch_release_combo now _ _ _ _ i0 (by rw [hu1]; exact hP) (by rw [hu1]; exact hjr)
      hC hi0 hflag]
  refine ⟨?_, ?_⟩
  · simp only [Ui.quietOn, EventQueue.AddEvent, combo_id_small, Ui.scanned]
  · intro j hj hnr
    have hfj := (Ui.comboScan_flag ui j hj).2 hnr
    have hreset : (((ui.scanned pins).quietOn now (fun j => j < i0)).switches_ j).reset =
        ((ui.scanned pins).switches_ j).reset := by
      simp only [Ui.quietOn]
      split
      · exact Switch.reset_quietStep _ _
      · rfl
    simp only [Ui.quietOn, hj, hfj, and_self, ne_eq, not_false_eq_true, if_true, and_true]
      at hreset ⊢
    rw [hreset]
    by_cases hlt : i0 < j
    · simp only [hlt, if_true, true_and, Switch.quietStep_reset]
    · simp only [hlt, if_false, false_and]

/-- Ui::Poll when more than one switch is non-released and the first switch for which the
loop enqueues an event, i0, is not detected as released: it is past the long-press threshold. -/
theorem Ui.Poll_long_combo (ui : Ui) (now : Nat) (pins : Nat → Bool) (i0 : Nat)
    (hi0 : i0 < kNumSwitches) (hf : ((ui.scanned pins).switches_ i0).fires now = true)
    (hfirst : ∀ j, j < i0 → ((ui.scanned pins).switches_ j).fires now = false)
    (hC : 1 < ui.comboScan.2)
    (hjr : ((ui.scanned pins).switches_ i0).just_released = false) :
    (ui.Poll now pins).queue_.events_ = ui.queue_.events_ ++
        [{ control_type := .CONTROL_SWITCH, control_id := ui.comboScan.1 <<< 2,
           data := SwitchState.SwitchLongPressed.toInt }] ∧
    ∀ j, j < kNumSwitches → (ui.switches_ j).state_ ≠ .SwitchReleased →
      (j ≤ i0 → ((ui.Poll now pins).switches_ j).state_ = .SwitchLongPressed) ∧
      (i0 < j → (ui.Poll now pins).switches_ j =
        if ((ui.scanned pins).switches_ j).just_released = true then
          ((ui.scanned pins).switches_ j).reset
        else ((ui.scanned pins).switches_ j).set_state .SwitchLongPressed) := by
  obtain ⟨hP, hcase⟩ := (Switch.fires_iff _ _).1 hf
  have hlong : toInt32 (sub32 now ((ui.scanned pins).switches_ i0).press_time_) >
      kLongPressDuration := by
    rcases hcase with h | h
    · rw [hjr] at h; exact absurd h (by decide)
    · exact h.2
  have hPi : (ui.switches_ i0).state_ ≠ .SwitchReleased := by
    rw [← (Ui.scanned_state ui pins i0).1, hP]; decide
  have hflag := (Ui.comboScan_flag ui i0 hi0).2 hPi
  have hu1 : ∀ j, i0 ≤ j → ((ui.scanned pins).quietOn now (fun j => j < i0)).switches_ j =
      (ui.scanned pins).switches_ j := by
    intro j hj
    simp [Ui.quietOn, Nat.not_lt.2 hj]
  rw [Ui.Poll_fire ui now pins i0 hi0 hf hfirst,
    Ui.pollSwitch_long_combo now _ _ _ _ i0 (by rw [hu1 i0 (Nat.le_refl _)]; exact hP)
      (by rw [hu1 i0 (Nat.le_refl _)]; exact hjr) (by rw [hu1 i0 (Nat.le_refl _)]; exact hlong)
      hC hi0 hflag]
  refine ⟨?_, ?_⟩
  · simp only [Ui.quietOn, EventQueue.AddEvent, combo_id_small, Ui.scanned]
  · intro j hj hnr
    have hfj := (Ui.comboScan_flag ui j hj).2 hnr
    refine ⟨fun hle => ?_, fun hlt => ?_⟩
    · have : ¬ i0 < j := Nat.not_lt.2 hle
      simp only [Ui.quietOn, hj, hfj, this, and_self, ne_eq, not_false_eq_true, if_true,
        false_and, if_false]
      rfl
    · have h1 := hu1 j (Nat.le_of_lt hlt)
      simp only [Ui.quietOn] at h1
      simp only [Ui.quietOn, hj, hfj, hlt, and_self, ne_eq, not_false_eq_true, if_true, h1,
        Switch.quietStep_long]

/-- Ui::Poll when no switch qualifies: nothing is enqueued and every switch takes the quiet
step. -/
theorem Ui.Poll_quiet_facts (ui : Ui) (now : Nat) (pins : Nat → Bool)
    (h : ∀ j, j < kNumSwitches → ((ui.scanned pins).switches_ j).fires now = false) :
    (ui.Poll now pins).queue_ = ui.queue_ ∧
    ∀ j, j < kNumSwitches →
      (ui.Poll now pins).switches_ j = ((ui.switches_ j).scan (pins j)).quietStep now := by
  rw [Ui.Poll_quiet ui now pins h]
  refine ⟨rfl, fun j hj => ?_⟩
  simp only [Ui.quietOn, hj, if_true, Ui.scanned_switch ui pins j hj]

/-- Ui::Poll when at most one switch is non-released and that switch, i0, qualifies. -/
theorem Ui.Poll_single (ui : Ui) (now : Nat) (pins : Nat → Bool) (i0 : Nat)
    (hi0 : i0 < kNumSwitches) (hf : ((ui.scanned pins).switches_ i0).fires now = true)
    (hC : ¬ 1 < ui.comboScan.2) :
    (((ui.scanned pins).switches_ i0).just_released = true →
      (ui.Poll now pins).queue_.events_ = ui.queue_.events_ ++
        [{ control_type := .CONTROL_SWITCH, control_id := i0,
           data := SwitchState.SwitchReleased.toInt }] ∧
      (ui.Poll now pins).switches_ i0 = ((ui.scanned pins).switches_ i0).reset) ∧
    (((ui.scanned pins).switches_ i0).just_released = false →
      (ui.Poll now pins).queue_.events_ = ui.queue_.events_ ++
        [{ control_type := .CONTROL_SWITCH, control_id := i0,
           data := SwitchState.SwitchLongPressed.toInt }] ∧
      (ui.Poll now pins).switches_ i0 =
        ((ui.scanned pins).switches_ i0).set_state .SwitchLongPressed) := by
  obtain ⟨hP, hcase⟩ := (Switch.fires_iff _ _).1 hf
  have hPi : (ui.switches_ i0).state_ ≠ .SwitchReleased := by
    rw [← (Ui.scanned_state ui pins i0).1, hP]; decide
  have hfirst : ∀ j, j < i0 → ((ui.scanned pins).switches_ j).fires now = false := by
    intro j hj
    apply Switch.fires_of_not_pressed
    have hrel : (ui.switches_ j).state_ = .SwitchReleased := by
      by_contra hnr
      exact hC ((Ui.comboScan_count ui).2
        ⟨j, i0, Nat.lt_trans hj hi0, hi0, Nat.ne_of_lt hj, hnr, hPi⟩)
    rw [(Ui.scanned_state ui pins j).1, hrel]
    decide
  have hu1 : ((ui.scanned pins).quietOn now (fun j => j < i0)).switches_ i0 =
      (ui.scanned pins).switches_ i0 := by
    simp [Ui.quietOn]
  have hid : i0 % 2 ^ 16 = i0 := by
    simp only [kNumSwitches] at hi0
    omega
  refine ⟨fun hjr => ?_, fun hjr => ?_⟩
  · rw [Ui.Poll_fire ui now pins i0 hi0 hf hfirst,
      Ui.pollSwitch_release_single now _ _ _ _ i0 (by rw [hu1]; exact hP)
        (by rw [hu1]; exact hjr) hC]
    refine ⟨?_, ?_⟩
    · simp only [Ui.quietOn, EventQueue.AddEvent, hid, Ui.scanned]
    · simp [Ui.quietOn]
  · have hlong : toInt32 (sub32 now ((ui.scanned pins).switches_ i0).press_time_) >
        kLongPressDuration := by
      rcases hcase with h | h
      · rw [hjr] at h; exact absurd h (by decide)
      · exact h.2
    rw [Ui.Poll_fire ui now pins i0 hi0 hf hfirst,
      Ui.pollSwitch_long_single now _ _ _ _ i0 (by rw [hu1]; exact hP)
        (by rw [hu1]; exact hjr) (by rw [hu1]; exact hlong) hC]
    refine ⟨?_, ?_⟩
    · simp only [Ui.quietOn, EventQueue.AddEvent, hid, Ui.scanned]
    · simp [Ui.quietOn]

theorem Ui.single_count (ui : Ui) (i : Nat)
    (hothers : ∀ j, j < kNumSwitches → j ≠ i → (ui.switches_ j).state_ = .SwitchReleased) :
    ¬ 1 < ui.comboScan.2 := by
  intro h
  obtain ⟨a, b, ha, hb, hab, hna, hnb⟩ := (Ui.comboScan_count ui).1 h
  by_cases hai : a = i
  · exact hnb (hothers b hb (fun hbi => hab (hai.trans hbi.symm)))
  · exact hna (hothers a ha hai)

theorem Ui.single_fires (ui : Ui) (now : Nat) (pins : Nat → Bool) (i : Nat)
    (hothers : ∀ j, j < kNumSwitches → j ≠ i → (ui.switches_ j).state_ = .SwitchReleased)
    (j : Nat) (hj : j < kNumSwitches) (hne : j ≠ i) :
    ((ui.scanned pins).switches_ j).fires now = false := by
  apply Switch.fires_of_not_pressed
  rw [(Ui.scanned_state ui pins j).1, hothers j hj hne]
  decide

/-- C6: when switch i is the only switch not in state SwitchReleased at the start of a
Ui::Poll tick, is SwitchPressed and is detected as released in that tick, exactly one event
is enqueued, of type CONTROL_SWITCH with control id i and data SwitchReleased, and switch i is
reset (state SwitchReleased, press_time 0). -/
theorem short_tap (ui : Ui) (now : Nat) (pins : Nat → Bool) (i : Nat)
    (hi : i < kNumSwitches)
    (hP : (ui.switches_ i).state_ = .SwitchPressed)
    (hothers : ∀ j, j < kNumSwitches → j ≠ i → (ui.switches_ j).state_ = .SwitchReleased)
    (hrel : ((ui.switches_ i).scan (pins i)).just_released = true) :
    (ui.Poll now pins).queue_.events_ = ui.queue_.events_ ++
      [{ control_type := .CONTROL_SWITCH, control_id := i,
         data := SwitchState.SwitchReleased.toInt }] ∧
    ((ui.Poll now pins).switches_ i).state_ = .SwitchReleased ∧
    ((ui.Poll now pins).switches_ i).press_time_ = 0 := by
  have hsw := Ui.scanned_switch ui pins i hi
  have hf : ((ui.scanned pins).switches_ i).fires now = true := by
    rw [Switch.fires_iff, (Ui.scanned_state ui pins i).1, hsw]
    exact ⟨hP, Or.inl hrel⟩
  have h := (Ui.Poll_single ui now pins i hi hf (Ui.single_count ui i hothers)).1
    (by rw [hsw]; exact hrel)
  rw [h.1, h.2]
  exact ⟨rfl, rfl, rfl⟩

theorem short_tap_witness :
    (tapExample.Poll 150 (fun _ => true)).queue_.events_ = tapExample.queue_.events_ ++
      [{ control_type := .CONTROL_SWITCH, control_id := 1,
         data := SwitchState.SwitchReleased.toInt }] ∧
    ((tapExample.Poll 150 (fun _ => true)).switches_ 1).state_ = .SwitchReleased ∧
    ((tapExample.Poll 150 (fun _ => true)).switches_ 1).press_time_ = 0 :=
  short_tap tapExample 150 (fun _ => true) 1 (by decide) (by decide) (by decide) (by decide)

/-- C4: for a switch i that is the only switch not in state SwitchReleased, is SwitchPressed
and is not detected as released, a Ui::Poll at which the elapsed time (int32_t)(now -
press_time) is at most kLongPressDuration = 1000, so 999 or exactly 1000, enqueues nothing and
leaves the switch SwitchPressed with its press_time; a Ui::Poll at which it is 1001 or more
enqueues exactly one event, with control id i and data SwitchLongPressed, and sets the switch
to SwitchLongPressed. -/
theorem long_press_boundary (ui : Ui) (now : Nat) (pins : Nat → Bool) (i : Nat)
    (hi : i < kNumSwitches)
    (hP : (ui.switches_ i).state_ = .SwitchPressed)
    (hothers : ∀ j, j < kNumSwitches → j ≠ i → (ui.switches_ j).state_ = .SwitchReleased)
    (hheld : ((ui.switches_ i).scan (pins i)).just_released = false) :
    (toInt32 (sub32 now (ui.switches_ i).press_time_) ≤ 1000 →
      (ui.Poll now pins).queue_ = ui.queue_ ∧
      ((ui.Poll now pins).switches_ i).state_ = .SwitchPressed ∧
      ((ui.Poll now pins).switches_ i).press_time_ = (ui.switches_ i).press_time_) ∧
    (1001 ≤ toInt32 (sub32 now (ui.switches_ i).press_time_) →
      (ui.Poll now pins).queue_.events_ = ui.queue_.events_ ++
        [{ control_type := .CONTROL_SWITCH, control_id := i,
           data := SwitchState.SwitchLongPressed.toInt }] ∧
      ((ui.Poll now pins).switches_ i).state_ = .SwitchLongPressed ∧
      ((ui.Poll now pins).switches_ i).press_time_ = (ui.switches_ i).press_time_) := by
  have hsw := Ui.scanned_switch ui pins i hi
  have hst := Ui.scanned_state ui pins i
  refine ⟨fun hle => ?_, fun hge => ?_⟩
  · have hq : ∀ j, j < kNumSwitches → ((ui.scanned pins).switches_ j).fires now = false := by
      intro j hj
      by_cases hji : j = i
      · subst hji
        cases hfs : ((ui.scanned pins).switches_ j).fires now
        · rfl
        · obtain ⟨_, hc⟩ := (Switch.fires_iff _ _).1 hfs
          rw [hsw, hheld] at hc
          rcases hc with hc | ⟨_, hc⟩
          · exact absurd hc (by decide)
          · rw [← hsw, hst.2] at hc
            simp only [kLongPressDuration] at hc
            omega
      · exact Ui.single_fires ui now pins i hothers j hj hji
    have h := Ui.Poll_quiet_facts ui now pins hq
    rw [h.1, h.2 i hi]
    have hP' : ((ui.switches_ i).scan (pins i)).state_ = .SwitchPressed := hP
    simp only [Switch.quietStep, hP', true_and]
    rfl
  · have hf : ((ui.scanned pins).switches_ i).fires now = true := by
      rw [Switch.fires_iff, hst.1, hst.2, hsw]
      refine ⟨hP, Or.inr ⟨hheld, ?_⟩⟩
      simp only [kLongPressDuration]
      omega
    have h := (Ui.Poll_single ui now pins i hi hf (Ui.single_count ui i hothers)).2
      (by rw [hsw]; exact hheld)
    rw [h.1, h.2, hsw]
    exact ⟨rfl, rfl, rfl⟩

theorem long_press_boundary_witness :
    (toInt32 (sub32 1099 (holdExample.switches_ 2).press_time_) = 999 ∧
      (holdExample.Poll 1099 holdPins).queue_ = holdExample.queue_ ∧
      ((holdExample.Poll 1099 holdPins).switches_ 2).state_ = .SwitchPressed) ∧
    (toInt32 (sub32 1100 (holdExample.switches_ 2).press_time_) = 1000 ∧
      (holdExample.Poll 1100 holdPins).queue_ = holdExample.queue_ ∧
      ((holdExample.Poll 1100 holdPins).switches_ 2).state_ = .SwitchPressed) ∧
    (toInt32 (sub32 1101 (holdExample.switches_ 2).press_time_) = 1001 ∧
      (holdExample.Poll 1101 holdPins).queue_.events_ = holdExample.queue_.events_ ++
        [{ control_type := .CONTROL_SWITCH, control_id := 2,
           data := SwitchState.SwitchLongPressed.toInt }] ∧
      ((holdExample.Poll 1101 holdPins).switches_ 2).state_ = .SwitchLongPressed) := by
  have h999 := (long_press_boundary holdExample 1099 holdPins 2 (by decide) (by decide)
    (by decide) (by decide)).1 (by decide)
  have h1000 := (long_press_boundary holdExample 1100 holdPins 2 (by decide) (by decide)
    (by decide) (by decide)).1 (by decide)
  have h1001 := (long_press_boundary holdExample 1101 holdPins 2 (by decide) (by decide)
    (by decide) (by decide)).2 (by decide)
  exact ⟨⟨by decide, h999.1, h999.2.1⟩, ⟨by decide, h1000.1, h1000.2.1⟩,
    ⟨by decide, h1001.1, h1001.2.1⟩⟩

/-- C3 (amended): in a Ui::Poll tick at whose start more than one switch is non-released, if
some SwitchPressed switch is detected as released or has been held longer than
kLongPressDuration, then exactly one event is enqueued; it is a CONTROL_SWITCH event whose
control id is the combo identifier, the bitmask of the non-released switches shifted left by
fls(kNumSwitches - 1) = 2 bits, which is no switch index. The event is triggered by the first
such switch in index order, i0: it is a release event when i0 is detected as released and a
long-press event otherwise. Afterwards every participating switch is reset (SwitchReleased,
press_time 0) in the release case, except a participating switch of higher index than i0
whose debounce history reads the just-pressed pattern 0x80 in that tick, which is captured again
and ends SwitchPressed; and every participating switch is SwitchLongPressed in the long-press
case, except a participating switch of higher index than i0 that is itself detected as
released in that tick, which is reset. -/
theorem combo_gesture_exclusive (ui : Ui) (now : Nat) (pins : Nat → Bool) (i : Nat)
    (hi : i < kNumSwitches)
    (hmulti : ∃ a b, a < kNumSwitches ∧ b < kNumSwitches ∧ a ≠ b ∧
      (ui.switches_ a).state_ ≠ .SwitchReleased ∧ (ui.switches_ b).state_ ≠ .SwitchReleased)
    (hP : (ui.switches_ i).state_ = .SwitchPressed)
    (hq : ((ui.switches_ i).scan (pins i)).just_released = true ∨
      toInt32 (sub32 now (ui.switches_ i).press_time_) > kLongPressDuration) :
    ∃ (e : Event) (i0 : Nat),
      i0 ≤ i ∧ (ui.switches_ i0).state_ = .SwitchPressed ∧
      (((ui.switches_ i0).scan (pins i0)).just_released = true ∨
        toInt32 (sub32 now (ui.switches_ i0).press_time_) > kLongPressDuration) ∧
      (∀ j, j < i0 → ¬ ((ui.switches_ j).state_ = .SwitchPressed ∧
        (((ui.switches_ j).scan (pins j)).just_released = true ∨
          toInt32 (sub32 now (ui.switches_ j).press_time_) > kLongPressDuration))) ∧
      (ui.Poll now pins).queue_.events_ = ui.queue_.events_ ++ [e] ∧
      e.control_type = .CONTROL_SWITCH ∧
      e.control_id = ui.comboScan.1 <<< fls (kNumSwitches - 1) ∧
      (∀ j, j < kNumSwitches →
        (ui.comboScan.1 &&& (1 <<< j) ≠ 0 ↔ (ui.switches_ j).state_ ≠ .SwitchReleased)) ∧
      (∀ j, j < kNumSwitches → e.control_id ≠ j) ∧
      (e.data = SwitchState.SwitchReleased.toInt ∨
        e.data = SwitchState.SwitchLongPressed.toInt) ∧
      (e.data =
        if ((ui.switches_ i0).scan (pins i0)).just_released = true then
          SwitchState.SwitchReleased.toInt
        else SwitchState.SwitchLongPressed.toInt) ∧
      ∀ j, j < kNumSwitches → (ui.switches_ j).state_ ≠ .SwitchReleased →
        (e.data = SwitchState.SwitchReleased.toInt →
          (¬ (i0 < j ∧ ((ui.switches_ j).scan (pins j)).just_pressed = true) →
            ((ui.Poll now pins).switches_ j).state_ = .SwitchReleased ∧
            ((ui.Poll now pins).switches_ j).press_time_ = 0) ∧
          (i0 < j ∧ ((ui.switches_ j).scan (pins j)).just_pressed = true →
            ((ui.Poll now pins).switches_ j).state_ = .SwitchPressed ∧
            ((ui.Poll now pins).switches_ j).press_time_ = now % 2 ^ 32)) ∧
        (e.data = SwitchState.SwitchLongPressed.toInt →
          (¬ (i0 < j ∧ ((ui.switches_ j).scan (pins j)).just_released = true) →
            ((ui.Poll now pins).switches_ j).state_ = .SwitchLongPressed) ∧
          (i0 < j ∧ ((ui.switches_ j).scan (pins j)).just_released = true →
            ((ui.Poll now pins).switches_ j).state_ = .SwitchReleased ∧
            ((ui.Poll now pins).switches_ j).press_time_ = 0)) := by
  have hC : 1 < ui.comboScan.2 := (Ui.comboScan_count ui).2 hmulti
  have hfires : ∀ j, j < kNumSwitches →
      (((ui.scanned pins).switches_ j).fires now = true ↔
        (ui.switches_ j).state_ = .SwitchPressed ∧
          (((ui.switches_ j).scan (pins j)).just_released = true ∨
            toInt32 (sub32 now (ui.switches_ j).press_time_) > kLongPressDuration)) := by
    intro j hj
    rw [Switch.fires_iff, (Ui.scanned_state ui pins j).1, (Ui.scanned_state ui pins j).2,
      Ui.scanned_switch ui pins j hj]
    constructor
    · rintro ⟨h1, h2 | ⟨_, h2⟩⟩
      · exact ⟨h1, Or.inl h2⟩
      · exact ⟨h1, Or.inr h2⟩
    · rintro ⟨h1, h2 | h2⟩
      · exact ⟨h1, Or.inl h2⟩
      · cases hjr : ((ui.switches_ j).scan (pins j)).just_released
        · exact ⟨h1, Or.inr ⟨rfl, h2⟩⟩
        · exact ⟨h1, Or.inl rfl⟩
  have hfi : i < kNumSwitches ∧ ((ui.scanned pins).switches_ i).fires now = true :=
    ⟨hi, (hfires i hi).2 ⟨hP, hq⟩⟩
  obtain ⟨i0, hle, ⟨hi0, hf⟩, hmin⟩ := exists_first
    (fun j => j < kNumSwitches ∧ ((ui.scanned pins).switches_ j).fires now = true) i hfi
  have hfirst : ∀ j, j < i0 → ((ui.scanned pins).switches_ j).fires now = false := by
    intro j hj
    have := hmin j hj
    simp only [not_and, Bool.not_eq_true] at this
    exact this (Nat.lt_trans hj hi0)
  have hbefore : ∀ j, j < i0 → ¬ ((ui.switches_ j).state_ = .SwitchPressed ∧
      (((ui.switches_ j).scan (pins j)).just_released = true ∨
        toInt32 (sub32 now (ui.switches_ j).press_time_) > kLongPressDuration)) := by
    intro j hj hq'
    have h1 := (hfires j (Nat.lt_trans hj hi0)).2 hq'
    rw [hfirst j hj] at h1
    exact absurd h1 (by decide)
  have hq0 := (hfires i0 hi0).1 hf
  have hidn : ∀ j, j < kNumSwitches → ui.comboScan.1 <<< 2 ≠ j := by
    intro j hj
    have h3 := (Ui.comboScan_bounds ui).2 hC
    simp only [kNumSwitches] at hj
    rw [Nat.shiftLeft_eq]
    omega
  have hsc0 := Ui.scanned_switch ui pins i0 hi0
  cases hjr : ((ui.scanned pins).switches_ i0).just_released
  · obtain ⟨hev, hsw⟩ := Ui.Poll_long_combo ui now pins i0 hi0 hf hfirst hC hjr
    have hjr0 : ¬ ((ui.switches_ i0).scan (pins i0)).just_released = true := by
      rw [← hsc0, hjr]
      decide
    refine ⟨_, i0, hle, hq0.1, hq0.2, hbefore, hev, rfl, by rw [fls_three],
      fun j hj => Ui.comboScan_flag ui j hj, hidn, Or.inr rfl, by rw [if_neg hjr0], ?_⟩
    intro j hj hnr
    refine ⟨fun h => absurd (show SwitchState.SwitchLongPressed.toInt =
      SwitchState.SwitchReleased.toInt from h) (by decide), fun _ => ⟨fun hn => ?_, fun hy => ?_⟩⟩
    · rcases Nat.lt_or_ge i0 j with hlt | hge
      · have hnjr : ¬ ((ui.switches_ j).scan (pins j)).just_released = true :=
          fun h => hn ⟨hlt, h⟩
        rw [(hsw j hj hnr).2 hlt, Ui.scanned_switch ui pins j hj, if_neg hnjr]
        rfl
      · exact (hsw j hj hnr).1 hge
    · rw [(hsw j hj hnr).2 hy.1, Ui.scanned_switch ui pins j hj, if_pos hy.2]
      exact ⟨rfl, rfl⟩
  · obtain ⟨hev, hsw⟩ := Ui.Poll_release_combo ui now pins i0 hi0 hf hfirst hC hjr
    have hjr0 : ((ui.switches_ i0).scan (pins i0)).just_released = true := by
      rw [← hsc0, hjr]
    refine ⟨_, i0, hle, hq0.1, hq0.2, hbefore, hev, rfl, by rw [fls_three],
      fun j hj => Ui.comboScan_flag ui j hj, hidn, Or.inl rfl, by rw [if_pos hjr0], ?_⟩
    intro j hj hnr
    refine ⟨fun _ => ⟨fun hn => ?_, fun hy => ?_⟩, fun h => absurd (show
      SwitchState.SwitchReleased.toInt = SwitchState.SwitchLongPressed.toInt from h)
      (by decide)⟩
    · rw [hsw j hj hnr, Ui.scanned_switch ui pins j hj, if_neg hn]
      exact ⟨rfl, rfl⟩
    · rw [hsw j hj hnr, Ui.scanned_switch ui pins j hj, if_pos hy]
      exact ⟨rfl, rfl⟩

theorem combo_gesture_exclusive_witness :
    ∃ (e : Event) (i0 : Nat),
      i0 ≤ 0 ∧ (comboExample.switches_ i0).state_ = .SwitchPressed ∧
      (((comboExample.switches_ i0).scan (comboPins i0)).just_released = true ∨
        toInt32 (sub32 300 (comboExample.switches_ i0).press_time_) > kLongPressDuration) ∧
      (∀ j, j < i0 → ¬ ((comboExample.switches_ j).state_ = .SwitchPressed ∧
        (((comboExample.switches_ j).scan (comboPins j)).just_released = true ∨
          toInt32 (sub32 300 (comboExample.switches_ j).press_time_) > kLongPressDuration))) ∧
      (comboExample.Poll 300 comboPins).queue_.events_ = comboExample.queue_.events_ ++ [e] ∧
      e.control_type = .CONTROL_SWITCH ∧
      e.control_id = comboExample.comboScan.1 <<< fls (kNumSwitches - 1) ∧
      (∀ j, j < kNumSwitches →
        (comboExample.comboScan.1 &&& (1 <<< j) ≠ 0 ↔
          (comboExample.switches_ j).state_ ≠ .SwitchReleased)) ∧
      (∀ j, j < kNumSwitches → e.control_id ≠ j) ∧
      (e.data = SwitchState.SwitchReleased.toInt ∨
        e.data = SwitchState.SwitchLongPressed.toInt) ∧
      (e.data =
        if ((comboExample.switches_ i0).scan (comboPins i0)).just_released = true then
          SwitchState.SwitchReleased.toInt
        else SwitchState.SwitchLongPressed.toInt) ∧
      ∀ j, j < kNumSwitches → (comboExample.switches_ j).state_ ≠ .SwitchReleased →
        (e.data = SwitchState.SwitchReleased.toInt →
          (¬ (i0 < j ∧ ((comboExample.switches_ j).scan (comboPins j)).just_pressed = true) →
            ((comboExample.Poll 300 comboPins).switches_ j).state_ = .SwitchReleased ∧
            ((comboExample.Poll 300 comboPins).switches_ j).press_time_ = 0) ∧
          (i0 < j ∧ ((comboExample.switches_ j).scan (comboPins j)).just_pressed = true →
            ((comboExample.Poll 300 comboPins).switches_ j).state_ = .SwitchPressed ∧
            ((comboExample.Poll 300 comboPins).switches_ j).press_time_ = 300 % 2 ^ 32)) ∧
        (e.data = SwitchState.SwitchLongPressed.toInt →
          (¬ (i0 < j ∧ ((comboExample.switches_ j).scan (comboPins j)).just_released = true) →
            ((comboExample.Poll 300 comboPins).switches_ j).state_ = .SwitchLongPressed) ∧
          (i0 < j ∧ ((comboExample.switches_ j).scan (comboPins j)).just_released = true →
            ((comboExample.Poll 300 comboPins).switches_ j).state_ = .SwitchReleased ∧
            ((comboExample.Poll 300 comboPins).switches_ j).press_time_ = 0)) :=
  combo_gesture_exclusive comboExample 300 comboPins 0 (by decide)
    ⟨0, 1, by decide, by decide, by decide, by decide, by decide⟩ (by decide)
    (Or.inl (by decide))

/-- C3, as stated, fails. First input: SWITCH_MODE and SWITCH_WRITE are both SwitchPressed,
MODE is detected as released and the history of WRITE reads 0x80 after the scan; Ui::Poll
enqueues the one combo event (control id 12, a release), resets both switches, and the loop
then captures WRITE again, so that WRITE, a participating switch, ends SwitchPressed, neither
SwitchReleased nor SwitchLongPressed. Second input: MODE, held since clock 100, passes the
long-press threshold at clock 1101, in the tick in which WRITE is detected as released; the
combo event is a long-press and WRITE ends SwitchReleased, not SwitchLongPressed. -/
theorem combo_gesture_counterexample :
    ((comboBounce.switches_ 0).state_ = .SwitchPressed ∧
      (comboBounce.switches_ 1).state_ = .SwitchPressed ∧
      ((comboBounce.switches_ 0).scan (comboPins 0)).just_released = true ∧
      (comboBounce.Poll 17 comboPins).queue_.events_ =
        [{ control_type := .CONTROL_SWITCH, control_id := 12,
           data := SwitchState.SwitchReleased.toInt }] ∧
      (comboBounce.Poll 17 comboPins).switches_ 1 =
        { debounce_buffer_ := 0x80, state_ := .SwitchPressed, press_time_ := 17 } ∧
      ((comboBounce.Poll 17 comboPins).switches_ 1).state_ ≠ .SwitchReleased ∧
      ((comboBounce.Poll 17 comboPins).switches_ 1).state_ ≠ .SwitchLongPressed) ∧
    ((comboMixed.switches_ 0).state_ = .SwitchPressed ∧
      (comboMixed.switches_ 1).state_ = .SwitchPressed ∧
      ¬ toInt32 (sub32 1100 (comboMixed.switches_ 0).press_time_) > kLongPressDuration ∧
      toInt32 (sub32 1101 (comboMixed.switches_ 0).press_time_) > kLongPressDuration ∧
      ((comboMixed.switches_ 1).scan (mixedPins 1)).just_released = true ∧
      (comboMixed.Poll 1101 mixedPins).queue_.events_ =
        [{ control_type := .CONTROL_SWITCH, control_id := 12,
           data := SwitchState.SwitchLongPressed.toInt }] ∧
      ((comboMixed.Poll 1101 mixedPins).switches_ 0).state_ = .SwitchLongPressed ∧
      ((comboMixed.Poll 1101 mixedPins).switches_ 1).state_ = .SwitchReleased) := by
  decide

/-- The case the amended C5 leaves out: SWITCH_MODE is SwitchLongPressed and detected as
released in the Poll at which SWITCH_WRITE, SwitchPressed and held, passes the long-press
threshold. The loop resets MODE, and setFlaggedSwitchState, working from the flags computed
before the loop, then sets it to SwitchLongPressed again, with press_time 0. -/
theorem long_press_release_race :
    (longRace.switches_ 0).state_ = .SwitchLongPressed ∧
    ((longRace.switches_ 0).scan (comboPins 0)).just_released = true ∧
    (longRace.Poll 2001 comboPins).switches_ 0 =
      { debounce_buffer_ := 0x7f, state_ := .SwitchLongPressed, press_time_ := 0 } ∧
    (longRace.Poll 2001 comboPins).queue_.events_ =
      [{ control_type := .CONTROL_SWITCH, control_id := 12,
         data := SwitchState.SwitchLongPressed.toInt }] := by
  decide

set_option maxRecDepth 100000 in
/-- The state comboBounce arises from idle switches after the 16 ticks of bounceTrace, with
nothing enqueued on the way. -/
theorem comboBounce_reachable :
    (∀ j, j < kNumSwitches →
      ((Ui.Polls { switches_ := fun _ => Switch.idle } 1 bounceTrace).switches_ j) =
        comboBounce.switches_ j) ∧
    (Ui.Polls { switches_ := fun _ => Switch.idle } 1 bounceTrace).queue_.events_ = [] := by
  decide

/-! Calibration data -/

theorem CvScaler.CalibrateC3_accept (cv : CvScaler) (cal : CalibrationData) (adc : Nat → ℚ)
    (h : (cv.CalibrateC3 cal adc).1 = true) :
    (cv.CalibrateC3 cal adc).2 =
      { cal with
        pitch_scale := 24 / (adc ADC_V_OCT_CV - cv.cv_c1_)
        pitch_offset := 12 - 24 / (adc ADC_V_OCT_CV - cv.cv_c1_) * cv.cv_c1_ } := by
  unfold CvScaler.CalibrateC3 at h ⊢
  by_cases hc : adc ADC_V_OCT_CV - cv.cv_c1_ > -(1 / 2) ∧ adc ADC_V_OCT_CV - cv.cv_c1_ < -0
  · rw [if_pos hc]
  · rw [if_neg hc] at h
    simp at h

theorem CvScaler.CalibrateC3_reject (cv : CvScaler) (cal : CalibrationData) (adc : Nat → ℚ)
    (h : (cv.CalibrateC3 cal adc).1 = false) : (cv.CalibrateC3 cal adc).2 = cal := by
  unfold CvScaler.CalibrateC3 at h ⊢
  by_cases hc : adc ADC_V_OCT_CV - cv.cv_c1_ > -(1 / 2) ∧ adc ADC_V_OCT_CV - cv.cv_c1_ < -0
  · rw [if_pos hc] at h
    simp at h
  · rw [if_neg hc]

/-- C11: over exact rationals, whenever CvScaler::CalibrateC3 accepts it stores pitch_scale =
24 / (c3 - c1) and pitch_offset = 12 - pitch_scale * c1 (c1 the captured cv_c1_, c3 the V/OCT
reading), so that x -> pitch_scale * x + pitch_offset sends c1 to 12 and c3 to 36, and
pitch_scale < -48 (so it is negative); the per-channel offsets are not touched. Whenever it
rejects, the calibration data is left unchanged. -/
theorem calibration_formula (cv : CvScaler) (cal : CalibrationData) (adc : Nat → ℚ) :
    ((cv.CalibrateC3 cal adc).1 = true →
      (cv.CalibrateC3 cal adc).2.pitch_scale = 24 / (adc ADC_V_OCT_CV - cv.cv_c1_) ∧
      (cv.CalibrateC3 cal adc).2.pitch_offset =
        12 - (cv.CalibrateC3 cal adc).2.pitch_scale * cv.cv_c1_ ∧
      (cv.CalibrateC3 cal adc).2.pitch_scale * cv.cv_c1_ +
        (cv.CalibrateC3 cal adc).2.pitch_offset = 12 ∧
      (cv.CalibrateC3 cal adc).2.pitch_scale * adc ADC_V_OCT_CV +
        (cv.CalibrateC3 cal adc).2.pitch_offset = 36 ∧
      (cv.CalibrateC3 cal adc).2.pitch_scale < -48 ∧
      (cv.CalibrateC3 cal adc).2.pitch_scale < 0 ∧
      (cv.CalibrateC3 cal adc).2.offset = cal.offset) ∧
    ((cv.CalibrateC3 cal adc).1 = false → (cv.CalibrateC3 cal adc).2 = cal) := by
  refine ⟨fun h => ?_, CvScaler.CalibrateC3_reject cv cal adc⟩
  have hd := (CvScaler.CalibrateC3_flag cv cal adc).1 h
  rw [CvScaler.CalibrateC3_accept cv cal adc h]
  simp only []
  generalize adc ADC_V_OCT_CV = c3 at hd ⊢
  generalize cv.cv_c1_ = c1 at hd ⊢
  have hne : c3 - c1 ≠ 0 := ne_of_lt hd.2
  have hscale : 24 / (c3 - c1) < -48 := by
    rw [div_lt_iff_of_neg hd.2]
    linarith [hd.1]
  refine ⟨trivial, trivial, by ring, ?_, hscale, by linarith, trivial⟩
  field_simp
  ring

theorem CvScaler.CalibrateOffsets_spec (cv : CvScaler) (cal : CalibrationData)
    (adc : Nat → ℚ) :
    (cv.CalibrateOffsets cal adc).pitch_scale = cal.pitch_scale ∧
    (cv.CalibrateOffsets cal adc).pitch_offset = cal.pitch_offset ∧
    ∀ i, (cv.CalibrateOffsets cal adc).offset i =
      if i < ADC_CHANNEL_LAST then adc i else cal.offset i := by
  unfold CvScaler.CalibrateOffsets
  generalize ADC_CHANNEL_LAST = n
  induction n with
  | zero => simp
  | succ n ih =>
    rw [List.range_succ, List.foldl_append, List.foldl_cons, List.foldl_nil]
    refine ⟨ih.1, ih.2.1, fun i => ?_⟩
    simp only [Function.update_apply, ih.2.2 i]
    by_cases h : i = n
    · simp [h]
    · by_cases h2 : i < n
      · simp [h, h2, Nat.lt_succ_of_lt h2]
      · have : ¬ i < n + 1 := by omega
        simp [h, h2, this]

/-- The two steps of a calibration run through the UI events: what Ui::CalibrateC1 followed by
Ui::CalibrateC3 leave in the settings when the two-point check fails. -/
theorem Ui.calibration_run_failed (ui : Ui) (adc1 adc2 : Nat → ℚ)
    (hfail : ¬ (-(1 / 2) < adc2 ADC_V_OCT_CV - adc1 ADC_V_OCT_CV ∧
      adc2 ADC_V_OCT_CV - adc1 ADC_V_OCT_CV < 0)) :
    ((ui.CalibrateC1 adc1).CalibrateC3 adc2).mode_ = .UI_MODE_PANIC ∧
    ((ui.CalibrateC1 adc1).CalibrateC3 adc2).settings_.saved_ = ui.settings_.saved_ ∧
    ((ui.CalibrateC1 adc1).CalibrateC3 adc2).settings_.data_.state = ui.settings_.data_.state ∧
    ((ui.CalibrateC1 adc1).CalibrateC3 adc2).settings_.data_.calibration_data.pitch_scale =
      ui.settings_.data_.calibration_data.pitch_scale ∧
    ((ui.CalibrateC1 adc1).CalibrateC3 adc2).settings_.data_.calibration_data.pitch_offset =
      ui.settings_.data_.calibration_data.pitch_offset ∧
    ∀ i, ((ui.CalibrateC1 adc1).CalibrateC3 adc2).settings_.data_.calibration_data.offset i =
      if i < ADC_CHANNEL_LAST then adc1 i
      else ui.settings_.data_.calibration_data.offset i := by
  have hflag : ((ui.CalibrateC1 adc1).cv_scaler_.CalibrateC3
      (ui.CalibrateC1 adc1).settings_.data_.calibration_data adc2).1 = false := by
    cases hb : ((ui.CalibrateC1 adc1).cv_scaler_.CalibrateC3
      (ui.CalibrateC1 adc1).settings_.data_.calibration_data adc2).1
    · rfl
    · exact absurd ((CvScaler.CalibrateC3_flag _ _ _).1 hb) hfail
  have hrej := CvScaler.CalibrateC3_reject _ _ _ hflag
  have hoff := CvScaler.CalibrateOffsets_spec (ui.cv_scaler_.CalibrateC1 adc1)
    ui.settings_.data_.calibration_data adc1
  have hC3 : (ui.CalibrateC1 adc1).CalibrateC3 adc2 =
      { (ui.CalibrateC1 adc1) with mode_ := .UI_MODE_PANIC } := by
    simp only [Ui.CalibrateC3, hflag, hrej, Bool.false_eq_true, if_false]
  rw [hC3]
  exact ⟨rfl, rfl, rfl, hoff.1, hoff.2.1, hoff.2.2⟩

theorem Ui.CalibrateC1_mode (ui : Ui) (adc : Nat → ℚ) :
    (ui.CalibrateC1 adc).mode_ = .UI_MODE_CALIBRATION_2 := rfl

theorem Ui.OnSwitchEvents_calibration (eng : Engine) (ui : Ui) (e1 e2 : Event)
    (adc1 adc2 : Nat → ℚ) (hm : ui.mode_ = .UI_MODE_CALIBRATION_1)
    (h1 : e1.control_id = SWITCH_WRITE) (h1d : e1.data ≠ SwitchState.SwitchPressed.toInt)
    (h2 : e2.control_id = SWITCH_WRITE) (h2d : e2.data ≠ SwitchState.SwitchPressed.toInt) :
    Ui.OnSwitchEvents eng ui [(e1, adc1), (e2, adc2)] =
      (ui.CalibrateC1 adc1).CalibrateC3 adc2 := by
  simp only [Ui.OnSwitchEvents, List.foldl_cons, List.foldl_nil]
  have s1 : Ui.OnSwitchEvent eng adc1 ui e1 = ui.CalibrateC1 adc1 := by
    simp only [Ui.OnSwitchEvent, h1d, if_false, hm, h1, if_true]
  rw [s1]
  simp only [Ui.OnSwitchEvent, h2d, if_false, Ui.CalibrateC1_mode, h2, if_true]

theorem Ui.FactoryTestingCalibrate_run (ui : Ui) (adc1 adc2 : Nat → ℚ) (arg : Nat)
    (harg : 2 ≤ arg) :
    (ui.FactoryTestingCalibrate 1 adc1).FactoryTestingCalibrate arg adc2 =
      ((ui.CalibrateC1 adc1).CalibrateC3 adc2).SaveState := by
  have h0 : ¬ arg = 0 := by omega
  have h1 : ¬ arg = 1 := by omega
  simp [Ui.FactoryTestingCalibrate, h0, h1]

/-- C12 (amended): in every calibration run in which the two-point check fails, through the
Calibration-1 and Calibration-2 WRITE events or through the factory-test calibrate commands
(argument 1, then an argument of 2 or more), the pitch scale and the pitch offset of the
settings keep their values and the mode ends in Panic; the per-channel offsets of the settings
are the ADC readings of the first step; on the event path Settings::Save is not called, and
the factory-test path calls it once, through SaveState, with that calibration data. -/
theorem calibration_data_on_failure (eng : Engine) (ui : Ui) (e1 e2 : Event)
    (adc1 adc2 : Nat → ℚ) (arg : Nat)
    (hm : ui.mode_ = .UI_MODE_CALIBRATION_1)
    (h1 : e1.control_id = SWITCH_WRITE) (h1d : e1.data ≠ SwitchState.SwitchPressed.toInt)
    (h2 : e2.control_id = SWITCH_WRITE) (h2d : e2.data ≠ SwitchState.SwitchPressed.toInt)
    (harg : 2 ≤ arg)
    (hfail : ¬ (-(1 / 2) < adc2 ADC_V_OCT_CV - adc1 ADC_V_OCT_CV ∧
      adc2 ADC_V_OCT_CV - adc1 ADC_V_OCT_CV < 0)) :
    ((Ui.OnSwitchEvents eng ui [(e1, adc1), (e2, adc2)]).mode_ = .UI_MODE_PANIC ∧
      (Ui.OnSwitchEvents eng ui [(e1, adc1), (e2, adc2)]).settings_.saved_ =
        ui.settings_.saved_ ∧
      (Ui.OnSwitchEvents eng ui
          [(e1, adc1), (e2, adc2)]).settings_.data_.calibration_data.pitch_scale =
        ui.settings_.data_.calibration_data.pitch_scale ∧
      (Ui.OnSwitchEvents eng ui
          [(e1, adc1), (e2, adc2)]).settings_.data_.calibration_data.pitch_offset =
        ui.settings_.data_.calibration_data.pitch_offset ∧
      ∀ i, (Ui.OnSwitchEvents eng ui
          [(e1, adc1), (e2, adc2)]).settings_.data_.calibration_data.offset i =
        if i < ADC_CHANNEL_LAST then adc1 i
        else ui.settings_.data_.calibration_data.offset i) ∧
    (((ui.FactoryTestingCalibrate 1 adc1).FactoryTestingCalibrate arg adc2).mode_ =
        .UI_MODE_PANIC ∧
      ((ui.FactoryTestingCalibrate 1 adc1).FactoryTestingCalibrate arg adc2).settings_.saved_ =
        ui.settings_.saved_ ++
          [((ui.FactoryTestingCalibrate 1 adc1).FactoryTestingCalibrate arg
              adc2).settings_.data_] ∧
      ((ui.FactoryTestingCalibrate 1 adc1).FactoryTestingCalibrate arg
          adc2).settings_.data_.calibration_data.pitch_scale =
        ui.settings_.data_.calibration_data.pitch_scale ∧
      ((ui.FactoryTestingCalibrate 1 adc1).FactoryTestingCalibrate arg
          adc2).settings_.data_.calibration_data.pitch_offset =
        ui.settings_.data_.calibration_data.pitch_offset ∧
      ∀ i, ((ui.FactoryTestingCalibrate 1 adc1).FactoryTestingCalibrate arg
          adc2).settings_.data_.calibration_data.offset i =
        if i < ADC_CHANNEL_LAST then adc1 i
        else ui.settings_.data_.calibration_data.offset i) := by
  have h := Ui.calibration_run_failed ui adc1 adc2 hfail
  rw [Ui.OnSwitchEvents_calibration eng ui e1 e2 adc1 adc2 hm h1 h1d h2 h2d,
    Ui.FactoryTestingCalibrate_run ui adc1 adc2 arg harg]
  refine ⟨⟨h.1, h.2.1, h.2.2.2.1, h.2.2.2.2.1, h.2.2.2.2.2⟩, ?_⟩
  refine ⟨h.1, ?_, h.2.2.2.1, h.2.2.2.2.1, h.2.2.2.2.2⟩
  simp only [Ui.SaveState, Settings.Save]
  rw [h.2.1]

theorem calibration_data_on_failure_witness :
    (Ui.OnSwitchEvents exampleEngine calibrationExample
        [(writeRelease, calibrationAdc1), (writeRelease, calibrationAdc2)]).mode_ =
      .UI_MODE_PANIC ∧
    (Ui.OnSwitchEvents exampleEngine calibrationExample
        [(writeRelease, calibrationAdc1), (writeRelease, calibrationAdc2)]).settings_.saved_ =
      calibrationExample.settings_.saved_ ∧
    (((calibrationExample.FactoryTestingCalibrate 1 calibrationAdc1).FactoryTestingCalibrate 2
        calibrationAdc2).mode_ = .UI_MODE_PANIC) :=
  have h := calibration_data_on_failure exampleEngine
    calibrationExample writeRelease writeRelease calibrationAdc1 calibrationAdc2 2 rfl rfl
    (by decide) rfl (by decide) (by decide)
    (by norm_num [calibrationAdc1, calibrationAdc2])
  ⟨h.1.1, h.1.2.1, h.2.1⟩

/-- C12, as stated, fails on a run whose two-point check fails (first reading 1/2, second 3/5,
a delta of +1/10). Through the WRITE events the run ends in Panic without a call of
Settings::Save, and offset 0 of the settings' calibration data has changed from 0 to 1/2, the
reading of the first step. Through the factory-test commands Settings::Save is called, and
the record it stores holds that changed offset. -/
theorem calibration_data_counterexample :
    ¬ (-(1 / 2) < calibrationAdc2 ADC_V_OCT_CV - calibrationAdc1 ADC_V_OCT_CV ∧
      calibrationAdc2 ADC_V_OCT_CV - calibrationAdc1 ADC_V_OCT_CV < 0) ∧
    calibrationExample.settings_.data_.calibration_data.offset 0 = 0 ∧
    (Ui.OnSwitchEvents exampleEngine calibrationExample
        [(writeRelease, calibrationAdc1), (writeRelease, calibrationAdc2)]).mode_ =
      .UI_MODE_PANIC ∧
    (Ui.OnSwitchEvents exampleEngine calibrationExample
        [(writeRelease, calibrationAdc1),
          (writeRelease, calibrationAdc2)]).settings_.data_.calibration_data.offset 0 = 1 / 2 ∧
    calibrationExample.settings_.saved_ = [] ∧
    (((calibrationExample.FactoryTestingCalibrate 1 calibrationAdc1).FactoryTestingCalibrate 2
        calibrationAdc2).settings_.saved_.map
          (fun d => d.calibration_data.offset 0)) = [1 / 2] := by
  have hfail : ¬ (-(1 / 2) < calibrationAdc2 ADC_V_OCT_CV - calibrationAdc1 ADC_V_OCT_CV ∧
      calibrationAdc2 ADC_V_OCT_CV - calibrationAdc1 ADC_V_OCT_CV < 0) := by
    norm_num [calibrationAdc1, calibrationAdc2]
  have h := Ui.calibration_run_failed calibrationExample calibrationAdc1 calibrationAdc2 hfail
  have hoff := h.2.2.2.2.2 0
  rw [if_pos (by decide)] at hoff
  refine ⟨hfail, rfl, ?_, ?_, rfl, ?_⟩
  · rw [Ui.OnSwitchEvents_calibration _ calibrationExample writeRelease writeRelease _ _ rfl rfl
      (by decide) rfl (by decide)]
    exact h.1
  · rw [Ui.OnSwitchEvents_calibration _ calibrationExample writeRelease writeRelease _ _ rfl rfl
      (by decide) rfl (by decide)]
    exact hoff
  · rw [Ui.FactoryTestingCalibrate_run calibrationExample _ _ 2 (by decide)]
    simp only [Ui.SaveState, Settings.Save, h.2.1, List.map_append, List.map_cons, List.map_nil]
    rw [hoff]
    rfl

/-! Presets -/

/-- C13 (what the code does): both lookups return nullptr when bank is at or above the number
of banks or location is ABOVE the bank size, but not when location EQUALS the bank size.
On the freshly initialised bank (3 banks of 4), Settings::Preset(0, 4) returns a pointer to
presets[0][4], which lies outside row 0 at the place of presets[1][0], and raises the version
of that record; Settings::ConstPreset(0, 4) returns that pointer once presets[1][0] is
initialised; Settings::Preset(2, 4) returns a pointer to the memory behind the array. -/
theorem preset_lookup_off_by_one :
    (∀ (s : Settings) (bank location : Nat),
      bank ≥ PRESET_NUM_BANKS ∨ location > PRESET_BANK_SIZE →
        s.ConstPreset bank location = none) ∧
    (∀ (s : Settings) (bank location : Nat),
      bank ≥ s.presets_.num_banks ∨ location > s.presets_.bank_size →
        (s.Preset bank location).2 = none) ∧
    presetsFresh.presets_.num_banks = 3 ∧ presetsFresh.presets_.bank_size = 4 ∧
    (presetsFresh.Preset 0 4).2 = some { bank := 0, location := 4 } ∧
    (PresetRef.mk 0 4).index = (PresetRef.mk 1 0).index ∧
    (presetsFresh.deref { bank := 1, location := 0 }).version = 0 ∧
    ((presetsFresh.Preset 0 4).1.deref { bank := 1, location := 0 }).version = 1 ∧
    (presetsFresh.Preset 1 0).1.ConstPreset 0 4 = some { bank := 0, location := 4 } ∧
    (presetsFresh.Preset 2 4).2 = some { bank := 2, location := 4 } ∧
    (PresetRef.mk 2 4).index = PRESET_NUM_BANKS * PRESET_BANK_SIZE := by
  refine ⟨?_, ?_, by decide, by decide, by decide, by decide, by decide, by decide, by decide,
    by decide, by decide⟩
  · intro s bank location h
    simp only [Settings.ConstPreset, h, if_true]
  · intro s bank location h
    simp only [Settings.Preset, h, if_true]

theorem cursor_step (nb bs b l : Nat) (hb : b < nb) (hl : l < bs) (hnb : nb ≤ 256)
    (hbs : bs ≤ 256) :
    ((l + 1) % bs) % 256 < bs ∧
    ((b + (if ((l + 1) % bs) % 256 = 0 then 1 else 0)) % nb) % 256 < nb ∧
    ((b + (if ((l + 1) % bs) % 256 = 0 then 1 else 0)) % nb) % 256 * bs + ((l + 1) % bs) % 256 =
      (b * bs + l + 1) % (nb * bs) ∧
    ((b + (if ((l + 1) % bs) % 256 = 0 then 1 else 0)) % nb) % 256 =
      (if ((l + 1) % bs) % 256 = 0 then (b + 1) % nb else b) := by
  have hbs0 : 0 < bs := by omega
  have hnb0 : 0 < nb := by omega
  have hl1 : (l + 1) % bs < bs := Nat.mod_lt _ hbs0
  have e1 : ((l + 1) % bs) % 256 = (l + 1) % bs := Nat.mod_eq_of_lt (by omega)
  have hb1 : ∀ x, (x % nb) % 256 = x % nb := fun x =>
    Nat.mod_eq_of_lt (by have := Nat.mod_lt x hnb0; omega)
  have hrow : (b + 1) * bs ≤ nb * bs := Nat.mul_le_mul_right bs (by omega)
  have hexp : (b + 1) * bs = b * bs + bs := by ring
  rw [e1, hb1]
  rcases Nat.lt_or_ge (l + 1) bs with hlt | hge
  · have e2 : (l + 1) % bs = l + 1 := Nat.mod_eq_of_lt hlt
    have hne : ¬ l + 1 = 0 := by omega
    rw [e2, if_neg hne, if_neg hne]
    simp only [Nat.add_zero, Nat.mod_eq_of_lt hb]
    refine ⟨hlt, hb, ?_, trivial⟩
    rw [Nat.mod_eq_of_lt (by omega)]
    omega
  · have hle : l + 1 = bs := by omega
    have e2 : (l + 1) % bs = 0 := by rw [hle]; exact Nat.mod_self _
    rw [e2, if_pos rfl, if_pos rfl]
    refine ⟨hbs0, Nat.mod_lt _ hnb0, ?_, rfl⟩
    have hflat : b * bs + l + 1 = (b + 1) * bs := by rw [hexp]; omega
    rw [hflat]
    simp only [Nat.add_zero]
    rcases Nat.lt_or_ge (b + 1) nb with hlt2 | hge2
    · rw [Nat.mod_eq_of_lt hlt2, Nat.mod_eq_of_lt]
      exact Nat.mul_lt_mul_of_pos_right hlt2 hbs0
    · have : b + 1 = nb := by omega
      rw [this, Nat.mod_self, Nat.mod_self, Nat.zero_mul]

theorem cursor_flat_inj (bs b l b2 l2 : Nat) (hl : l < bs) (hl2 : l2 < bs)
    (h : b * bs + l = b2 * bs + l2) : b = b2 ∧ l = l2 := by
  have h1 : (b * bs + l) % bs = l := by
    rw [Nat.mul_add_mod_of_lt hl]
  have h2 : (b2 * bs + l2) % bs = l2 := by
    rw [Nat.mul_add_mod_of_lt hl2]
  have el : l = l2 := by rw [← h1, ← h2, h]
  subst el
  have : b * bs = b2 * bs := by omega
  exact ⟨Nat.eq_of_mul_eq_mul_right (by omega) this, rfl⟩

theorem Settings.IncrementPresetLocation_spec (s : Settings) (b l : Nat)
    (hb : b < s.presets_.num_banks) (hl : l < s.presets_.bank_size)
    (hnb : s.presets_.num_banks ≤ 256) (hbs : s.presets_.bank_size ≤ 256) :
    (s.IncrementPresetLocation b l).2 < s.presets_.bank_size ∧
    (s.IncrementPresetLocation b l).1 < s.presets_.num_banks ∧
    (s.IncrementPresetLocation b l).1 * s.presets_.bank_size + (s.IncrementPresetLocation b l).2 =
      (b * s.presets_.bank_size + l + 1) % (s.presets_.num_banks * s.presets_.bank_size) ∧
    (s.IncrementPresetLocation b l).1 =
      (if (s.IncrementPresetLocation b l).2 = 0 then (b + 1) % s.presets_.num_banks else b) :=
  cursor_step _ _ b l hb hl hnb hbs

theorem Settings.IncrementPresetLocations_spec (s : Settings) (b l : Nat)
    (hb : b < s.presets_.num_banks) (hl : l < s.presets_.bank_size)
    (hnb : s.presets_.num_banks ≤ 256) (hbs : s.presets_.bank_size ≤ 256) (k : Nat) :
    (s.IncrementPresetLocations k (b, l)).2 < s.presets_.bank_size ∧
    (s.IncrementPresetLocations k (b, l)).1 < s.presets_.num_banks ∧
    (s.IncrementPresetLocations k (b, l)).1 * s.presets_.bank_size +
        (s.IncrementPresetLocations k (b, l)).2 =
      (b * s.presets_.bank_size + l + k) % (s.presets_.num_banks * s.presets_.bank_size) := by
  have hflat : b * s.presets_.bank_size + l < s.presets_.num_banks * s.presets_.bank_size := by
    have : (b + 1) * s.presets_.bank_size ≤ s.presets_.num_banks * s.presets_.bank_size :=
      Nat.mul_le_mul_right _ (by omega)
    have hexp : (b + 1) * s.presets_.bank_size =
      b * s.presets_.bank_size + s.presets_.bank_size := by ring
    omega
  induction k with
  | zero =>
    refine ⟨hl, hb, ?_⟩
    simp only [Settings.IncrementPresetLocations, Nat.add_zero]
    exact (Nat.mod_eq_of_lt hflat).symm
  | succ k ih =>
    have hstep := Settings.IncrementPresetLocation_spec s _ _ ih.2.1 ih.1 hnb hbs
    simp only [Settings.IncrementPresetLocations]
    refine ⟨hstep.1, hstep.2.1, ?_⟩
    rw [hstep.2.2.1, ih.2.2, Nat.mod_add_mod, Nat.add_assoc]

/-- C14: for a cursor (b, l) with b < num_banks and l < bank_size (both at most 256, the
cursor being two uint8_t; the configured values are 3 and 4), Settings::IncrementPresetLocation
gives (b2, l2) with b2 * bank_size + l2 = (b * bank_size + l + 1) mod (num_banks * bank_size);
the cursor stays in range and the bank advances (mod num_banks) exactly when the slot wraps to
0. After k increments the position is (b * bank_size + l + k) mod (num_banks * bank_size), so
num_banks * bank_size increments return to the starting cursor, every in-range cursor is
reached by fewer than that many increments, and no two of those counts reach the same
cursor. Ui::IncrementLoadSaveLocation applies this step to the load/save cursor. -/
theorem preset_cursor_wraparound (s : Settings) (b l : Nat)
    (hb : b < s.presets_.num_banks) (hl : l < s.presets_.bank_size)
    (hnb : s.presets_.num_banks ≤ 256) (hbs : s.presets_.bank_size ≤ 256) :
    ((s.IncrementPresetLocation b l).1 * s.presets_.bank_size +
        (s.IncrementPresetLocation b l).2 =
      (b * s.presets_.bank_size + l + 1) % (s.presets_.num_banks * s.presets_.bank_size)) ∧
    (s.IncrementPresetLocation b l).1 < s.presets_.num_banks ∧
    (s.IncrementPresetLocation b l).2 < s.presets_.bank_size ∧
    ((s.IncrementPresetLocation b l).1 =
      if (s.IncrementPresetLocation b l).2 = 0 then (b + 1) % s.presets_.num_banks else b) ∧
    (∀ k, (s.IncrementPresetLocations k (b, l)).1 * s.presets_.bank_size +
        (s.IncrementPresetLocations k (b, l)).2 =
      (b * s.presets_.bank_size + l + k) % (s.presets_.num_banks * s.presets_.bank_size)) ∧
    s.IncrementPresetLocations (s.presets_.num_banks * s.presets_.bank_size) (b, l) = (b, l) ∧
    (∀ b2 l2, b2 < s.presets_.num_banks → l2 < s.presets_.bank_size →
      ∃ k, k < s.presets_.num_banks * s.presets_.bank_size ∧
        s.IncrementPresetLocations k (b, l) = (b2, l2)) ∧
    (∀ k1 k2, k1 < s.presets_.num_banks * s.presets_.bank_size →
      k2 < s.presets_.num_banks * s.presets_.bank_size →
      s.IncrementPresetLocations k1 (b, l) = s.IncrementPresetLocations k2 (b, l) → k1 = k2) ∧
    (∀ ui : Ui, ui.IncrementLoadSaveLocation.load_save_bank_ =
        (ui.settings_.IncrementPresetLocation ui.load_save_bank_ ui.load_save_location_).1 ∧
      ui.IncrementLoadSaveLocation.load_save_location_ =
        (ui.settings_.IncrementPresetLocation ui.load_save_bank_ ui.load_save_location_).2) := by
  have hstep := Settings.IncrementPresetLocation_spec s b l hb hl hnb hbs
  have hit := Settings.IncrementPresetLocations_spec s b l hb hl hnb hbs
  generalize hN : s.presets_.num_banks * s.presets_.bank_size = N at *
  generalize hbsv : s.presets_.bank_size = bs at *
  generalize hnbv : s.presets_.num_banks = nb at *
  have hflat : b * bs + l < N := by
    have : (b + 1) * bs ≤ nb * bs := Nat.mul_le_mul_right _ (by omega)
    have hexp : (b + 1) * bs = b * bs + bs := by ring
    omega
  have hcur : ∀ c : Nat × Nat, c.2 < bs → (b2 : Nat) → (l2 : Nat) → l2 < bs →
      c.1 * bs + c.2 = b2 * bs + l2 → c = (b2, l2) := by
    intro c hc b2 l2 hl2 h
    have := cursor_flat_inj bs c.1 c.2 b2 l2 hc hl2 h
    exact Prod.ext this.1 this.2
  refine ⟨hstep.2.2.1, hstep.2.1, hstep.1, hstep.2.2.2, fun k => (hit k).2.2, ?_, ?_, ?_,
    fun ui => ⟨rfl, rfl⟩⟩
  · apply hcur _ (hit N).1 b l hl
    rw [(hit N).2.2, Nat.add_mod_right, Nat.mod_eq_of_lt hflat]
  · intro b2 l2 hb2 hl2
    have hflat2 : b2 * bs + l2 < N := by
      have : (b2 + 1) * bs ≤ nb * bs := Nat.mul_le_mul_right _ (by omega)
      have hexp : (b2 + 1) * bs = b2 * bs + bs := by ring
      omega
    rcases Nat.lt_or_ge (b2 * bs + l2) (b * bs + l) with hlt | hge
    · refine ⟨b2 * bs + l2 + N - (b * bs + l), by omega, ?_⟩
      apply hcur _ (hit _).1 b2 l2 hl2
      rw [(hit _).2.2]
      have : b * bs + l + (b2 * bs + l2 + N - (b * bs + l)) = b2 * bs + l2 + N := by omega
      rw [this, Nat.add_mod_right, Nat.mod_eq_of_lt hflat2]
    · refine ⟨b2 * bs + l2 - (b * bs + l), by omega, ?_⟩
      apply hcur _ (hit _).1 b2 l2 hl2
      rw [(hit _).2.2]
      have : b * bs + l + (b2 * bs + l2 - (b * bs + l)) = b2 * bs + l2 := by omega
      rw [this, Nat.mod_eq_of_lt hflat2]
  · intro k1 k2 hk1 hk2 heq
    have h1 := (hit k1).2.2
    have h2 := (hit k2).2.2
    rw [heq, h2] at h1
    have hmod : k2 ≡ k1 [MOD N] := Nat.ModEq.add_left_cancel' (b * bs + l) h1
    exact (Nat.ModEq.eq_of_lt_of_lt hmod hk2 hk1).symm

theorem preset_cursor_wraparound_witness :
    (presetsFresh.IncrementPresetLocation 2 3).1 * presetsFresh.presets_.bank_size +
        (presetsFresh.IncrementPresetLocation 2 3).2 =
      (2 * presetsFresh.presets_.bank_size + 3 + 1) %
        (presetsFresh.presets_.num_banks * presetsFresh.presets_.bank_size) ∧
    presetsFresh.IncrementPresetLocations
        (presetsFresh.presets_.num_banks * presetsFresh.presets_.bank_size) (2, 3) = (2, 3) ∧
    presetsFresh.presets_.num_banks * presetsFresh.presets_.bank_size = 12 ∧
    presetsFresh.IncrementPresetLocation 2 3 = (0, 0) :=
  have h := preset_cursor_wraparound presetsFresh 2 3 (by decide) (by decide) (by decide)
    (by decide)
  ⟨h.1, h.2.2.2.2.2.1, by decide, by decide⟩

/-! The mode state machine -/

/-- C15: in mode VU-Meter, Ui::OnSwitchEvent takes a MODE long-press to Load, a MODE release to
Quality, a WRITE long-press to Save and a WRITE release to Playback-Mode, changing nothing
else; a BYPASS long-press, BYPASS release, FREEZE long-press and FREEZE release keep the mode
VU-Meter and send the engine exactly one command: set_inf_reverb(true), ToggleBypass,
ToggleReverse and ToggleFreeze respectively. -/
theorem vu_meter_transitions (eng : Engine) (adc : Nat → ℚ) (ui : Ui) (e : Event)
    (hm : ui.mode_ = .UI_MODE_VU_METER) :
    (e.control_id = SWITCH_MODE → e.data = SwitchState.SwitchLongPressed.toInt →
      Ui.OnSwitchEvent eng adc ui e = { ui with mode_ := .UI_MODE_LOAD }) ∧
    (e.control_id = SWITCH_MODE → e.data = SwitchState.SwitchReleased.toInt →
      Ui.OnSwitchEvent eng adc ui e = { ui with mode_ := .UI_MODE_QUALITY }) ∧
    (e.control_id = SWITCH_WRITE → e.data = SwitchState.SwitchLongPressed.toInt →
      Ui.OnSwitchEvent eng adc ui e = { ui with mode_ := .UI_MODE_SAVE }) ∧
    (e.control_id = SWITCH_WRITE → e.data = SwitchState.SwitchReleased.toInt →
      Ui.OnSwitchEvent eng adc ui e = { ui with mode_ := .UI_MODE_PLAYBACK_MODE }) ∧
    (e.control_id = SWITCH_BYPASS → e.data = SwitchState.SwitchLongPressed.toInt →
      Ui.OnSwitchEvent eng adc ui e =
        { ui with processor_ := ui.processor_.set_inf_reverb true } ∧
      (Ui.OnSwitchEvent eng adc ui e).mode_ = .UI_MODE_VU_METER ∧
      (Ui.OnSwitchEvent eng adc ui e).processor_.calls_ =
        ui.processor_.calls_ ++ [.set_inf_reverb true]) ∧
    (e.control_id = SWITCH_BYPASS → e.data = SwitchState.SwitchReleased.toInt →
      Ui.OnSwitchEvent eng adc ui e = { ui with processor_ := ui.processor_.ToggleBypass } ∧
      (Ui.OnSwitchEvent eng adc ui e).mode_ = .UI_MODE_VU_METER ∧
      (Ui.OnSwitchEvent eng adc ui e).processor_.calls_ =
        ui.processor_.calls_ ++ [.ToggleBypass]) ∧
    (e.control_id = SWITCH_FREEZE → e.data = SwitchState.SwitchLongPressed.toInt →
      Ui.OnSwitchEvent eng adc ui e = { ui with processor_ := ui.processor_.ToggleReverse } ∧
      (Ui.OnSwitchEvent eng adc ui e).mode_ = .UI_MODE_VU_METER ∧
      (Ui.OnSwitchEvent eng adc ui e).processor_.calls_ =
        ui.processor_.calls_ ++ [.ToggleReverse]) ∧
    (e.control_id = SWITCH_FREEZE → e.data = SwitchState.SwitchReleased.toInt →
      Ui.OnSwitchEvent eng adc ui e = { ui with processor_ := ui.processor_.ToggleFreeze } ∧
      (Ui.OnSwitchEvent eng adc ui e).mode_ = .UI_MODE_VU_METER ∧
      (Ui.OnSwitchEvent eng adc ui e).processor_.calls_ =
        ui.processor_.calls_ ++ [.ToggleFreeze]) := by
  refine ⟨?_, ?_, ?_, ?_, ?_, ?_, ?_, ?_⟩ <;> intro hc hd <;>
    simp [Ui.OnSwitchEvent, hm, hc, hd, SwitchState.toInt, SWITCH_MODE, SWITCH_WRITE,
      SWITCH_BYPASS, SWITCH_FREEZE, GranularProcessor.set_inf_reverb,
      GranularProcessor.ToggleBypass, GranularProcessor.ToggleReverse,
      GranularProcessor.ToggleFreeze]

theorem vu_meter_transitions_witness :
    Ui.OnSwitchEvent exampleEngine calibrationAdc1 (modeExample .UI_MODE_VU_METER)
      modeLongPress = { modeExample .UI_MODE_VU_METER with mode_ := .UI_MODE_LOAD } :=
  (vu_meter_transitions exampleEngine calibrationAdc1 (modeExample .UI_MODE_VU_METER)
    modeLongPress rfl).1 rfl rfl

theorem and_three (x : Nat) : x &&& 3 = x % 4 := by
  have h := Nat.and_pow_two_sub_one_eq_mod x 2
  simpa using h

theorem Ui.IncrementQuality_spec (ui : Ui) :
    ui.IncrementQuality.processor_.quality = (ui.processor_.quality + 1) % 4 ∧
    ui.IncrementQuality.processor_.calls_ =
      ui.processor_.calls_ ++ [.set_quality ((ui.processor_.quality + 1) % 4)] ∧
    ui.IncrementQuality.processor_.playback_mode = ui.processor_.playback_mode ∧
    ui.IncrementQuality.mode_ = ui.mode_ ∧
    ui.IncrementQuality.settings_.saved_ =
      ui.settings_.saved_ ++ [ui.IncrementQuality.settings_.data_] ∧
    ui.IncrementQuality.settings_.data_.state.quality = (ui.processor_.quality + 1) % 4 ∧
    ui.IncrementQuality.settings_.data_.state.playback_mode =
      ui.processor_.playback_mode % 256 := by
  have h4 : (ui.processor_.quality_ + 1) % 4 < 256 := by omega
  simp [Ui.IncrementQuality, Ui.SaveState, Settings.Save, GranularProcessor.set_quality,
    GranularProcessor.quality, GranularProcessor.playback_mode, and_three, h4]

/-- C16: in mode Quality, a MODE release makes Ui::OnSwitchEvent set the engine quality to
(q + 1) mod 4 (one set_quality command), store the state in the settings and call
Settings::Save, and stay in Quality; four MODE releases restore a quality q in 0..3. An event
from any other control (its data not SwitchPressed) sets the mode to VU-Meter and changes
nothing else, so the quality stays. -/
theorem quality_mode (eng : Engine) (adc : Nat → ℚ) (ui : Ui) (e : Event)
    (hm : ui.mode_ = .UI_MODE_QUALITY) :
    (e.control_id = SWITCH_MODE → e.data = SwitchState.SwitchReleased.toInt →
      (Ui.OnSwitchEvent eng adc ui e).processor_.quality = (ui.processor_.quality + 1) % 4 ∧
      (Ui.OnSwitchEvent eng adc ui e).processor_.calls_ =
        ui.processor_.calls_ ++ [.set_quality ((ui.processor_.quality + 1) % 4)] ∧
      (Ui.OnSwitchEvent eng adc ui e).mode_ = .UI_MODE_QUALITY ∧
      (Ui.OnSwitchEvent eng adc ui e).settings_.saved_ =
        ui.settings_.saved_ ++ [(Ui.OnSwitchEvent eng adc ui e).settings_.data_] ∧
      (Ui.OnSwitchEvent eng adc ui e).settings_.data_.state.quality =
        (ui.processor_.quality + 1) % 4 ∧
      (ui.processor_.quality < 4 →
        (Ui.OnSwitchEvents eng ui [(e, adc), (e, adc), (e, adc), (e, adc)]).processor_.quality =
          ui.processor_.quality ∧
        (Ui.OnSwitchEvents eng ui [(e, adc), (e, adc), (e, adc), (e, adc)]).mode_ =
          .UI_MODE_QUALITY)) ∧
    (e.control_id ≠ SWITCH_MODE → e.data ≠ SwitchState.SwitchPressed.toInt →
      Ui.OnSwitchEvent eng adc ui e = { ui with mode_ := .UI_MODE_VU_METER } ∧
      (Ui.OnSwitchEvent eng adc ui e).processor_.quality = ui.processor_.quality) := by
  refine ⟨fun hc hd => ?_, fun hc hd => ?_⟩
  · have hnp : ¬ e.data = SwitchState.SwitchPressed.toInt := by rw [hd]; decide
    have hstep : ∀ u : Ui, u.mode_ = .UI_MODE_QUALITY →
        Ui.OnSwitchEvent eng adc u e = u.IncrementQuality := by
      intro u hu
      have hrp : ¬ SwitchState.SwitchReleased.toInt = SwitchState.SwitchPressed.toInt := by
        decide
      simp only [Ui.OnSwitchEvent, hu, hc, hd, hrp, if_false, if_true]
    have hs := Ui.IncrementQuality_spec ui
    rw [hstep ui hm]
    refine ⟨hs.1, hs.2.1, hs.2.2.2.1.trans hm, hs.2.2.2.2.1, hs.2.2.2.2.2.1, fun hq => ?_⟩
    have m1 : ui.IncrementQuality.mode_ = .UI_MODE_QUALITY := hs.2.2.2.1.trans hm
    have s2 := Ui.IncrementQuality_spec ui.IncrementQuality
    have m2 : ui.IncrementQuality.IncrementQuality.mode_ = .UI_MODE_QUALITY :=
      s2.2.2.2.1.trans m1
    have s3 := Ui.IncrementQuality_spec ui.IncrementQuality.IncrementQuality
    have m3 : ui.IncrementQuality.IncrementQuality.IncrementQuality.mode_ = .UI_MODE_QUALITY :=
      s3.2.2.2.1.trans m2
    have s4 := Ui.IncrementQuality_spec ui.IncrementQuality.IncrementQuality.IncrementQuality
    simp only [Ui.OnSwitchEvents, List.foldl_cons, List.foldl_nil, hstep ui hm, hstep _ m1,
      hstep _ m2, hstep _ m3]
    refine ⟨?_, s4.2.2.2.1.trans m3⟩
    rw [s4.1, s3.1, s2.1, hs.1]
    omega
  · simp [Ui.OnSwitchEvent, hm, hc, hd]

theorem quality_mode_witness :
    (Ui.OnSwitchEvent exampleEngine calibrationAdc1 (modeExample .UI_MODE_QUALITY)
        modeRelease).processor_.quality = 1 ∧
    (Ui.OnSwitchEvent exampleEngine calibrationAdc1 (modeExample .UI_MODE_QUALITY)
        modeRelease).mode_ = .UI_MODE_QUALITY ∧
    (Ui.OnSwitchEvent exampleEngine calibrationAdc1 (modeExample .UI_MODE_QUALITY)
        writeRelease).mode_ = .UI_MODE_VU_METER := by
  have h := quality_mode exampleEngine calibrationAdc1 (modeExample .UI_MODE_QUALITY)
    modeRelease rfl
  have h2 := quality_mode exampleEngine calibrationAdc1 (modeExample .UI_MODE_QUALITY)
    writeRelease rfl
  refine ⟨(h.1 rfl rfl).1, (h.1 rfl rfl).2.2.1, ?_⟩
  rw [(h2.2 (by decide) (by decide)).1]

theorem Ui.DecrementPlaybackMode_spec (eng : Engine) (ui : Ui)
    (hlast : ui.processor_.playback_mode < eng.PLAYBACK_MODE_LAST)
    (h256 : eng.PLAYBACK_MODE_LAST ≤ 256) :
    (Ui.DecrementPlaybackMode eng ui).processor_.playback_mode =
      (if ui.processor_.playback_mode = 0 then eng.PLAYBACK_MODE_LAST - 1
       else ui.processor_.playback_mode - 1) ∧
    (Ui.DecrementPlaybackMode eng ui).processor_.calls_ =
      ui.processor_.calls_ ++ [.set_playback_mode
        (if ui.processor_.playback_mode = 0 then eng.PLAYBACK_MODE_LAST - 1
         else ui.processor_.playback_mode - 1)] ∧
    (Ui.DecrementPlaybackMode eng ui).mode_ = ui.mode_ ∧
    (Ui.DecrementPlaybackMode eng ui).settings_.saved_ =
      ui.settings_.saved_ ++ [(Ui.DecrementPlaybackMode eng ui).settings_.data_] ∧
    (Ui.DecrementPlaybackMode eng ui).settings_.data_.state.playback_mode =
      (if ui.processor_.playback_mode = 0 then eng.PLAYBACK_MODE_LAST - 1
       else ui.processor_.playback_mode - 1) := by
  have hv : (if ui.processor_.playback_mode = 0 then eng.PLAYBACK_MODE_LAST - 1
      else ui.processor_.playback_mode - 1) % 256 =
      (if ui.processor_.playback_mode = 0 then eng.PLAYBACK_MODE_LAST - 1
       else ui.processor_.playback_mode - 1) := by
    split <;> omega
  simp only [Ui.DecrementPlaybackMode, Ui.SaveState, Settings.Save,
    GranularProcessor.set_playback_mode, hv]
  simp only [GranularProcessor.playback_mode] at hv ⊢
  simp only [hv, and_self]

theorem Ui.IncrementPlaybackMode_spec (eng : Engine) (ui : Ui)
    (hlast : ui.processor_.playback_mode < eng.PLAYBACK_MODE_LAST)
    (h256 : eng.PLAYBACK_MODE_LAST ≤ 256) :
    (Ui.IncrementPlaybackMode eng ui).processor_.playback_mode =
      (ui.processor_.playback_mode + 1) % eng.PLAYBACK_MODE_LAST ∧
    (Ui.IncrementPlaybackMode eng ui).processor_.calls_ =
      ui.processor_.calls_ ++ [.set_playback_mode
        ((ui.processor_.playback_mode + 1) % eng.PLAYBACK_MODE_LAST)] ∧
    (Ui.IncrementPlaybackMode eng ui).mode_ = ui.mode_ ∧
    (Ui.IncrementPlaybackMode eng ui).settings_.saved_ =
      ui.settings_.saved_ ++ [(Ui.IncrementPlaybackMode eng ui).settings_.data_] ∧
    (Ui.IncrementPlaybackMode eng ui).settings_.data_.state.playback_mode =
      (ui.processor_.playback_mode + 1) % eng.PLAYBACK_MODE_LAST := by
  have hlt : (ui.processor_.playback_mode + 1) % eng.PLAYBACK_MODE_LAST <
      eng.PLAYBACK_MODE_LAST := Nat.mod_lt _ (by omega)
  have hv : (ui.processor_.playback_mode + 1) % eng.PLAYBACK_MODE_LAST % 256 =
      (ui.processor_.playback_mode + 1) % eng.PLAYBACK_MODE_LAST :=
    Nat.mod_eq_of_lt (by omega)
  simp only [Ui.IncrementPlaybackMode, Ui.SaveState, Settings.Save,
    GranularProcessor.set_playback_mode, hv]
  simp only [GranularProcessor.playback_mode] at hv ⊢
  simp only [hv, and_self]

theorem playback_round_trip (last m : Nat) (hm : m < last) :
    ((if m = 0 then last - 1 else m - 1) + 1) % last = m ∧
    (if (m + 1) % last = 0 then last - 1 else (m + 1) % last - 1) = m ∧
    (if m = 0 then last - 1 else m - 1) < last ∧ (m + 1) % last < last := by
  have hpos : 0 < last := by omega
  refine ⟨?_, ?_, by split <;> omega, Nat.mod_lt _ hpos⟩
  · by_cases h0 : m = 0
    · rw [if_pos h0, Nat.sub_add_cancel hpos, Nat.mod_self, h0]
    · rw [if_neg h0, Nat.sub_add_cancel (by omega), Nat.mod_eq_of_lt hm]
  · rcases Nat.lt_or_ge (m + 1) last with h | h
    · rw [Nat.mod_eq_of_lt h, if_neg (by omega)]
      omega
    · have : m + 1 = last := by omega
      rw [this, Nat.mod_self, if_pos rfl]
      omega

/-- C17: in mode Playback-Mode with the engine's playback mode m below PLAYBACK_MODE_LAST (a
parameter, at most 256 since the new mode is computed in a uint8_t), a MODE release makes
Ui::OnSwitchEvent set the playback mode to m - 1, or to PLAYBACK_MODE_LAST - 1 when m = 0, and
a WRITE release sets it to (m + 1) mod PLAYBACK_MODE_LAST; both store the state, call
Settings::Save and stay in Playback-Mode. A MODE release followed by a WRITE release, or the
reverse, restores m, and the new mode is always below PLAYBACK_MODE_LAST. -/
theorem playback_mode_stepping (eng : Engine) (adc : Nat → ℚ) (ui : Ui) (em ew : Event)
    (hm : ui.mode_ = .UI_MODE_PLAYBACK_MODE)
    (hlast : ui.processor_.playback_mode < eng.PLAYBACK_MODE_LAST)
    (h256 : eng.PLAYBACK_MODE_LAST ≤ 256)
    (hem : em.control_id = SWITCH_MODE) (hemd : em.data = SwitchState.SwitchReleased.toInt)
    (hew : ew.control_id = SWITCH_WRITE) (hewd : ew.data = SwitchState.SwitchReleased.toInt) :
    ((Ui.OnSwitchEvent eng adc ui em).processor_.playback_mode =
        (if ui.processor_.playback_mode = 0 then eng.PLAYBACK_MODE_LAST - 1
         else ui.processor_.playback_mode - 1) ∧
      (Ui.OnSwitchEvent eng adc ui em).processor_.playback_mode < eng.PLAYBACK_MODE_LAST ∧
      (Ui.OnSwitchEvent eng adc ui em).mode_ = .UI_MODE_PLAYBACK_MODE ∧
      (Ui.OnSwitchEvent eng adc ui em).settings_.saved_ =
        ui.settings_.saved_ ++ [(Ui.OnSwitchEvent eng adc ui em).settings_.data_] ∧
      (Ui.OnSwitchEvent eng adc ui em).settings_.data_.state.playback_mode =
        (Ui.OnSwitchEvent eng adc ui em).processor_.playback_mode) ∧
    ((Ui.OnSwitchEvent eng adc ui ew).processor_.playback_mode =
        (ui.processor_.playback_mode + 1) % eng.PLAYBACK_MODE_LAST ∧
      (Ui.OnSwitchEvent eng adc ui ew).processor_.playback_mode < eng.PLAYBACK_MODE_LAST ∧
      (Ui.OnSwitchEvent eng adc ui ew).mode_ = .UI_MODE_PLAYBACK_MODE ∧
      (Ui.OnSwitchEvent eng adc ui ew).settings_.saved_ =
        ui.settings_.saved_ ++ [(Ui.OnSwitchEvent eng adc ui ew).settings_.data_] ∧
      (Ui.OnSwitchEvent eng adc ui ew).settings_.data_.state.playback_mode =
        (Ui.OnSwitchEvent eng adc ui ew).processor_.playback_mode) ∧
    (Ui.OnSwitchEvents eng ui [(em, adc), (ew, adc)]).processor_.playback_mode =
      ui.processor_.playback_mode ∧
    (Ui.OnSwitchEvents eng ui [(ew, adc), (em, adc)]).processor_.playback_mode =
      ui.processor_.playback_mode := by
  have hrp : ¬ SwitchState.SwitchReleased.toInt = SwitchState.SwitchPressed.toInt := by decide
  have hwm : ¬ SWITCH_WRITE = SWITCH_MODE := by decide
  have hstepm : ∀ u : Ui, u.mode_ = .UI_MODE_PLAYBACK_MODE →
      Ui.OnSwitchEvent eng adc u em = Ui.DecrementPlaybackMode eng u := by
    intro u hu
    simp only [Ui.OnSwitchEvent, hu, hem, hemd, hrp, if_false, if_true]
  have hstepw : ∀ u : Ui, u.mode_ = .UI_MODE_PLAYBACK_MODE →
      Ui.OnSwitchEvent eng adc u ew = Ui.IncrementPlaybackMode eng u := by
    intro u hu
    simp only [Ui.OnSwitchEvent, hu, hew, hewd, hrp, hwm, if_false, if_true]
  have hd := Ui.DecrementPlaybackMode_spec eng ui hlast h256
  have hi := Ui.IncrementPlaybackMode_spec eng ui hlast h256
  have hr := playback_round_trip eng.PLAYBACK_MODE_LAST ui.processor_.playback_mode hlast
  have hdm : (Ui.DecrementPlaybackMode eng ui).mode_ = .UI_MODE_PLAYBACK_MODE :=
    hd.2.2.1.trans hm
  have him : (Ui.IncrementPlaybackMode eng ui).mode_ = .UI_MODE_PLAYBACK_MODE :=
    hi.2.2.1.trans hm
  have hdl : (Ui.DecrementPlaybackMode eng ui).processor_.playback_mode <
      eng.PLAYBACK_MODE_LAST := by rw [hd.1]; exact hr.2.2.1
  have hil : (Ui.IncrementPlaybackMode eng ui).processor_.playback_mode <
      eng.PLAYBACK_MODE_LAST := by rw [hi.1]; exact hr.2.2.2
  refine ⟨?_, ?_, ?_, ?_⟩
  · rw [hstepm ui hm]
    exact ⟨hd.1, hdl, hdm, hd.2.2.2.1, by rw [hd.2.2.2.2, hd.1]⟩
  · rw [hstepw ui hm]
    exact ⟨hi.1, hil, him, hi.2.2.2.1, by rw [hi.2.2.2.2, hi.1]⟩
  · simp only [Ui.OnSwitchEvents, List.foldl_cons, List.foldl_nil, hstepm ui hm, hstepw _ hdm]
    rw [(Ui.IncrementPlaybackMode_spec eng _ hdl h256).1, hd.1]
    exact hr.1
  · simp only [Ui.OnSwitchEvents, List.foldl_cons, List.foldl_nil, hstepw ui hm, hstepm _ him]
    rw [(Ui.DecrementPlaybackMode_spec eng _ hil h256).1, hi.1]
    exact hr.2.1

theorem playback_mode_stepping_witness :
    (Ui.OnSwitchEvent exampleEngine calibrationAdc1 (modeExample .UI_MODE_PLAYBACK_MODE)
        modeRelease).processor_.playback_mode = 3 ∧
    (Ui.OnSwitchEvent exampleEngine calibrationAdc1 (modeExample .UI_MODE_PLAYBACK_MODE)
        writeRelease).processor_.playback_mode = 1 ∧
    (Ui.OnSwitchEvents exampleEngine (modeExample .UI_MODE_PLAYBACK_MODE)
        [(modeRelease, calibrationAdc1), (writeRelease, calibrationAdc1)]
      ).processor_.playback_mode = 0 := by
  have h := playback_mode_stepping exampleEngine calibrationAdc1
    (modeExample .UI_MODE_PLAYBACK_MODE) modeRelease writeRelease rfl (by decide) (by decide)
    rfl rfl rfl rfl
  exact ⟨h.1.1, h.2.1.1, h.2.2.1⟩

theorem Settings.Preset_in_range (s : Settings) (b l : Nat) (hb : b < s.presets_.num_banks)
    (hl : l < s.presets_.bank_size) :
    (s.Preset b l).2 = some { bank := b, location := l } ∧
    (s.Preset b l).1.presets_.num_banks = s.presets_.num_banks ∧
    (s.Preset b l).1.presets_.bank_size = s.presets_.bank_size ∧
    (s.Preset b l).1.data_ = s.data_ ∧
    (s.Preset b l).1.saved_ = s.saved_ ∧
    (s.Preset b l).1.presets_saved_ = s.presets_saved_ ∧
    (∀ i, i ≠ (PresetRef.mk b l).index →
      (s.Preset b l).1.presets_.presets i = s.presets_.presets i) ∧
    ((s.Preset b l).1.deref { bank := b, location := l } =
      if (s.deref { bank := b, location := l }).version < CURRENT_PRESET_VERSION then
        { s.deref { bank := b, location := l } with version := CURRENT_PRESET_VERSION }
      else s.deref { bank := b, location := l }) := by
  have hg : ¬ (b ≥ s.presets_.num_banks ∨ l > s.presets_.bank_size) := by omega
  unfold Settings.Preset
  rw [if_neg hg]
  by_cases hv : (s.presets_.presets (PresetRef.mk b l).index).version < CURRENT_PRESET_VERSION
  · simp only [hv, if_true, Settings.deref]
    refine ⟨trivial, trivial, trivial, trivial, trivial, trivial, fun i hi => ?_, ?_⟩
    · exact Function.update_noteq hi _ _
    · exact Function.update_same _ _ _
  · simp only [hv, if_false, Settings.deref]
    exact ⟨trivial, trivial, trivial, trivial, trivial, trivial, fun _ _ => trivial, trivial⟩

/-- Ui::SavePreset with the cursor (b, l) inside the bank. -/
theorem Ui.SavePreset_spec (eng : Engine) (ui : Ui)
    (hb : ui.load_save_bank_ < ui.settings_.presets_.num_banks)
    (hl : ui.load_save_location_ < ui.settings_.presets_.bank_size) :
    (Ui.SavePreset eng ui).mode_ = ui.mode_ ∧
    (Ui.SavePreset eng ui).settings_.deref
        { bank := ui.load_save_bank_, location := ui.load_save_location_ } =
      (eng.ExportPreset (ui.processor_.set_silence true)
        ((ui.settings_.Preset ui.load_save_bank_ ui.load_save_location_).1.deref
          { bank := ui.load_save_bank_, location := ui.load_save_location_ })).2 ∧
    (∀ i, i ≠ (PresetRef.mk ui.load_save_bank_ ui.load_save_location_).index →
      (Ui.SavePreset eng ui).settings_.presets_.presets i = ui.settings_.presets_.presets i) ∧
    (Ui.SavePreset eng ui).settings_.presets_saved_ =
      ui.settings_.presets_saved_ ++ [(Ui.SavePreset eng ui).settings_.presets_] ∧
    (Ui.SavePreset eng ui).processor_.calls_ =
      ui.processor_.calls_ ++
        [.set_silence true,
         .ExportPreset (some { bank := ui.load_save_bank_, location := ui.load_save_location_ }),
         .set_silence false] ∧
    (Ui.SavePreset eng ui).settings_.data_ = ui.settings_.data_ ∧
    (Ui.SavePreset eng ui).settings_.saved_ = ui.settings_.saved_ ∧
    ((Ui.SavePreset eng ui).load_save_bank_, (Ui.SavePreset eng ui).load_save_location_) =
      ui.settings_.IncrementPresetLocation ui.load_save_bank_ ui.load_save_location_ := by
  have hp := Settings.Preset_in_range ui.settings_ _ _ hb hl
  simp only [Ui.SavePreset, GranularProcessor.ExportPreset, hp.1, Ui.IncrementLoadSaveLocation,
    Settings.SavePresets, GranularProcessor.set_silence, Settings.IncrementPresetLocation,
    Settings.deref, hp.2.1, hp.2.2.1, hp.2.2.2.1, hp.2.2.2.2.1, hp.2.2.2.2.2.1,
    Function.update_same, List.append_assoc, List.singleton_append, true_and]
  refine ⟨fun i hi => ?_, rfl, trivial⟩
  rw [Function.update_noteq hi]
  exact hp.2.2.2.2.2.2.1 i hi

/-- C18: in mode Save with the cursor (b, l) inside the bank, a WRITE long-press makes
Ui::OnSwitchEvent export to the preset at (b, l) (the engine is silenced, asked to export to
that record, and unsilenced; the record becomes what ExportPreset leaves there and no other
record changes), hand the presets to the preset storage, advance the cursor by one
IncrementPresetLocation step and end in VU-Meter. A WRITE release only advances the cursor by
one step and stays in Save. An event of any other control (its data not SwitchPressed) sets
the mode to VU-Meter and changes nothing else. -/
theorem save_mode (eng : Engine) (adc : Nat → ℚ) (ui : Ui) (e : Event)
    (hm : ui.mode_ = .UI_MODE_SAVE)
    (hb : ui.load_save_bank_ < ui.settings_.presets_.num_banks)
    (hl : ui.load_save_location_ < ui.settings_.presets_.bank_size) :
    (e.control_id = SWITCH_WRITE → e.data = SwitchState.SwitchLongPressed.toInt →
      (Ui.OnSwitchEvent eng adc ui e).mode_ = .UI_MODE_VU_METER ∧
      (Ui.OnSwitchEvent eng adc ui e).settings_.deref
          { bank := ui.load_save_bank_, location := ui.load_save_location_ } =
        (eng.ExportPreset (ui.processor_.set_silence true)
          ((ui.settings_.Preset ui.load_save_bank_ ui.load_save_location_).1.deref
            { bank := ui.load_save_bank_, location := ui.load_save_location_ })).2 ∧
      (∀ i, i ≠ (PresetRef.mk ui.load_save_bank_ ui.load_save_location_).index →
        (Ui.OnSwitchEvent eng adc ui e).settings_.presets_.presets i =
          ui.settings_.presets_.presets i) ∧
      (Ui.OnSwitchEvent eng adc ui e).settings_.presets_saved_ =
        ui.settings_.presets_saved_ ++ [(Ui.OnSwitchEvent eng adc ui e).settings_.presets_] ∧
      (Ui.OnSwitchEvent eng adc ui e).processor_.calls_ =
        ui.processor_.calls_ ++
          [.set_silence true,
           .ExportPreset
              (some { bank := ui.load_save_bank_, location := ui.load_save_location_ }),
           .set_silence false] ∧
      ((Ui.OnSwitchEvent eng adc ui e).load_save_bank_,
          (Ui.OnSwitchEvent eng adc ui e).load_save_location_) =
        ui.settings_.IncrementPresetLocation ui.load_save_bank_ ui.load_save_location_) ∧
    (e.control_id = SWITCH_WRITE → e.data = SwitchState.SwitchReleased.toInt →
      Ui.OnSwitchEvent eng adc ui e = ui.IncrementLoadSaveLocation ∧
      (Ui.OnSwitchEvent eng adc ui e).mode_ = .UI_MODE_SAVE ∧
      (Ui.OnSwitchEvent eng adc ui e).settings_ = ui.settings_ ∧
      (Ui.OnSwitchEvent eng adc ui e).processor_ = ui.processor_ ∧
      ((Ui.OnSwitchEvent eng adc ui e).load_save_bank_,
          (Ui.OnSwitchEvent eng adc ui e).load_save_location_) =
        ui.settings_.IncrementPresetLocation ui.load_save_bank_ ui.load_save_location_) ∧
    (e.control_id ≠ SWITCH_WRITE → e.data ≠ SwitchState.SwitchPressed.toInt →
      Ui.OnSwitchEvent eng adc ui e = { ui with mode_ := .UI_MODE_VU_METER }) := by
  have hrp : ¬ SwitchState.SwitchReleased.toInt = SwitchState.SwitchPressed.toInt := by decide
  have hlp : ¬ SwitchState.SwitchLongPressed.toInt = SwitchState.SwitchPressed.toInt := by
    decide
  have hrl : ¬ SwitchState.SwitchReleased.toInt = SwitchState.SwitchLongPressed.toInt := by
    decide
  refine ⟨fun hc hd => ?_, fun hc hd => ?_, fun hc hd => ?_⟩
  · have hs := Ui.SavePreset_spec eng { ui with mode_ := .UI_MODE_SAVING } hb hl
    have hev : Ui.OnSwitchEvent eng adc ui e =
        { Ui.SavePreset eng { ui with mode_ := .UI_MODE_SAVING } with
          mode_ := .UI_MODE_VU_METER } := by
      simp only [Ui.OnSwitchEvent, hm, hc, hd, hlp, if_false, if_true]
    rw [hev]
    exact ⟨rfl, hs.2.1, hs.2.2.1, hs.2.2.2.1, hs.2.2.2.2.1, hs.2.2.2.2.2.2.2⟩
  · have hev : Ui.OnSwitchEvent eng adc ui e = ui.IncrementLoadSaveLocation := by
      simp only [Ui.OnSwitchEvent, hm, hc, hd, hrp, hrl, if_false, if_true]
    rw [hev]
    exact ⟨rfl, hm, rfl, rfl, rfl⟩
  · simp only [Ui.OnSwitchEvent, hm, hc, hd, if_false]

theorem save_mode_witness :
    (Ui.OnSwitchEvent exampleEngine calibrationAdc1 (modeExample .UI_MODE_SAVE)
        writeLongPress).mode_ = .UI_MODE_VU_METER ∧
    (Ui.OnSwitchEvent exampleEngine calibrationAdc1 (modeExample .UI_MODE_SAVE)
        writeLongPress).processor_.calls_ =
      [.set_silence true, .ExportPreset (some { bank := 2, location := 3 }),
       .set_silence false] ∧
    ((Ui.OnSwitchEvent exampleEngine calibrationAdc1 (modeExample .UI_MODE_SAVE)
        writeLongPress).load_save_bank_,
      (Ui.OnSwitchEvent exampleEngine calibrationAdc1 (modeExample .UI_MODE_SAVE)
        writeLongPress).load_save_location_) = (0, 0) ∧
    (Ui.OnSwitchEvent exampleEngine calibrationAdc1 (modeExample .UI_MODE_SAVE)
        writeRelease).mode_ = .UI_MODE_SAVE := by
  have h := save_mode exampleEngine calibrationAdc1 (modeExample .UI_MODE_SAVE) writeLongPress
    rfl (by decide) (by decide)
  have h2 := save_mode exampleEngine calibrationAdc1 (modeExample .UI_MODE_SAVE) writeRelease
    rfl (by decide) (by decide)
  have h1 := h.1 rfl rfl
  refine ⟨h1.1, h1.2.2.2.2.1, ?_, (h2.2.1 rfl rfl).2.1⟩
  rw [h1.2.2.2.2.2]
  decide

theorem Ui.IncrementLoadSaveLocation_frame (ui : Ui) :
    ui.IncrementLoadSaveLocation.mode_ = ui.mode_ ∧
    ui.IncrementLoadSaveLocation.settings_ = ui.settings_ ∧
    ui.IncrementLoadSaveLocation.processor_ = ui.processor_ ∧
    (ui.IncrementLoadSaveLocation.load_save_bank_,
        ui.IncrementLoadSaveLocation.load_save_location_) =
      ui.settings_.IncrementPresetLocation ui.load_save_bank_ ui.load_save_location_ :=
  ⟨rfl, rfl, rfl, rfl⟩

/-- C19: from mode VU-Meter with the cursor (b, l) inside the configured bank (3 banks of 4),
the events MODE long-press, MODE release, MODE release, MODE release, FREEZE long-press put
Ui::OnSwitchEvent in Load after the first event; the three releases advance the cursor by
three IncrementPresetLocation steps, to position (4 b + l + 3) mod 12, staying in Load; the
FREEZE long-press hands the engine the pointer Settings::ConstPreset gives for that advanced
cursor (one LoadPreset command) and ends in VU-Meter. The settings are not changed. The
pointer is the one to the record at the advanced cursor, entry (4 b + l + 3) mod 12 of the
bank, and the engine loads that record, when the record is initialised (its version is at least
CURRENT_PRESET_VERSION); for an uninitialised record ConstPreset gives nullptr and the engine
is handed nullptr. -/
theorem load_scenario (eng : Engine) (adc : Nat → ℚ) (ui : Ui)
    (hm : ui.mode_ = .UI_MODE_VU_METER)
    (hnb : ui.settings_.presets_.num_banks = PRESET_NUM_BANKS)
    (hbs : ui.settings_.presets_.bank_size = PRESET_BANK_SIZE)
    (hb : ui.load_save_bank_ < PRESET_NUM_BANKS)
    (hl : ui.load_save_location_ < PRESET_BANK_SIZE) :
    (Ui.OnSwitchEvents eng ui [(modeLongPress, adc)]).mode_ = .UI_MODE_LOAD ∧
    (Ui.OnSwitchEvents eng ui
      [(modeLongPress, adc), (modeRelease, adc), (modeRelease, adc),
        (modeRelease, adc)]).mode_ = .UI_MODE_LOAD ∧
    ((Ui.OnSwitchEvents eng ui
        [(modeLongPress, adc), (modeRelease, adc), (modeRelease, adc),
          (modeRelease, adc)]).load_save_bank_,
      (Ui.OnSwitchEvents eng ui
        [(modeLongPress, adc), (modeRelease, adc), (modeRelease, adc),
          (modeRelease, adc)]).load_save_location_) =
      ui.settings_.IncrementPresetLocations 3 (ui.load_save_bank_, ui.load_save_location_) ∧
    (ui.settings_.IncrementPresetLocations 3 (ui.load_save_bank_, ui.load_save_location_)).1 * 4 +
        (ui.settings_.IncrementPresetLocations 3
          (ui.load_save_bank_, ui.load_save_location_)).2 =
      (ui.load_save_bank_ * 4 + ui.load_save_location_ + 3) % 12 ∧
    (ui.settings_.IncrementPresetLocations 3 (ui.load_save_bank_, ui.load_save_location_)).1 <
      3 ∧
    (ui.settings_.IncrementPresetLocations 3 (ui.load_save_bank_, ui.load_save_location_)).2 <
      4 ∧
    (Ui.OnSwitchEvents eng ui
      [(modeLongPress, adc), (modeRelease, adc), (modeRelease, adc), (modeRelease, adc),
        (freezeLongPress, adc)]).mode_ = .UI_MODE_VU_METER ∧
    (Ui.OnSwitchEvents eng ui
      [(modeLongPress, adc), (modeRelease, adc), (modeRelease, adc), (modeRelease, adc),
        (freezeLongPress, adc)]).processor_ =
      ui.processor_.LoadPreset eng ui.settings_
        (ui.settings_.ConstPreset
          (ui.settings_.IncrementPresetLocations 3
            (ui.load_save_bank_, ui.load_save_location_)).1
          (ui.settings_.IncrementPresetLocations 3
            (ui.load_save_bank_, ui.load_save_location_)).2) ∧
    (Ui.OnSwitchEvents eng ui
      [(modeLongPress, adc), (modeRelease, adc), (modeRelease, adc), (modeRelease, adc),
        (freezeLongPress, adc)]).processor_.calls_ =
      ui.processor_.calls_ ++
        [.LoadPreset (ui.settings_.ConstPreset
          (ui.settings_.IncrementPresetLocations 3
            (ui.load_save_bank_, ui.load_save_location_)).1
          (ui.settings_.IncrementPresetLocations 3
            (ui.load_save_bank_, ui.load_save_location_)).2)] ∧
    (Ui.OnSwitchEvents eng ui
      [(modeLongPress, adc), (modeRelease, adc), (modeRelease, adc), (modeRelease, adc),
        (freezeLongPress, adc)]).settings_ = ui.settings_ ∧
    (CURRENT_PRESET_VERSION ≤
        (ui.settings_.presets_.presets
          ((ui.load_save_bank_ * 4 + ui.load_save_location_ + 3) % 12)).version →
      ui.settings_.ConstPreset
          (ui.settings_.IncrementPresetLocations 3
            (ui.load_save_bank_, ui.load_save_location_)).1
          (ui.settings_.IncrementPresetLocations 3
            (ui.load_save_bank_, ui.load_save_location_)).2 =
        some
          { bank := (ui.settings_.IncrementPresetLocations 3
              (ui.load_save_bank_, ui.load_save_location_)).1,
            location := (ui.settings_.IncrementPresetLocations 3
              (ui.load_save_bank_, ui.load_save_location_)).2 } ∧
      ui.settings_.deref
          { bank := (ui.settings_.IncrementPresetLocations 3
              (ui.load_save_bank_, ui.load_save_location_)).1,
            location := (ui.settings_.IncrementPresetLocations 3
              (ui.load_save_bank_, ui.load_save_location_)).2 } =
        ui.settings_.presets_.presets
          ((ui.load_save_bank_ * 4 + ui.load_save_location_ + 3) % 12) ∧
      (Ui.OnSwitchEvents eng ui
        [(modeLongPress, adc), (modeRelease, adc), (modeRelease, adc), (modeRelease, adc),
          (freezeLongPress, adc)]).processor_ =
        { eng.LoadPreset ui.processor_
            (some (ui.settings_.presets_.presets
              ((ui.load_save_bank_ * 4 + ui.load_save_location_ + 3) % 12))) with
          calls_ := ui.processor_.calls_ ++
            [.LoadPreset (some
              { bank := (ui.settings_.IncrementPresetLocations 3
                  (ui.load_save_bank_, ui.load_save_location_)).1,
                location := (ui.settings_.IncrementPresetLocations 3
                  (ui.load_save_bank_, ui.load_save_location_)).2 })] }) ∧
    ((ui.settings_.presets_.presets
          ((ui.load_save_bank_ * 4 + ui.load_save_location_ + 3) % 12)).version <
        CURRENT_PRESET_VERSION →
      ui.settings_.ConstPreset
          (ui.settings_.IncrementPresetLocations 3
            (ui.load_save_bank_, ui.load_save_location_)).1
          (ui.settings_.IncrementPresetLocations 3
            (ui.load_save_bank_, ui.load_save_location_)).2 = none ∧
      (Ui.OnSwitchEvents eng ui
        [(modeLongPress, adc), (modeRelease, adc), (modeRelease, adc), (modeRelease, adc),
          (freezeLongPress, adc)]).processor_ =
        { eng.LoadPreset ui.processor_ none with
          calls_ := ui.processor_.calls_ ++ [.LoadPreset none] }) := by
  have hspec := Settings.IncrementPresetLocations_spec ui.settings_ ui.load_save_bank_
    ui.load_save_location_ (by rw [hnb]; exact hb) (by rw [hbs]; exact hl)
    (by rw [hnb]; decide) (by rw [hbs]; decide) 3
  rw [hnb, hbs] at hspec
  have e1 : Ui.OnSwitchEvent eng adc ui modeLongPress = { ui with mode_ := .UI_MODE_LOAD } := by
    simp [Ui.OnSwitchEvent, hm, modeLongPress, SwitchState.toInt]
  have estep : ∀ u : Ui, u.mode_ = .UI_MODE_LOAD →
      Ui.OnSwitchEvent eng adc u modeRelease = u.IncrementLoadSaveLocation := by
    intro u hu
    simp [Ui.OnSwitchEvent, hu, modeRelease, SwitchState.toInt]
  have eload : ∀ u : Ui, u.mode_ = .UI_MODE_LOAD →
      Ui.OnSwitchEvent eng adc u freezeLongPress =
        { Ui.LoadPreset eng u with mode_ := .UI_MODE_VU_METER } := by
    intro u hu
    simp [Ui.OnSwitchEvent, hu, freezeLongPress, SwitchState.toInt]
  have m1 : ({ ui with mode_ := .UI_MODE_LOAD } : Ui).mode_ = .UI_MODE_LOAD := rfl
  have r1 : Ui.OnSwitchEvents eng ui [(modeLongPress, adc)] =
      { ui with mode_ := .UI_MODE_LOAD } := by
    simp only [Ui.OnSwitchEvents, List.foldl_cons, List.foldl_nil, e1]
  have r4 : Ui.OnSwitchEvents eng ui
      [(modeLongPress, adc), (modeRelease, adc), (modeRelease, adc), (modeRelease, adc)] =
      ({ ui with mode_ := .UI_MODE_LOAD } :
        Ui).IncrementLoadSaveLocation.IncrementLoadSaveLocation.IncrementLoadSaveLocation := by
    simp only [Ui.OnSwitchEvents, List.foldl_cons, List.foldl_nil, e1]
    rw [estep _ m1, estep _ rfl, estep _ rfl]
  have r5 : Ui.OnSwitchEvents eng ui
      [(modeLongPress, adc), (modeRelease, adc), (modeRelease, adc), (modeRelease, adc),
        (freezeLongPress, adc)] =
      { Ui.LoadPreset eng (({ ui with mode_ := .UI_MODE_LOAD } :
          Ui).IncrementLoadSaveLocation.IncrementLoadSaveLocation.IncrementLoadSaveLocation)
        with mode_ := .UI_MODE_VU_METER } := by
    simp only [Ui.OnSwitchEvents, List.foldl_cons, List.foldl_nil, e1]
    rw [estep _ m1, estep _ rfl, estep _ rfl, eload _ rfl]
  have hproc : (Ui.OnSwitchEvents eng ui
      [(modeLongPress, adc), (modeRelease, adc), (modeRelease, adc), (modeRelease, adc),
        (freezeLongPress, adc)]).processor_ =
      ui.processor_.LoadPreset eng ui.settings_
        (ui.settings_.ConstPreset
          (ui.settings_.IncrementPresetLocations 3
            (ui.load_save_bank_, ui.load_save_location_)).1
          (ui.settings_.IncrementPresetLocations 3
            (ui.load_save_bank_, ui.load_save_location_)).2) := by
    rw [r5]
    rfl
  have hidx : (PresetRef.mk
      (ui.settings_.IncrementPresetLocations 3 (ui.load_save_bank_, ui.load_save_location_)).1
      (ui.settings_.IncrementPresetLocations 3
        (ui.load_save_bank_, ui.load_save_location_)).2).index =
      (ui.load_save_bank_ * 4 + ui.load_save_location_ + 3) % 12 := by
    simp only [PresetRef.index]
    exact hspec.2.2
  have hguard : ¬ ((ui.settings_.IncrementPresetLocations 3
        (ui.load_save_bank_, ui.load_save_location_)).1 ≥ PRESET_NUM_BANKS ∨
      (ui.settings_.IncrementPresetLocations 3
        (ui.load_save_bank_, ui.load_save_location_)).2 > PRESET_BANK_SIZE) := by
    have h1 := hspec.1
    have h2 := hspec.2.1
    simp only [PRESET_NUM_BANKS, PRESET_BANK_SIZE] at h1 h2 ⊢
    omega
  refine ⟨?_, ?_, ?_, hspec.2.2, hspec.2.1, hspec.1, ?_, hproc, ?_, ?_, ?_, ?_⟩
  · rw [r1]
  · rw [r4]
    rfl
  · rw [r4]
    rfl
  · rw [r5]
  · rw [hproc]
    rfl
  · rw [r5]
    rfl
  · intro hv
    have hc : ui.settings_.ConstPreset
        (ui.settings_.IncrementPresetLocations 3
          (ui.load_save_bank_, ui.load_save_location_)).1
        (ui.settings_.IncrementPresetLocations 3
          (ui.load_save_bank_, ui.load_save_location_)).2 =
        some
          { bank := (ui.settings_.IncrementPresetLocations 3
              (ui.load_save_bank_, ui.load_save_location_)).1,
            location := (ui.settings_.IncrementPresetLocations 3
              (ui.load_save_bank_, ui.load_save_location_)).2 } := by
      simp only [Settings.ConstPreset, if_neg hguard, hidx, if_neg (Nat.not_lt.2 hv)]
    refine ⟨hc, ?_, ?_⟩
    · simp only [Settings.deref, hidx]
    · rw [hproc, hc]
      simp only [GranularProcessor.LoadPreset, Option.map_some', Settings.deref, hidx]
  · intro hv
    have hc : ui.settings_.ConstPreset
        (ui.settings_.IncrementPresetLocations 3
          (ui.load_save_bank_, ui.load_save_location_)).1
        (ui.settings_.IncrementPresetLocations 3
          (ui.load_save_bank_, ui.load_save_location_)).2 = none := by
      simp only [Settings.ConstPreset, if_neg hguard, hidx, if_pos hv]
    refine ⟨hc, ?_⟩
    rw [hproc, hc]
    rfl

theorem load_scenario_witness :
    (Ui.OnSwitchEvents recallEngine filledExample
      [(modeLongPress, calibrationAdc1), (modeRelease, calibrationAdc1),
        (modeRelease, calibrationAdc1), (modeRelease, calibrationAdc1)]).mode_ =
      .UI_MODE_LOAD ∧
    ((Ui.OnSwitchEvents recallEngine filledExample
        [(modeLongPress, calibrationAdc1), (modeRelease, calibrationAdc1),
          (modeRelease, calibrationAdc1), (modeRelease, calibrationAdc1)]).load_save_bank_,
      (Ui.OnSwitchEvents recallEngine filledExample
        [(modeLongPress, calibrationAdc1), (modeRelease, calibrationAdc1),
          (modeRelease, calibrationAdc1), (modeRelease, calibrationAdc1)]).load_save_location_)
      = (0, 2) ∧
    (Ui.OnSwitchEvents recallEngine filledExample
      [(modeLongPress, calibrationAdc1), (modeRelease, calibrationAdc1),
        (modeRelease, calibrationAdc1), (modeRelease, calibrationAdc1),
        (freezeLongPress, calibrationAdc1)]).mode_ = .UI_MODE_VU_METER ∧
    (Ui.OnSwitchEvents recallEngine filledExample
      [(modeLongPress, calibrationAdc1), (modeRelease, calibrationAdc1),
        (modeRelease, calibrationAdc1), (modeRelease, calibrationAdc1),
        (freezeLongPress, calibrationAdc1)]).processor_ =
      { playback_mode_ := 2, calls_ := [.LoadPreset (some { bank := 0, location := 2 })] } ∧
    (filledExample.settings_.deref { bank := 0, location := 2 }).playback_mode = 2 ∧
    (filledExample.settings_.deref { bank := 2, location := 3 }).playback_mode = 11 ∧
    filledExample.processor_.playback_mode_ = 0 := by
  have h := load_scenario recallEngine calibrationAdc1 filledExample rfl
    (by decide) (by decide) (by decide) (by decide)
  have hA := h.2.2.2.2.2.2.2.2.2.2.1 (by decide)
  refine ⟨h.2.1, ?_, h.2.2.2.2.2.2.1, ?_, by decide, by decide, by decide⟩
  · rw [h.2.2.1]
    decide
  · rw [hA.2.2]
    decide

/-- C20 (amended): for every UI mode other than Panic, Saving and Splash, a SwitchReleased or
SwitchLongPressed event whose control id has no case label in the mode's switch statement
leaves Ui::OnSwitchEvent in mode VU-Meter; in Panic, Saving and Splash every event is ignored
and the state, the mode included, is left as it is. -/
theorem unrecognized_control (eng : Engine) (adc : Nat → ℚ) (ui : Ui) (e : Event)
    (hd : e.data = SwitchState.SwitchReleased.toInt ∨
      e.data = SwitchState.SwitchLongPressed.toInt)
    (hnh : Ui.handles eng ui.mode_ e.control_id = false) :
    (ui.mode_ ≠ .UI_MODE_PANIC → ui.mode_ ≠ .UI_MODE_SAVING → ui.mode_ ≠ .UI_MODE_SPLASH →
      (Ui.OnSwitchEvent eng adc ui e).mode_ = .UI_MODE_VU_METER) ∧
    (ui.mode_ = .UI_MODE_PANIC ∨ ui.mode_ = .UI_MODE_SAVING ∨ ui.mode_ = .UI_MODE_SPLASH →
      Ui.OnSwitchEvent eng adc ui e = ui) := by
  have hnp : ¬ e.data = SwitchState.SwitchPressed.toInt := by
    rcases hd with h | h <;> rw [h] <;> decide
  refine ⟨fun h1 h2 h3 => ?_, fun h => ?_⟩
  · cases hmode : ui.mode_ <;> rw [hmode] at hnh <;>
      simp only [Ui.handles, Bool.or_eq_false_iff, beq_eq_false_iff_ne, ne_eq] at hnh <;>
      simp_all [Ui.OnSwitchEvent]
  · rcases h with h | h | h <;> simp [Ui.OnSwitchEvent, h, hnp]

theorem unrecognized_control_witness :
    (Ui.OnSwitchEvent exampleEngine calibrationAdc1 (modeExample .UI_MODE_QUALITY)
      writeRelease).mode_ = .UI_MODE_VU_METER :=
  (unrecognized_control exampleEngine calibrationAdc1 (modeExample .UI_MODE_QUALITY)
    writeRelease (Or.inl rfl) (by decide)).1 (by decide) (by decide) (by decide)

/-- C20, as stated, fails in the modes whose arm of the switch statement is empty: in Splash
and in Panic a MODE release, whose control id those modes do not handle, leaves the mode
Splash and Panic, not VU-Meter. -/
theorem unrecognized_control_counterexample :
    modeRelease.data = SwitchState.SwitchReleased.toInt ∧
    (Ui.OnSwitchEvent exampleEngine calibrationAdc1 (modeExample .UI_MODE_SPLASH)
      modeRelease).mode_ = .UI_MODE_SPLASH ∧
    (Ui.OnSwitchEvent exampleEngine calibrationAdc1 (modeExample .UI_MODE_PANIC)
      modeRelease).mode_ = .UI_MODE_PANIC ∧
    UiMode.UI_MODE_SPLASH ≠ UiMode.UI_MODE_VU_METER ∧
    UiMode.UI_MODE_PANIC ≠ UiMode.UI_MODE_VU_METER := by
  decide

/-! Events and idle timeouts -/

/-- C21: a press event is never actionable. For every mode, control id and state,
Ui::OnSwitchEvent called with an event whose data is SwitchPressed returns the UI as it was:
the mode, the load/save cursor, the settings and the processor (its flags and the list of
commands it received) are unchanged. -/
theorem press_event_ignored (eng : Engine) (adc : Nat → ℚ) (ui : Ui) (e : Event)
    (h : e.data = SwitchState.SwitchPressed.toInt) :
    Ui.OnSwitchEvent eng adc ui e = ui ∧
    (Ui.OnSwitchEvent eng adc ui e).mode_ = ui.mode_ ∧
    (Ui.OnSwitchEvent eng adc ui e).load_save_bank_ = ui.load_save_bank_ ∧
    (Ui.OnSwitchEvent eng adc ui e).load_save_location_ = ui.load_save_location_ ∧
    (Ui.OnSwitchEvent eng adc ui e).settings_.saved_ = ui.settings_.saved_ ∧
    (Ui.OnSwitchEvent eng adc ui e).settings_.presets_saved_.length =
      ui.settings_.presets_saved_.length ∧
    (Ui.OnSwitchEvent eng adc ui e).processor_ = ui.processor_ ∧
    (Ui.OnSwitchEvent eng adc ui e).processor_.calls_ = ui.processor_.calls_ := by
  have h0 : Ui.OnSwitchEvent eng adc ui e = ui := by
    unfold Ui.OnSwitchEvent
    rw [if_pos h]
  rw [h0]
  exact ⟨rfl, rfl, rfl, rfl, rfl, rfl, rfl, rfl⟩

theorem press_event_ignored_witness :
    (Ui.OnSwitchEvent exampleEngine adcHalf (modeExample .UI_MODE_SAVE)
        { control_type := .CONTROL_SWITCH, control_id := SWITCH_WRITE,
          data := SwitchState.SwitchPressed.toInt }).mode_ = .UI_MODE_SAVE :=
  (press_event_ignored exampleEngine adcHalf (modeExample .UI_MODE_SAVE)
    { control_type := .CONTROL_SWITCH, control_id := SWITCH_WRITE,
      data := SwitchState.SwitchPressed.toInt } rfl).2.1

theorem sub32_self (now : Nat) : sub32 now now = 0 := by
  unfold sub32
  omega

theorem EventQueue.idle_time_Touch (q : EventQueue) (now : Nat) :
    (q.Touch now).idle_time now = 0 := by
  simp only [EventQueue.idle_time, EventQueue.Touch, sub32_self]

theorem Ui.CalibrateC3_queue (ui : Ui) (adc : Nat → ℚ) :
    (ui.CalibrateC3 adc).queue_ = ui.queue_ := by
  dsimp only [Ui.CalibrateC3]
  split <;> rfl

theorem Ui.OnSwitchEvent_queue (eng : Engine) (adc : Nat → ℚ) (ui : Ui) (e : Event) :
    (Ui.OnSwitchEvent eng adc ui e).queue_ = ui.queue_ := by
  unfold Ui.OnSwitchEvent
  split
  · rfl
  · split <;> (repeat' split) <;> first | rfl | exact Ui.CalibrateC3_queue _ _

theorem Ui.pullEvents_nil (eng : Engine) (adc : Nat → ℚ) (n : Nat) (ui : Ui)
    (h : ui.queue_.events_ = []) : Ui.pullEvents eng adc n ui = ui := by
  cases n with
  | zero => rfl
  | succ n => simp only [Ui.pullEvents, h]

/-- The while loop of Ui::DoEvents stops: with one iteration per pending event the queue is
empty at the end, and its idle clock is untouched. -/
theorem Ui.pullEvents_queue (eng : Engine) (adc : Nat → ℚ) (n : Nat) (ui : Ui)
    (h : ui.queue_.events_.length ≤ n) :
    (Ui.pullEvents eng adc n ui).queue_ = { ui.queue_ with events_ := [] } := by
  induction n generalizing ui with
  | zero =>
    have h0 : ui.queue_.events_ = [] := List.length_eq_zero.1 (Nat.le_zero.1 h)
    simp only [Ui.pullEvents]
    cases hq : ui.queue_ with
    | mk ev t =>
      rw [hq] at h0
      simp only at h0
      rw [h0]
  | succ n ih =>
    cases hev : ui.queue_.events_ with
    | nil =>
      rw [Ui.pullEvents_nil eng adc _ ui hev]
      cases hq : ui.queue_ with
      | mk ev t =>
        rw [hq] at hev
        simp only at hev
        rw [hev]
    | cons e rest =>
      simp only [Ui.pullEvents, hev]
      rw [hev] at h
      have hlen : rest.length ≤ n := by simpa using h
      by_cases hc : e.control_type = .CONTROL_SWITCH
      · rw [if_pos hc, ih]
        · rw [Ui.OnSwitchEvent_queue]
        · rw [Ui.OnSwitchEvent_queue]
          exact hlen
      · rw [if_neg hc, ih]
        exact hlen

/-- The idle checks of Ui::DoEvents, in terms of the state the while loop leaves: the mode
becomes VU-Meter when one of the three conditions holds and is kept otherwise; the idle clock
is touched when one of them holds or the idle time is above 6000. -/
theorem Ui.DoEvents_idle (eng : Engine) (adc : Nat → ℚ) (ui : Ui) (now : Nat) :
    (Ui.DoEvents eng adc ui now).mode_ =
      (if idleReverts (Ui.pullEvents eng adc ui.queue_.events_.length ui).mode_
          ((Ui.pullEvents eng adc ui.queue_.events_.length ui).queue_.idle_time now) = true
        then .UI_MODE_VU_METER
        else (Ui.pullEvents eng adc ui.queue_.events_.length ui).mode_) ∧
    (Ui.DoEvents eng adc ui now).queue_ =
      (if idleReverts (Ui.pullEvents eng adc ui.queue_.events_.length ui).mode_
          ((Ui.pullEvents eng adc ui.queue_.events_.length ui).queue_.idle_time now) = true ∨
          (Ui.pullEvents eng adc ui.queue_.events_.length ui).queue_.idle_time now > 6000
        then (Ui.pullEvents eng adc ui.queue_.events_.length ui).queue_.Touch now
        else (Ui.pullEvents eng adc ui.queue_.events_.length ui).queue_) := by
  unfold Ui.DoEvents
  generalize Ui.pullEvents eng adc ui.queue_.events_.length ui = u
  obtain ⟨m, sw, q, cv, st, pr, b, l⟩ := u
  have ht := EventQueue.idle_time_Touch q now
  by_cases h1 : q.idle_time now > 1000 <;>
  by_cases h3 : q.idle_time now > 3000 <;>
  by_cases h6 : q.idle_time now > 6000 <;>
  cases m <;>
  simp [idleReverts, h1, h3, h6, ht, apply_ite Ui.mode_, apply_ite Ui.queue_]

/-- C22: idle timeouts. For Ui::DoEvents run with an empty event queue at idle time t, the mode
becomes VU-Meter and the idle clock is touched (its idle time is 0 afterwards) when the mode is
Panic and t > 1000, when it is Quality, Playback-Mode or Splash and t > 3000, and when it is
Save or Load and t > 6000; in every other combination of mode and t the mode is unchanged, and
so it is in Calibration-1 and Calibration-2 at any t. -/
theorem idle_timeouts (eng : Engine) (adc : Nat → ℚ) (ui : Ui) (now : Nat)
    (he : ui.queue_.events_ = []) :
    (ui.mode_ = .UI_MODE_PANIC → ui.queue_.idle_time now > 1000 →
      (Ui.DoEvents eng adc ui now).mode_ = .UI_MODE_VU_METER ∧
      (Ui.DoEvents eng adc ui now).queue_ = ui.queue_.Touch now ∧
      (Ui.DoEvents eng adc ui now).queue_.idle_time now = 0) ∧
    ((ui.mode_ = .UI_MODE_QUALITY ∨ ui.mode_ = .UI_MODE_PLAYBACK_MODE ∨
        ui.mode_ = .UI_MODE_SPLASH) → ui.queue_.idle_time now > 3000 →
      (Ui.DoEvents eng adc ui now).mode_ = .UI_MODE_VU_METER ∧
      (Ui.DoEvents eng adc ui now).queue_ = ui.queue_.Touch now ∧
      (Ui.DoEvents eng adc ui now).queue_.idle_time now = 0) ∧
    ((ui.mode_ = .UI_MODE_SAVE ∨ ui.mode_ = .UI_MODE_LOAD) → ui.queue_.idle_time now > 6000 →
      (Ui.DoEvents eng adc ui now).mode_ = .UI_MODE_VU_METER ∧
      (Ui.DoEvents eng adc ui now).queue_ = ui.queue_.Touch now ∧
      (Ui.DoEvents eng adc ui now).queue_.idle_time now = 0) ∧
    (¬ (ui.mode_ = .UI_MODE_PANIC ∧ ui.queue_.idle_time now > 1000) →
      ¬ ((ui.mode_ = .UI_MODE_QUALITY ∨ ui.mode_ = .UI_MODE_PLAYBACK_MODE ∨
        ui.mode_ = .UI_MODE_SPLASH) ∧ ui.queue_.idle_time now > 3000) →
      ¬ ((ui.mode_ = .UI_MODE_SAVE ∨ ui.mode_ = .UI_MODE_LOAD) ∧
        ui.queue_.idle_time now > 6000) →
      (Ui.DoEvents eng adc ui now).mode_ = ui.mode_) ∧
    ((ui.mode_ = .UI_MODE_CALIBRATION_1 ∨ ui.mode_ = .UI_MODE_CALIBRATION_2) →
      (Ui.DoEvents eng adc ui now).mode_ = ui.mode_) := by
  have h := Ui.DoEvents_idle eng adc ui now
  rw [Ui.pullEvents_nil eng adc _ ui he] at h
  have ht := EventQueue.idle_time_Touch ui.queue_ now
  rw [h.1, h.2]
  refine ⟨?_, ?_, ?_, ?_, ?_⟩
  · intro hm hlt
    simp [idleReverts, hm, hlt, ht]
  · intro hm hlt
    rcases hm with hm | hm | hm <;> simp [idleReverts, hm, hlt, ht]
  · intro hm hlt
    rcases hm with hm | hm <;> simp [idleReverts, hm, hlt, ht]
  · intro n1 n2 n3
    have : idleReverts ui.mode_ (ui.queue_.idle_time now) = false := by
      cases hm : ui.mode_ <;> simp [idleReverts, hm] at n1 n2 n3 ⊢ <;> omega
    simp [this]
  · intro hm
    rcases hm with hm | hm <;> simp [idleReverts, hm]

theorem idle_timeouts_witness :
    (Ui.DoEvents exampleEngine adcHalf (modeExample .UI_MODE_PANIC) 1001).mode_ =
      .UI_MODE_VU_METER ∧
    (Ui.DoEvents exampleEngine adcHalf (modeExample .UI_MODE_PANIC) 1000).mode_ =
      .UI_MODE_PANIC ∧
    (Ui.DoEvents exampleEngine adcHalf (modeExample .UI_MODE_CALIBRATION_1) 9000).mode_ =
      .UI_MODE_CALIBRATION_1 :=
  ⟨((idle_timeouts exampleEngine adcHalf (modeExample .UI_MODE_PANIC) 1001 rfl).1 rfl
      (by decide)).1,
    (idle_timeouts exampleEngine adcHalf (modeExample .UI_MODE_PANIC) 1000 rfl).2.2.2.1
      (by decide) (by decide) (by decide),
    (idle_timeouts exampleEngine adcHalf (modeExample .UI_MODE_CALIBRATION_1) 9000 rfl).2.2.2.2
      (Or.inl rfl)⟩

theorem Ui.DoEvents_quality_stay (eng : Engine) (adc : Nat → ℚ) (u : Ui) (t : Nat)
    (hm : u.mode_ = .UI_MODE_QUALITY) (he : u.queue_.events_ = [])
    (ht : u.queue_.idle_time t ≤ 3000) :
    (Ui.DoEvents eng adc u t).mode_ = .UI_MODE_QUALITY ∧ (Ui.DoEvents eng adc u t).queue_ = u.queue_ := by
  have h := Ui.DoEvents_idle eng adc u t
  rw [Ui.pullEvents_nil eng adc _ u he] at h
  have hr : idleReverts u.mode_ (u.queue_.idle_time t) = false := by
    simp [idleReverts, hm]
    omega
  have h6 : ¬ u.queue_.idle_time t > 6000 := by omega
  rw [h.1, h.2, hr]
  simp [h6, hm]

theorem Ui.DoEventsAt_quality_stay (eng : Engine) (adc : Nat → ℚ) (ts : List Nat) (u : Ui)
    (hm : u.mode_ = .UI_MODE_QUALITY) (he : u.queue_.events_ = [])
    (hts : ∀ t ∈ ts, u.queue_.idle_time t ≤ 3000) :
    (Ui.DoEventsAt eng adc u ts).mode_ = .UI_MODE_QUALITY ∧
      (Ui.DoEventsAt eng adc u ts).queue_ = u.queue_ := by
  induction ts generalizing u with
  | nil => exact ⟨hm, rfl⟩
  | cons t ts ih =>
    have h1 := Ui.DoEvents_quality_stay eng adc u t hm he (hts t (List.mem_cons_self _ _))
    have h2 := ih (Ui.DoEvents eng adc u t) h1.1 (by rw [h1.2]; exact he)
      (fun t' ht' => by rw [h1.2]; exact hts t' (List.mem_cons_of_mem _ ht'))
    simp only [Ui.DoEventsAt, List.foldl_cons] at h2 ⊢
    rw [h2.1, h2.2, h1.2]
    exact ⟨rfl, rfl⟩

/-- C23 (amended): idle-reversion boundary. From VU-Meter with a MODE release pending that
was enqueued at clock T, Ui::DoEvents enters Quality; with no further events, every later
Ui::DoEvents at an idle time of at most 3000 keeps the mode Quality, in particular at idle
time 2999 and at idle time 3000, the threshold itself; the first call at an idle time above
3000, so at 3001, reverts the mode to VU-Meter. -/
theorem idle_reversion_boundary (eng : Engine) (adc : Nat → ℚ) (ui : Ui) (T now0 : Nat)
    (ts : List Nat) (now : Nat)
    (hmode : ui.mode_ = .UI_MODE_VU_METER)
    (hq : ui.queue_ = { events_ := [modeRelease], last_event_time_ := T })
    (h0 : sub32 now0 T ≤ 3000)
    (hts : ∀ t ∈ ts, sub32 t T ≤ 3000) :
    (Ui.DoEvents eng adc ui now0).mode_ = .UI_MODE_QUALITY ∧
    (Ui.DoEventsAt eng adc (Ui.DoEvents eng adc ui now0) ts).mode_ = .UI_MODE_QUALITY ∧
    (Ui.DoEventsAt eng adc (Ui.DoEvents eng adc ui now0) ts).queue_.idle_time now =
      sub32 now T ∧
    (Ui.DoEvents eng adc (Ui.DoEventsAt eng adc (Ui.DoEvents eng adc ui now0) ts) now).mode_ =
      (if sub32 now T > 3000 then .UI_MODE_VU_METER else .UI_MODE_QUALITY) ∧
    (sub32 now T = 2999 →
      (Ui.DoEvents eng adc (Ui.DoEventsAt eng adc (Ui.DoEvents eng adc ui now0) ts) now).mode_ =
        .UI_MODE_QUALITY) ∧
    (sub32 now T = 3000 →
      (Ui.DoEvents eng adc (Ui.DoEventsAt eng adc (Ui.DoEvents eng adc ui now0) ts) now).mode_ =
        .UI_MODE_QUALITY) ∧
    (sub32 now T = 3001 →
      (Ui.DoEvents eng adc (Ui.DoEventsAt eng adc (Ui.DoEvents eng adc ui now0) ts) now).mode_ =
        .UI_MODE_VU_METER) := by
  have hpull : Ui.pullEvents eng adc ui.queue_.events_.length ui =
      { ui with queue_ := { events_ := [], last_event_time_ := T }, mode_ := .UI_MODE_QUALITY } := by
    have hrp : ¬ SwitchState.SwitchReleased.toInt = SwitchState.SwitchPressed.toInt := by decide
    have hrl : ¬ SwitchState.SwitchReleased.toInt = SwitchState.SwitchLongPressed.toInt := by
      decide
    simp only [hq, List.length_singleton, Ui.pullEvents, modeRelease, if_true, Ui.OnSwitchEvent,
      hrp, hrl, if_false, hmode]
  have hent := Ui.DoEvents_idle eng adc ui now0
  rw [hpull] at hent
  have hr0 : idleReverts .UI_MODE_QUALITY (sub32 now0 T) = false := by
    simp [idleReverts]
    omega
  have h60 : ¬ sub32 now0 T > 6000 := by omega
  simp only [EventQueue.idle_time, hr0, h60, or_self, if_false, Bool.false_eq_true] at hent
  have hstay := Ui.DoEventsAt_quality_stay eng adc ts (Ui.DoEvents eng adc ui now0) hent.1
    (by rw [hent.2]) (by rw [hent.2]; exact hts)
  have hlast := Ui.DoEvents_idle eng adc (Ui.DoEventsAt eng adc (Ui.DoEvents eng adc ui now0) ts)
    now
  rw [Ui.pullEvents_nil eng adc _ _ (by rw [hstay.2, hent.2])] at hlast
  have hidle : (Ui.DoEventsAt eng adc (Ui.DoEvents eng adc ui now0) ts).queue_.idle_time now =
      sub32 now T := by
    rw [hstay.2, hent.2]
    rfl
  have hfin : (Ui.DoEvents eng adc (Ui.DoEventsAt eng adc (Ui.DoEvents eng adc ui now0) ts)
      now).mode_ = (if sub32 now T > 3000 then .UI_MODE_VU_METER else .UI_MODE_QUALITY) := by
    rw [hlast.1, hidle, hstay.1]
    by_cases h3 : sub32 now T > 3000
    · simp [idleReverts, h3]
    · simp [idleReverts, h3]
  refine ⟨hent.1, hstay.1, hidle, hfin, ?_, ?_, ?_⟩
  · intro h
    rw [hfin, h]
    rfl
  · intro h
    rw [hfin, h]
    rfl
  · intro h
    rw [hfin, h]
    rfl

theorem idle_reversion_boundary_witness :
    (Ui.DoEvents exampleEngine adcHalf qualityEntry 5000).mode_ = .UI_MODE_QUALITY ∧
    (Ui.DoEvents exampleEngine adcHalf
      (Ui.DoEventsAt exampleEngine adcHalf (Ui.DoEvents exampleEngine adcHalf qualityEntry 5000)
        [6000, 7999]) 8000).mode_ = .UI_MODE_QUALITY ∧
    (Ui.DoEvents exampleEngine adcHalf
      (Ui.DoEventsAt exampleEngine adcHalf (Ui.DoEvents exampleEngine adcHalf qualityEntry 5000)
        [6000, 7999, 8000]) 8001).mode_ = .UI_MODE_VU_METER :=
  ⟨(idle_reversion_boundary exampleEngine adcHalf qualityEntry 5000 5000 [] 5000 rfl rfl
      (by decide) (by decide)).1,
    (idle_reversion_boundary exampleEngine adcHalf qualityEntry 5000 5000 [6000, 7999] 8000 rfl
      rfl (by decide) (by decide)).2.2.2.2.2.1 (by decide),
    (idle_reversion_boundary exampleEngine adcHalf qualityEntry 5000 5000 [6000, 7999, 8000] 8001
      rfl rfl (by decide) (by decide)).2.2.2.2.2.2 (by decide)⟩

/-- C23, as stated, fails: Quality is entered by a MODE release enqueued at clock 5000; at
clock 8000 the idle time equals the threshold 3000 and Ui::DoEvents leaves the mode Quality,
since the test is idle_time() > 3000; the mode reverts at clock 8001. -/
theorem idle_reversion_counterexample :
    (Ui.DoEvents exampleEngine adcHalf qualityEntry 5000).mode_ = .UI_MODE_QUALITY ∧
    (Ui.DoEvents exampleEngine adcHalf qualityEntry 5000).queue_.events_ = [] ∧
    (Ui.DoEvents exampleEngine adcHalf qualityEntry 5000).queue_.idle_time 8000 = 3000 ∧
    (Ui.DoEvents exampleEngine adcHalf (Ui.DoEvents exampleEngine adcHalf qualityEntry 5000)
      8000).mode_ = .UI_MODE_QUALITY ∧
    (Ui.DoEvents exampleEngine adcHalf (Ui.DoEvents exampleEngine adcHalf qualityEntry 5000)
      8000).mode_ ≠ .UI_MODE_VU_METER ∧
    (Ui.DoEvents exampleEngine adcHalf (Ui.DoEvents exampleEngine adcHalf qualityEntry 5000)
      8001).mode_ = .UI_MODE_VU_METER := by
  decide

/-! Startup -/

theorem and_three_lt (n : Nat) : n &&& 3 < 4 := by
  have h : n &&& 3 = n % 4 := Nat.and_pow_two_sub_one_eq_mod n 2
  rw [h]
  omega

/-- C24: startup. After Ui::Init the mode is Calibration-1 if the WRITE pin reads pressed (low)
at initialization and Splash otherwise; for every stored state the last two commands to the
processor set its quality to quality & 3, a value in 0..3, and its playback mode to
playback_mode mod PLAYBACK_MODE_LAST, a value below PLAYBACK_MODE_LAST. -/
theorem startup (eng : Engine) (ui : Ui) (settings : Settings) (cv_scaler : CvScaler)
    (processor : GranularProcessor) (switches0 : Nat → Switch) (pins : Nat → Bool)
    (hlast : 0 < eng.PLAYBACK_MODE_LAST) :
    (Ui.Init eng ui settings cv_scaler processor switches0 pins).mode_ =
      (if pins SWITCH_WRITE = false then .UI_MODE_CALIBRATION_1 else .UI_MODE_SPLASH) ∧
    (Ui.Init eng ui settings cv_scaler processor switches0 pins).processor_.quality =
      settings.data_.state.quality &&& 3 ∧
    (Ui.Init eng ui settings cv_scaler processor switches0 pins).processor_.quality < 4 ∧
    (Ui.Init eng ui settings cv_scaler processor switches0 pins).processor_.playback_mode =
      settings.data_.state.playback_mode % eng.PLAYBACK_MODE_LAST ∧
    (Ui.Init eng ui settings cv_scaler processor switches0 pins).processor_.playback_mode <
      eng.PLAYBACK_MODE_LAST ∧
    (Ui.Init eng ui settings cv_scaler processor switches0 pins).processor_.calls_ =
      processor.calls_ ++
        [.set_quality (settings.data_.state.quality &&& 3),
         .set_playback_mode (settings.data_.state.playback_mode % eng.PLAYBACK_MODE_LAST)] ∧
    (pins SWITCH_WRITE = false →
      ((Ui.Init eng ui settings cv_scaler processor switches0 pins).switches_ SWITCH_WRITE).state_
        = .SwitchReleased) := by
  cases hp : pins SWITCH_WRITE <;>
    simp [Ui.Init, hp, Switch.pressed_immediate, GranularProcessor.set_quality,
      GranularProcessor.set_playback_mode, GranularProcessor.quality,
      GranularProcessor.playback_mode, and_three_lt, Nat.mod_lt _ hlast, Switch.reset]

theorem startup_witness :
    (Ui.Init exampleEngine resetExample { data_ := { state := { quality := 7, playback_mode := 9 } } }
        {} {} (fun _ => Switch.idle) (fun j => decide (j ≠ 1))).mode_ = .UI_MODE_CALIBRATION_1 ∧
    (Ui.Init exampleEngine resetExample { data_ := { state := { quality := 7, playback_mode := 9 } } }
        {} {} (fun _ => Switch.idle) (fun j => decide (j ≠ 1))).processor_.quality = 3 ∧
    (Ui.Init exampleEngine resetExample { data_ := { state := { quality := 7, playback_mode := 9 } } }
        {} {} (fun _ => Switch.idle) (fun j => decide (j ≠ 1))).processor_.playback_mode = 1 ∧
    (Ui.Init exampleEngine resetExample { data_ := { state := { quality := 7, playback_mode := 9 } } }
        {} {} (fun _ => Switch.idle) (fun _ => true)).mode_ = .UI_MODE_SPLASH :=
  ⟨(startup exampleEngine resetExample { data_ := { state := { quality := 7, playback_mode := 9 } } }
      {} {} (fun _ => Switch.idle) (fun j => decide (j ≠ 1)) (by decide)).1,
    (startup exampleEngine resetExample { data_ := { state := { quality := 7, playback_mode := 9 } } }
      {} {} (fun _ => Switch.idle) (fun j => decide (j ≠ 1)) (by decide)).2.1,
    (startup exampleEngine resetExample { data_ := { state := { quality := 7, playback_mode := 9 } } }
      {} {} (fun _ => Switch.idle) (fun j => decide (j ≠ 1)) (by decide)).2.2.2.1,
    (startup exampleEngine resetExample { data_ := { state := { quality := 7, playback_mode := 9 } } }
      {} {} (fun _ => Switch.idle) (fun _ => true) (by decide)).1⟩

/-! Range expansion and smoothing -/

theorem CvScaler.saturate_clamp (v lo hi : ℚ) (h : lo ≤ hi) :
    CvScaler.saturate v lo hi = max lo (min hi v) := by
  unfold CvScaler.saturate
  by_cases h1 : v < lo
  · rw [if_pos h1, max_eq_left]
    exact le_trans (min_le_right _ _) (le_of_lt h1)
  · rw [if_neg h1]
    by_cases h2 : v > hi
    · rw [if_pos h2, min_eq_left (le_of_lt h2), max_eq_right h]
    · rw [if_neg h2, min_eq_right (not_lt.1 h2), max_eq_right (not_lt.1 h1)]

theorem CvScaler.saturate_mono (a b lo hi : ℚ) (h : lo ≤ hi) (hab : a ≤ b) :
    CvScaler.saturate a lo hi ≤ CvScaler.saturate b lo hi := by
  rw [CvScaler.saturate_clamp a lo hi h, CvScaler.saturate_clamp b lo hi h]
  exact max_le_max (le_refl _) (min_le_min (le_refl _) hab)

/-- C25: range expansion over exact rationals. CvScaler::expanded_value of a channel with
smoothed value v is clamp(v * 1.05 - 0.025, 0, 1); it lies in [0, 1], is non-decreasing in v,
is 0 for every v <= 0.025/1.05 and 1 for every v >= 1.025/1.05. CvScaler::Read updates the
dry/wet, reverb, feedback and stereo-spread parameters with the expanded value of their
channels, and position, texture, density, size and pitch with values that do not pass through
it: the smoothed value, its clamp to [0, 1] or the clamped pitch lookup, which differ from the
expanded value (at a smoothed value of 1/4 the expanded value is 19/80). -/
theorem range_expansion (qp : ℚ → ℚ) (cv cv2 : CvScaler) (cal : CalibrationData)
    (P : Parameters) (hw : ReadInput) (channel : Nat) :
    cv.expanded_value channel =
      max 0 (min 1 (cv.value channel * (105 / 100) - 25 / 1000)) ∧
    0 ≤ cv.expanded_value channel ∧ cv.expanded_value channel ≤ 1 ∧
    (cv.value channel ≤ cv2.value channel →
      cv.expanded_value channel ≤ cv2.expanded_value channel) ∧
    (cv.value channel ≤ (25 / 1000) / (105 / 100) → cv.expanded_value channel = 0) ∧
    (cv.value channel ≥ (1025 / 1000) / (105 / 100) → cv.expanded_value channel = 1) ∧
    (cv.Read qp cal P hw).2.dry_wet =
      P.dry_wet.update ((cv.smooth cal hw.adc).expanded_value ADC_DRYWET_POTENTIOMETER) ∧
    (cv.Read qp cal P hw).2.reverb =
      P.reverb.update ((cv.smooth cal hw.adc).expanded_value ADC_REVERB_POTENTIOMETER) ∧
    (cv.Read qp cal P hw).2.feedback =
      P.feedback.update ((cv.smooth cal hw.adc).expanded_value ADC_FEEDBACK_POTENTIOMETER) ∧
    (cv.Read qp cal P hw).2.stereo_spread =
      P.stereo_spread.update ((cv.smooth cal hw.adc).expanded_value ADC_SPREAD_POTENTIOMETER) ∧
    (cv.Read qp cal P hw).2.position =
      P.position.update ((cv.smooth cal hw.adc).value ADC_POSITION_POTENTIOMETER_CV) ∧
    (cv.Read qp cal P hw).2.texture =
      P.texture.update
        (CvScaler.saturate ((cv.smooth cal hw.adc).value ADC_TEXTURE_POTENTIOMETER) 0 1) ∧
    (cv.Read qp cal P hw).2.density =
      P.density.update
        (CvScaler.saturate ((cv.smooth cal hw.adc).value ADC_DENSITY_POTENTIOMETER_CV) 0 1) ∧
    (cv.Read qp cal P hw).2.size =
      P.size.update
        (CvScaler.saturate ((cv.smooth cal hw.adc).value ADC_SIZE_POTENTIOMETER) 0 1) ∧
    (cv.Read qp cal P hw).2.pitch =
      P.pitch.update
        (CvScaler.saturate (qp ((cv.smooth cal hw.adc).value ADC_PITCH_POTENTIOMETER)) (-48) 48) ∧
    (∀ c : CvScaler, c.value channel = 1 / 4 →
      c.expanded_value channel = 19 / 80 ∧ c.value channel ≠ c.expanded_value channel ∧
      CvScaler.saturate (c.value channel) 0 1 ≠ c.expanded_value channel) := by
  have h01 : (0 : ℚ) ≤ 1 := by norm_num
  have hc := CvScaler.saturate_clamp (cv.value channel * (105 / 100) - 25 / 1000) 0 1 h01
  refine ⟨hc, ?_, ?_, ?_, ?_, ?_, rfl, rfl, rfl, rfl, rfl, rfl, rfl, rfl, rfl, ?_⟩
  · unfold CvScaler.expanded_value
    rw [hc]
    exact le_max_left _ _
  · unfold CvScaler.expanded_value
    rw [hc]
    exact max_le h01 (min_le_left _ _)
  · intro hle
    unfold CvScaler.expanded_value
    apply CvScaler.saturate_mono _ _ 0 1 h01
    linarith
  · intro hle
    unfold CvScaler.expanded_value CvScaler.saturate
    have h : cv.value channel * (105 / 100) - 25 / 1000 ≤ 0 := by
      have : cv.value channel * (105 / 100) ≤ (25 / 1000) / (105 / 100) * (105 / 100) :=
        mul_le_mul_of_nonneg_right hle (by norm_num)
      norm_num at this ⊢
      linarith
    by_cases h1 : cv.value channel * (105 / 100) - 25 / 1000 < 0
    · rw [if_pos h1]
    · rw [if_neg h1, if_neg (by linarith)]
      linarith
  · intro hge
    unfold CvScaler.expanded_value CvScaler.saturate
    have h : cv.value channel * (105 / 100) - 25 / 1000 ≥ 1 := by
      have : (1025 / 1000) / (105 / 100) * (105 / 100) ≤ cv.value channel * (105 / 100) :=
        mul_le_mul_of_nonneg_right hge (by norm_num)
      norm_num at this ⊢
      linarith
    rw [if_neg (by linarith)]
    by_cases h2 : cv.value channel * (105 / 100) - 25 / 1000 > 1
    · rw [if_pos h2]
    · rw [if_neg h2]
      linarith
  · intro c hv
    have he : c.expanded_value channel = 19 / 80 := by
      unfold CvScaler.expanded_value CvScaler.saturate
      rw [hv]
      norm_num
    refine ⟨he, ?_, ?_⟩
    · rw [he, hv]
      norm_num
    · rw [he, hv]
      unfold CvScaler.saturate
      norm_num

/-- The one-pole filter step of CvScaler::Read on one channel record. -/
theorem CvScaler.foldl_inputs (g : Nat → CvInput → CvInput) (l : List Nat) (hl : l.Nodup)
    (cv : CvScaler) :
    (l.foldl (fun cv i => { cv with inputs_ := Function.update cv.inputs_ i (g i (cv.inputs_ i)) })
      cv).inputs_ = fun j => if j ∈ l then g j (cv.inputs_ j) else cv.inputs_ j := by
  induction l generalizing cv with
  | nil => simp
  | cons i l ih =>
    have hi : i ∉ l := (List.nodup_cons.1 hl).1
    rw [List.foldl_cons, ih (List.nodup_cons.1 hl).2]
    funext j
    by_cases hj : j = i
    · subst hj
      simp [hi]
    · by_cases hjl : j ∈ l
      · simp [hj, hjl, Function.update_noteq hj]
      · simp [hj, hjl, Function.update_noteq hj]

theorem CvScaler.smooth_inputs (cv : CvScaler) (cal : CalibrationData) (adc : Nat → ℚ)
    (j : Nat) :
    (cv.smooth cal adc).inputs_ j =
      if j < ADC_CHANNEL_LAST then
        { cv.inputs_ j with
          value := (cv.inputs_ j).value + (cv.inputs_ j).filter_coefficient *
            ((if (cv.inputs_ j).offset = .kApplyOffset then
                (cv.inputs_ j).adjusted (adc j) - cal.offset j
              else (cv.inputs_ j).adjusted (adc j)) - (cv.inputs_ j).value) }
      else cv.inputs_ j := by
  unfold CvScaler.smooth
  have h := CvScaler.foldl_inputs
    (fun i input =>
      { input with
        value := input.value + input.filter_coefficient *
          ((if input.offset = .kApplyOffset then input.adjusted (adc i) - cal.offset i
            else input.adjusted (adc i)) - input.value) })
    (List.range ADC_CHANNEL_LAST) (List.nodup_range _) cv
  simp only [CvInput.adjusted] at h ⊢
  rw [h]
  simp only [List.mem_range]

theorem CvScaler.Read_inputs (qp : ℚ → ℚ) (cv : CvScaler) (cal : CalibrationData)
    (P : Parameters) (hw : ReadInput) :
    (cv.Read qp cal P hw).1.inputs_ = (cv.smooth cal hw.adc).inputs_ := by
  have hs : ∀ c : CvScaler, c.shift.inputs_ = c.inputs_ := by
    intro c
    unfold CvScaler.shift
    generalize List.range (kAdcLatency - 1) = l
    induction l generalizing c with
    | nil => rfl
    | cons i l ih =>
      rw [List.foldl_cons, ih]
  simp only [CvScaler.Read, hs]

theorem inputs_table_facts (i : Nat) (hi : i < ADC_CHANNEL_LAST) :
    0 < (inputs_table i).filter_coefficient ∧ (inputs_table i).filter_coefficient ≤ 1 ∧
    (inputs_table i).offset = .kNoOffset ∧ (inputs_table i).value = 0 ∧
    ((inputs_table i).polarity = .kPolarityInvert ↔
      i = ADC_POSITION_POTENTIOMETER_CV ∨ i = ADC_DENSITY_POTENTIOMETER_CV) ∧
    (i = ADC_V_OCT_CV → (inputs_table i).filter_coefficient = 1) := by
  simp only [ADC_CHANNEL_LAST] at hi
  interval_cases i <;>
    simp [inputs_table, ADC_POSITION_POTENTIOMETER_CV, ADC_DENSITY_POTENTIOMETER_CV,
      ADC_V_OCT_CV] <;> norm_num

/-- The configuration of a channel stays that of the table through CvScaler::Read, and the
smoothed value takes the filter step towards the polarity-adjusted reading. -/
theorem CvScaler.reads_inputs (qp : ℚ → ℚ) (cal : CalibrationData) (hw : Nat → ReadInput)
    (cv : CvScaler) (P : Parameters) (hstart : cv.inputs_ = inputs_table) (n i : Nat)
    (hi : i < ADC_CHANNEL_LAST) :
    ((CvScaler.reads qp cal hw (cv, P) n).1.inputs_ i).polarity = (inputs_table i).polarity ∧
    ((CvScaler.reads qp cal hw (cv, P) n).1.inputs_ i).offset = .kNoOffset ∧
    ((CvScaler.reads qp cal hw (cv, P) n).1.inputs_ i).filter_coefficient =
      (inputs_table i).filter_coefficient ∧
    (CvScaler.reads qp cal hw (cv, P) (n + 1)).1.value i =
      (CvScaler.reads qp cal hw (cv, P) n).1.value i + (inputs_table i).filter_coefficient *
        ((inputs_table i).adjusted ((hw n).adc i) - (CvScaler.reads qp cal hw (cv, P) n).1.value i) := by
  have key : ∀ n, ((CvScaler.reads qp cal hw (cv, P) n).1.inputs_ i).polarity =
        (inputs_table i).polarity ∧
      ((CvScaler.reads qp cal hw (cv, P) n).1.inputs_ i).offset = .kNoOffset ∧
      ((CvScaler.reads qp cal hw (cv, P) n).1.inputs_ i).filter_coefficient =
        (inputs_table i).filter_coefficient := by
    intro n
    induction n with
    | zero =>
      simp only [CvScaler.reads, hstart]
      exact ⟨trivial, (inputs_table_facts i hi).2.2.1, trivial⟩
    | succ n ih =>
      simp only [CvScaler.reads, CvScaler.Read_inputs, CvScaler.smooth_inputs, if_pos hi]
      exact ih
  obtain ⟨hp, ho, hf⟩ := key n
  refine ⟨hp, ho, hf, ?_⟩
  simp only [CvScaler.reads, CvScaler.value, CvScaler.Read_inputs, CvScaler.smooth_inputs,
    if_pos hi, ho, hf]
  simp [CvInput.adjusted, hp]

theorem filter_step_between (v r k : ℚ) (hk0 : 0 < k) (hk1 : k ≤ 1) :
    min v r ≤ v + k * (r - v) ∧ v + k * (r - v) ≤ max v r := by
  rcases le_total v r with h | h
  · rw [min_eq_left h, max_eq_right h]
    constructor
    · nlinarith
    · nlinarith
  · rw [min_eq_right h, max_eq_left h]
    constructor
    · nlinarith
    · nlinarith

/-- C30: smoothing keeps values in range, over exact rationals. Every channel of the table has
a filter coefficient in (0, 1] and no offset, and POSITION and DENSITY are the inverted
channels. Starting from the table (smoothed values 0), if every raw reading lies in [0, 1],
then after any number n of CvScaler::Read calls the smoothed value of each channel lies in
[0, 1]; the value after the next call lies between the value before it and the
polarity-adjusted reading of that call (1 - reading on the inverted channels); and on the
V/OCT channel it equals the reading of that call. -/
theorem smoothing_in_range (qp : ℚ → ℚ) (cal : CalibrationData) (hw : Nat → ReadInput)
    (cv : CvScaler) (P : Parameters) (n i : Nat)
    (hstart : cv.inputs_ = inputs_table)
    (hraw : ∀ k j, 0 ≤ (hw k).adc j ∧ (hw k).adc j ≤ 1)
    (hi : i < ADC_CHANNEL_LAST) :
    (0 < (inputs_table i).filter_coefficient ∧ (inputs_table i).filter_coefficient ≤ 1) ∧
    ((inputs_table i).adjusted ((hw n).adc i) =
      if i = ADC_POSITION_POTENTIOMETER_CV ∨ i = ADC_DENSITY_POTENTIOMETER_CV then
        1 - (hw n).adc i
      else (hw n).adc i) ∧
    (0 ≤ (CvScaler.reads qp cal hw (cv, P) n).1.value i ∧
      (CvScaler.reads qp cal hw (cv, P) n).1.value i ≤ 1) ∧
    (min ((CvScaler.reads qp cal hw (cv, P) n).1.value i)
        ((inputs_table i).adjusted ((hw n).adc i)) ≤
      (CvScaler.reads qp cal hw (cv, P) (n + 1)).1.value i ∧
     (CvScaler.reads qp cal hw (cv, P) (n + 1)).1.value i ≤
      max ((CvScaler.reads qp cal hw (cv, P) n).1.value i)
        ((inputs_table i).adjusted ((hw n).adc i))) ∧
    (i = ADC_V_OCT_CV →
      (CvScaler.reads qp cal hw (cv, P) (n + 1)).1.value i = (hw n).adc i) := by
  obtain ⟨hk0, hk1, _, _, hinv, hvoct⟩ := inputs_table_facts i hi
  have hadj : ∀ x : ℚ, 0 ≤ x ∧ x ≤ 1 →
      0 ≤ (inputs_table i).adjusted x ∧ (inputs_table i).adjusted x ≤ 1 := by
    intro x hx
    unfold CvInput.adjusted
    split
    · constructor <;> linarith [hx.1, hx.2]
    · exact hx
  have hstep : ∀ m, (CvScaler.reads qp cal hw (cv, P) (m + 1)).1.value i =
      (CvScaler.reads qp cal hw (cv, P) m).1.value i + (inputs_table i).filter_coefficient *
        ((inputs_table i).adjusted ((hw m).adc i) -
          (CvScaler.reads qp cal hw (cv, P) m).1.value i) :=
    fun m => (CvScaler.reads_inputs qp cal hw cv P hstart m i hi).2.2.2
  have hrange : ∀ m, 0 ≤ (CvScaler.reads qp cal hw (cv, P) m).1.value i ∧
      (CvScaler.reads qp cal hw (cv, P) m).1.value i ≤ 1 := by
    intro m
    induction m with
    | zero =>
      simp only [CvScaler.reads, CvScaler.value, hstart, (inputs_table_facts i hi).2.2.2.1]
      norm_num
    | succ m ih =>
      have hb := filter_step_between ((CvScaler.reads qp cal hw (cv, P) m).1.value i)
        ((inputs_table i).adjusted ((hw m).adc i)) _ hk0 hk1
      have ha := hadj _ (hraw m i)
      rw [hstep m]
      exact ⟨le_trans (le_min ih.1 ha.1) hb.1, le_trans hb.2 (max_le ih.2 ha.2)⟩
  refine ⟨⟨hk0, hk1⟩, ?_, hrange n, ?_, ?_⟩
  · unfold CvInput.adjusted
    by_cases hp : (inputs_table i).polarity = .kPolarityInvert
    · rw [if_pos hp, if_pos (hinv.1 hp)]
    · rw [if_neg hp, if_neg (fun h => hp (hinv.2 h))]
  · rw [hstep n]
    exact filter_step_between _ _ _ hk0 hk1
  · intro hv
    have hnot : ¬ (inputs_table i).polarity = .kPolarityInvert := by
      intro hp
      rcases hinv.1 hp with h | h <;> rw [hv] at h <;> exact absurd h (by decide)
    rw [hstep n, hvoct hv]
    simp only [CvInput.adjusted, if_neg hnot]
    ring

theorem smoothing_in_range_witness :
    (CvScaler.reads (fun x => x) {} readsExample ({}, parametersExample) 3).1.value
        ADC_V_OCT_CV = 1 / 4 ∧
    0 ≤ (CvScaler.reads (fun x => x) {} readsExample ({}, parametersExample) 2).1.value
        ADC_POSITION_POTENTIOMETER_CV ∧
    (CvScaler.reads (fun x => x) {} readsExample ({}, parametersExample) 2).1.value
        ADC_POSITION_POTENTIOMETER_CV ≤ 1 :=
  have h := smoothing_in_range (fun x => x) {} readsExample {} parametersExample 2
    ADC_POSITION_POTENTIOMETER_CV rfl (fun _ _ => by norm_num [readsExample]) (by decide)
  ⟨(smoothing_in_range (fun x => x) {} readsExample {} parametersExample 2 ADC_V_OCT_CV rfl
      (fun _ _ => by norm_num [readsExample]) (by decide)).2.2.2.2 rfl,
    h.2.2.1.1, h.2.2.1.2⟩

/-! Saving -/

theorem Ui.CalibrateC3_mode (ui : Ui) (adc : Nat → ℚ) :
    (ui.CalibrateC3 adc).mode_ = .UI_MODE_VU_METER ∨ (ui.CalibrateC3 adc).mode_ = .UI_MODE_PANIC := by
  dsimp only [Ui.CalibrateC3]
  split
  · exact Or.inl rfl
  · exact Or.inr rfl

theorem Ui.OnSwitchEvent_not_saving (eng : Engine) (adc : Nat → ℚ) (ui : Ui) (e : Event)
    (h : ui.mode_ ≠ .UI_MODE_SAVING) :
    (Ui.OnSwitchEvent eng adc ui e).mode_ ≠ .UI_MODE_SAVING := by
  unfold Ui.OnSwitchEvent
  split
  · exact h
  · split <;> (repeat' split) <;> intro hs <;>
      first
      | exact h hs
      | cases hs
      | (rcases Ui.CalibrateC3_mode ui adc with h3 | h3 <;> rw [h3] at hs <;> cases hs)

theorem Ui.pullEvents_not_saving (eng : Engine) (adc : Nat → ℚ) (n : Nat) (ui : Ui)
    (h : ui.mode_ ≠ .UI_MODE_SAVING) :
    (Ui.pullEvents eng adc n ui).mode_ ≠ .UI_MODE_SAVING := by
  induction n generalizing ui with
  | zero => exact h
  | succ n ih =>
    cases hev : ui.queue_.events_ with
    | nil =>
      rw [Ui.pullEvents_nil eng adc _ ui hev]
      exact h
    | cons e rest =>
      simp only [Ui.pullEvents, hev]
      by_cases hc : e.control_type = .CONTROL_SWITCH
      · rw [if_pos hc]
        exact ih _ (Ui.OnSwitchEvent_not_saving eng adc _ e h)
      · rw [if_neg hc]
        exact ih _ h

/-- C29: Saving is never observable. From every mode other than Saving, for every event, every
queue content and every clock reading, the mode after Ui::OnSwitchEvent and the mode after
Ui::DoEvents are not Saving. The WRITE long-press in Save sets the mode to Saving, runs
SavePreset in it and sets the mode to VU-Meter before it returns. -/
theorem saving_never_observable (eng : Engine) (adc : Nat → ℚ) (ui : Ui) (e : Event)
    (now : Nat) (h : ui.mode_ ≠ .UI_MODE_SAVING) :
    (Ui.OnSwitchEvent eng adc ui e).mode_ ≠ .UI_MODE_SAVING ∧
    (Ui.DoEvents eng adc ui now).mode_ ≠ .UI_MODE_SAVING ∧
    (ui.mode_ = .UI_MODE_SAVE → e.control_id = SWITCH_WRITE →
      e.data = SwitchState.SwitchLongPressed.toInt →
      Ui.OnSwitchEvent eng adc ui e =
        { Ui.SavePreset eng { ui with mode_ := .UI_MODE_SAVING } with
          mode_ := .UI_MODE_VU_METER } ∧
      (Ui.SavePreset eng { ui with mode_ := .UI_MODE_SAVING }).mode_ = .UI_MODE_SAVING ∧
      (Ui.OnSwitchEvent eng adc ui e).mode_ = .UI_MODE_VU_METER) := by
  refine ⟨Ui.OnSwitchEvent_not_saving eng adc ui e h, ?_, ?_⟩
  · have hp := Ui.pullEvents_not_saving eng adc ui.queue_.events_.length ui h
    rw [(Ui.DoEvents_idle eng adc ui now).1]
    split
    · decide
    · exact hp
  · intro hm hid hd
    have hlp : ¬ SwitchState.SwitchLongPressed.toInt = SwitchState.SwitchPressed.toInt := by
      decide
    have he : Ui.OnSwitchEvent eng adc ui e =
        { Ui.SavePreset eng { ui with mode_ := .UI_MODE_SAVING } with
          mode_ := .UI_MODE_VU_METER } := by
      simp only [Ui.OnSwitchEvent, hd, hlp, if_false, hm, hid, if_true]
    rw [he]
    exact ⟨rfl, rfl, rfl⟩

theorem saving_never_observable_witness :
    (Ui.OnSwitchEvent exampleEngine adcHalf (modeExample .UI_MODE_SAVE) writeLongPress).mode_ ≠
      .UI_MODE_SAVING ∧
    (Ui.DoEvents exampleEngine adcHalf
      ((modeExample .UI_MODE_SAVE).AddEvent 10 .CONTROL_SWITCH SWITCH_WRITE
        SwitchState.SwitchLongPressed.toInt) 10).mode_ ≠ .UI_MODE_SAVING :=
  ⟨(saving_never_observable exampleEngine adcHalf (modeExample .UI_MODE_SAVE) writeLongPress 0
      (by decide)).1,
    (saving_never_observable exampleEngine adcHalf
      ((modeExample .UI_MODE_SAVE).AddEvent 10 .CONTROL_SWITCH SWITCH_WRITE
        SwitchState.SwitchLongPressed.toInt) writeLongPress 10 (by decide)).2.1⟩

/-! Events of one tick and combo identifiers -/

/-- C27: at most one event per tick. For every state of the switches (states, debounce
histories, press times), every clock reading and all pin levels, one call of Ui::Poll appends
at most one event to the queue, and an event it appends is a switch event whose data is
SwitchReleased or SwitchLongPressed, never SwitchPressed or SwitchVLongPressed. -/
theorem poll_at_most_one_event (ui : Ui) (now : Nat) (pins : Nat → Bool) :
    ∃ l : List Event,
      (ui.Poll now pins).queue_.events_ = ui.queue_.events_ ++ l ∧ l.length ≤ 1 ∧
      ∀ e ∈ l, e.control_type = .CONTROL_SWITCH ∧
        (e.data = SwitchState.SwitchReleased.toInt ∨
          e.data = SwitchState.SwitchLongPressed.toInt) ∧
        e.data ≠ SwitchState.SwitchPressed.toInt ∧
        e.data ≠ SwitchState.SwitchVLongPressed.toInt := by
  have hone : ∀ (id : Nat) (d : Int),
      (d = SwitchState.SwitchReleased.toInt ∨ d = SwitchState.SwitchLongPressed.toInt) →
      (ui.Poll now pins).queue_.events_ = ui.queue_.events_ ++
        [{ control_type := .CONTROL_SWITCH, control_id := id, data := d }] →
      ∃ l : List Event,
        (ui.Poll now pins).queue_.events_ = ui.queue_.events_ ++ l ∧ l.length ≤ 1 ∧
        ∀ e ∈ l, e.control_type = .CONTROL_SWITCH ∧
          (e.data = SwitchState.SwitchReleased.toInt ∨
            e.data = SwitchState.SwitchLongPressed.toInt) ∧
          e.data ≠ SwitchState.SwitchPressed.toInt ∧
          e.data ≠ SwitchState.SwitchVLongPressed.toInt := by
    intro id d hd hq
    refine ⟨_, hq, by simp, ?_⟩
    intro e he
    rw [List.mem_singleton] at he
    subst he
    refine ⟨rfl, hd, ?_, ?_⟩
    · rcases hd with hd | hd <;> simp only [hd] <;> decide
    · rcases hd with hd | hd <;> simp only [hd] <;> decide
  by_cases hex : ∃ i, i < kNumSwitches ∧ ((ui.scanned pins).switches_ i).fires now = true
  · obtain ⟨i, hi⟩ := hex
    obtain ⟨i0, _, hP0, hmin⟩ := exists_first
      (fun i => i < kNumSwitches ∧ ((ui.scanned pins).switches_ i).fires now = true) i hi
    have hfirst : ∀ j, j < i0 → ((ui.scanned pins).switches_ j).fires now = false := by
      intro j hj
      have := hmin j hj
      simp only [not_and, Bool.not_eq_true] at this
      exact this (Nat.lt_trans hj hP0.1)
    by_cases hC : 1 < ui.comboScan.2
    · cases hjr : ((ui.scanned pins).switches_ i0).just_released with
      | true =>
        exact hone _ _ (Or.inl rfl)
          (Ui.Poll_release_combo ui now pins i0 hP0.1 hP0.2 hfirst hC hjr).1
      | false =>
        exact hone _ _ (Or.inr rfl)
          (Ui.Poll_long_combo ui now pins i0 hP0.1 hP0.2 hfirst hC hjr).1
    · have hs := Ui.Poll_single ui now pins i0 hP0.1 hP0.2 hC
      cases hjr : ((ui.scanned pins).switches_ i0).just_released with
      | true => exact hone _ _ (Or.inl rfl) (hs.1 hjr).1
      | false => exact hone _ _ (Or.inr rfl) (hs.2 hjr).1
  · refine ⟨[], ?_, by simp, by simp⟩
    have hq : ∀ j, j < kNumSwitches → ((ui.scanned pins).switches_ j).fires now = false := by
      intro j hj
      by_contra hf
      exact hex ⟨j, hj, by simpa using hf⟩
    rw [(Ui.Poll_quiet_facts ui now pins hq).1, List.append_nil]

theorem flaggedCount_eq (m : Nat) :
    flaggedCount m =
      (if m &&& 1 ≠ 0 then 1 else 0) + (if m &&& 2 ≠ 0 then 1 else 0) +
        (if m &&& 4 ≠ 0 then 1 else 0) + (if m &&& 8 ≠ 0 then 1 else 0) := by
  unfold flaggedCount
  rw [range_kNumSwitches]
  simp only [List.filter_cons, List.filter_nil]
  by_cases h0 : m &&& 1 ≠ 0 <;> by_cases h1 : m &&& 2 ≠ 0 <;> by_cases h2 : m &&& 4 ≠ 0 <;>
    by_cases h3 : m &&& 8 ≠ 0 <;> simp_all

/-- C28: combo identifiers cannot be mistaken for switches. The combo identifier of Ui::Poll
for a bitmask m of the 4 switches is m << fls(kNumSwitches - 1) = m << 2; when m has at least
two bits set it is at least 12 and so differs from every switch index 0..3, and distinct
bitmasks have distinct identifiers. In Ui::Poll the bitmask of the switches that are not
SwitchReleased is below 16 and has at least two bits set whenever combo_count > 1. -/
theorem combo_id_distinct :
    (∀ m, m < 2 ^ kNumSwitches → Ui.combo_id m = m <<< 2 ∧ Ui.combo_id m = 4 * m) ∧
    (∀ m, m < 2 ^ kNumSwitches → 2 ≤ flaggedCount m →
      12 ≤ Ui.combo_id m ∧ ∀ i, i < kNumSwitches → Ui.combo_id m ≠ i) ∧
    (∀ m1, m1 < 2 ^ kNumSwitches → ∀ m2, m2 < 2 ^ kNumSwitches →
      Ui.combo_id m1 = Ui.combo_id m2 → m1 = m2) ∧
    (∀ (ui : Ui) (now : Nat) (pins : Nat → Bool),
      ui.Poll now pins =
        (List.range kNumSwitches).foldl
          (Ui.pollSwitch now ui.comboScan.1 ui.comboScan.2 (Ui.combo_id ui.comboScan.1))
          (ui.scanned pins)) ∧
    (∀ ui : Ui, ui.comboScan.1 < 2 ^ kNumSwitches ∧
      (1 < ui.comboScan.2 → 2 ≤ flaggedCount ui.comboScan.1)) := by
  have hid : ∀ m, m < 2 ^ kNumSwitches → Ui.combo_id m = 4 * m := by
    intro m hm
    simp only [kNumSwitches] at hm
    simp only [Ui.combo_id, fls_three, Nat.shiftLeft_eq]
    omega
  refine ⟨?_, ?_, ?_, ?_, ?_⟩
  · intro m hm
    refine ⟨?_, hid m hm⟩
    rw [hid m hm, Nat.shiftLeft_eq]
    omega
  · intro m hm h2
    rw [hid m hm]
    have h3 : 3 ≤ m := by
      simp only [kNumSwitches] at hm
      have hm16 : m < 16 := by omega
      revert h2
      interval_cases m <;> decide
    refine ⟨by omega, fun i hi => ?_⟩
    simp only [kNumSwitches] at hi
    omega
  · intro m1 h1 m2 h2 he
    rw [hid m1 h1, hid m2 h2] at he
    omega
  · intro ui now pins
    have h := Ui.Poll_eq ui now pins
    have hc : Ui.combo_id ui.comboScan.1 = (ui.comboScan.1 <<< 2) % 2 ^ 16 := by
      simp only [Ui.combo_id, fls_three]
    rw [hc]
    exact h
  · intro ui
    refine ⟨by simpa [kNumSwitches] using (Ui.comboScan_bounds ui).1, ?_⟩
    rw [flaggedCount_eq]
    simp only [Ui.comboScan, range_kNumSwitches, List.foldl_cons, List.foldl_nil]
    by_cases h0 : (ui.switches_ 0).state_ = .SwitchReleased <;>
    by_cases h1 : (ui.switches_ 1).state_ = .SwitchReleased <;>
    by_cases h2 : (ui.switches_ 2).state_ = .SwitchReleased <;>
    by_cases h3 : (ui.switches_ 3).state_ = .SwitchReleased <;>
    simp [h0, h1, h2, h3] <;> (try split_ifs) <;> omega

/-! Switch timestamps -/

/-- A property of switches that reset, set_state(SwitchLongPressed) and capture_press at the
clock reading now preserve is preserved by the loop body of Ui::Poll. -/
theorem Ui.pollSwitch_closed (P : Switch → Prop) (now F C id : Nat) (u : Ui) (i : Nat)
    (hreset : ∀ s, P s → P s.reset)
    (hlong : ∀ s, P s → P (s.set_state .SwitchLongPressed))
    (hcap : ∀ s, P s → P (s.capture_press now))
    (h : ∀ j, P (u.switches_ j)) (j : Nat) :
    P ((Ui.pollSwitch now F C id u i).switches_ j) := by
  have hupd : ∀ s : Switch, P s → P (Function.update u.switches_ i s j) := by
    intro s hs
    rw [Function.update_apply]
    split
    · exact hs
    · exact h j
  cases hs : (u.switches_ i).state_ <;> simp only [Ui.pollSwitch, hs]
  · by_cases hp : (u.switches_ i).just_pressed = true
    · simp only [hp, ↓reduceIte]
      exact hupd _ (hcap _ (h i))
    · simp only [hp, ↓reduceIte]
      exact h j
  · by_cases hr : (u.switches_ i).just_released = true
    · by_cases hC : C > 1
      · simp only [hr, hC, ↓reduceIte, Ui.AddEvent, Ui.resetFlaggedSwitches_eq]
        split
        · exact hreset _ (h j)
        · exact h j
      · simp only [hr, hC, ↓reduceIte, Ui.AddEvent]
        exact hupd _ (hreset _ (h i))
    · by_cases hl : toInt32 (sub32 now (u.switches_ i).press_time_) > kLongPressDuration
      · by_cases hC : C > 1
        · rw [if_neg hr, if_pos hl, if_pos hC]
          simp only [Ui.AddEvent, Ui.setFlaggedSwitchState_eq]
          split
          · exact hlong _ (h j)
          · exact h j
        · simp only [hr, hl, hC, ↓reduceIte, Ui.AddEvent]
          exact hupd _ (hlong _ (h i))
      · simp only [hr, hl, ↓reduceIte]
        exact h j
  · by_cases hr : (u.switches_ i).just_released = true
    · simp only [hr, ↓reduceIte]
      exact hupd _ (hreset _ (h i))
    · simp only [hr, ↓reduceIte]
      exact h j
  · by_cases hp : (u.switches_ i).just_pressed = true
    · simp only [hp, ↓reduceIte]
      exact hupd _ (hcap _ (h i))
    · simp only [hp, ↓reduceIte]
      exact h j

/-- The same for a whole Ui::Poll, which scans every switch first. -/
theorem Ui.Poll_closed (P : Switch → Prop) (ui : Ui) (now : Nat) (pins : Nat → Bool)
    (hscan : ∀ s pin, P s → P (s.scan pin))
    (hreset : ∀ s, P s → P s.reset)
    (hlong : ∀ s, P s → P (s.set_state .SwitchLongPressed))
    (hcap : ∀ s, P s → P (s.capture_press now))
    (h : ∀ j, P (ui.switches_ j)) (j : Nat) :
    P ((ui.Poll now pins).switches_ j) := by
  have hfold : ∀ (l : List Nat) (u : Ui), (∀ j, P (u.switches_ j)) →
      ∀ j, P ((l.foldl (Ui.pollSwitch now ui.comboScan.1 ui.comboScan.2
        ((ui.comboScan.1 <<< 2) % 2 ^ 16)) u).switches_ j) := by
    intro l
    induction l with
    | nil => exact fun u hu => hu
    | cons i l ih =>
      intro u hu
      rw [List.foldl_cons]
      exact ih _ (Ui.pollSwitch_closed P now _ _ _ u i hreset hlong hcap hu)
  rw [Ui.Poll_eq]
  apply hfold
  intro k
  simp only [Ui.scanned, Switches.Scan_apply]
  split
  · exact hscan _ _ (h k)
  · exact h k

/-- The part of the timestamp invariant that Ui::Poll does keep: if every SwitchReleased
switch has press_time 0 and every press_time is at most the clock reading, the same holds after
a Poll at a clock reading now that is not smaller. -/
theorem Ui.Poll_stamps (ui : Ui) (c now : Nat) (pins : Nat → Bool) (hc : c ≤ now)
    (h : ∀ j, ((ui.switches_ j).state_ = .SwitchReleased → (ui.switches_ j).press_time_ = 0) ∧
      (ui.switches_ j).press_time_ ≤ c) (j : Nat) :
    (((ui.Poll now pins).switches_ j).state_ = .SwitchReleased →
        ((ui.Poll now pins).switches_ j).press_time_ = 0) ∧
      ((ui.Poll now pins).switches_ j).press_time_ ≤ now := by
  apply Ui.Poll_closed
    (fun s => (s.state_ = .SwitchReleased → s.press_time_ = 0) ∧ s.press_time_ ≤ now) ui now pins
  · intro s pin hs
    exact hs
  · intro s _
    exact ⟨fun _ => rfl, Nat.zero_le _⟩
  · intro s hs
    refine ⟨fun hrel => ?_, hs.2⟩
    simp [Switch.set_state] at hrel
  · intro s _
    refine ⟨fun hrel => ?_, ?_⟩
    · simp [Switch.capture_press] at hrel
    · simp only [Switch.capture_press]
      exact Nat.mod_le _ _
  · intro k
    exact ⟨(h k).1, le_trans (h k).2 hc⟩

/-- The same over a run of Ui::Poll calls under a clock that never decreases: in every state
reached, a SwitchReleased switch has press_time 0 and no press_time is above the last clock
reading. -/
theorem Ui.PollsAt_stamps (trace : List (Nat × (Nat → Bool))) (ui : Ui) (c : Nat)
    (hsorted : (c :: trace.map Prod.fst).Pairwise (fun a b => a ≤ b))
    (h : ∀ j, ((ui.switches_ j).state_ = .SwitchReleased → (ui.switches_ j).press_time_ = 0) ∧
      (ui.switches_ j).press_time_ ≤ c) (j : Nat) :
    (((ui.PollsAt trace).switches_ j).state_ = .SwitchReleased →
        ((ui.PollsAt trace).switches_ j).press_time_ = 0) ∧
      ((ui.PollsAt trace).switches_ j).press_time_ ≤ (trace.map Prod.fst).getLastD c := by
  induction trace generalizing ui c with
  | nil => exact h j
  | cons t rest ih =>
    have hs := List.pairwise_cons.1 hsorted
    have hct : c ≤ t.1 := hs.1 t.1 (by simp)
    have h1 := Ui.Poll_stamps ui c t.1 t.2 hct h
    have h2 := ih (ui.Poll t.1 t.2) t.1 (by simpa using hs.2) h1
    simp only [Ui.PollsAt, List.map_cons]
    cases rest with
    | nil => simpa using h2
    | cons t2 rest2 => simpa using h2


theorem Ui.pollSwitch_frame (now F C id : Nat) (u : Ui) (i : Nat) (hi : i < kNumSwitches) :
    (Ui.pollSwitch now F C id u i).mode_ = u.mode_ ∧
    (Ui.pollSwitch now F C id u i).cv_scaler_ = u.cv_scaler_ ∧
    (Ui.pollSwitch now F C id u i).settings_ = u.settings_ ∧
    (Ui.pollSwitch now F C id u i).processor_ = u.processor_ ∧
    (Ui.pollSwitch now F C id u i).load_save_bank_ = u.load_save_bank_ ∧
    (Ui.pollSwitch now F C id u i).load_save_location_ = u.load_save_location_ ∧
    ∀ j, kNumSwitches ≤ j → (Ui.pollSwitch now F C id u i).switches_ j = u.switches_ j := by
  have hupd : ∀ (s : Switch) (j : Nat), kNumSwitches ≤ j →
      Function.update u.switches_ i s j = u.switches_ j := by
    intro s j hj
    exact Function.update_noteq (by omega) _ _
  cases hs : (u.switches_ i).state_ <;> simp only [Ui.pollSwitch, hs]
  · by_cases hp : (u.switches_ i).just_pressed = true
    · rw [if_pos hp]
      exact ⟨by trivial, by trivial, by trivial, by trivial, by trivial, by trivial, hupd _⟩
    · rw [if_neg hp]
      exact ⟨by trivial, by trivial, by trivial, by trivial, by trivial, by trivial, fun _ _ => rfl⟩
  · by_cases hr : (u.switches_ i).just_released = true
    · by_cases hC : C > 1
      · rw [if_pos hr, if_pos hC]
        simp only [Ui.AddEvent, Ui.resetFlaggedSwitches_eq]
        refine ⟨by trivial, by trivial, by trivial, by trivial, by trivial, by trivial, fun j hj => ?_⟩
        rw [if_neg (fun h => absurd h.1 (by omega))]
      · rw [if_pos hr, if_neg hC]
        exact ⟨by trivial, by trivial, by trivial, by trivial, by trivial, by trivial, hupd _⟩
    · by_cases hl : toInt32 (sub32 now (u.switches_ i).press_time_) > kLongPressDuration
      · by_cases hC : C > 1
        · rw [if_neg hr, if_pos hl, if_pos hC]
          simp only [Ui.AddEvent, Ui.setFlaggedSwitchState_eq]
          refine ⟨by trivial, by trivial, by trivial, by trivial, by trivial, by trivial, fun j hj => ?_⟩
          rw [if_neg (fun h => absurd h.1 (by omega))]
        · rw [if_neg hr, if_pos hl, if_neg hC]
          exact ⟨by trivial, by trivial, by trivial, by trivial, by trivial, by trivial, hupd _⟩
      · rw [if_neg hr, if_neg hl]
        exact ⟨by trivial, by trivial, by trivial, by trivial, by trivial, by trivial, fun _ _ => rfl⟩
  · by_cases hr : (u.switches_ i).just_released = true
    · rw [if_pos hr]
      exact ⟨by trivial, by trivial, by trivial, by trivial, by trivial, by trivial, hupd _⟩
    · rw [if_neg hr]
      exact ⟨by trivial, by trivial, by trivial, by trivial, by trivial, by trivial, fun _ _ => rfl⟩
  · by_cases hp : (u.switches_ i).just_pressed = true
    · rw [if_pos hp]
      exact ⟨by trivial, by trivial, by trivial, by trivial, by trivial, by trivial, hupd _⟩
    · rw [if_neg hp]
      exact ⟨by trivial, by trivial, by trivial, by trivial, by trivial, by trivial, fun _ _ => rfl⟩

/-- Ui::Poll touches only the four switches and the event queue. -/
theorem Ui.Poll_frame (ui : Ui) (now : Nat) (pins : Nat → Bool) :
    (ui.Poll now pins).mode_ = ui.mode_ ∧
    (ui.Poll now pins).cv_scaler_ = ui.cv_scaler_ ∧
    (ui.Poll now pins).settings_ = ui.settings_ ∧
    (ui.Poll now pins).processor_ = ui.processor_ ∧
    (ui.Poll now pins).load_save_bank_ = ui.load_save_bank_ ∧
    (ui.Poll now pins).load_save_location_ = ui.load_save_location_ ∧
    ∀ j, kNumSwitches ≤ j → (ui.Poll now pins).switches_ j = ui.switches_ j := by
  have hfold : ∀ (l : List Nat) (u : Ui), (∀ i ∈ l, i < kNumSwitches) →
      (l.foldl (Ui.pollSwitch now ui.comboScan.1 ui.comboScan.2
        ((ui.comboScan.1 <<< 2) % 2 ^ 16)) u).mode_ = u.mode_ ∧
      (l.foldl (Ui.pollSwitch now ui.comboScan.1 ui.comboScan.2
        ((ui.comboScan.1 <<< 2) % 2 ^ 16)) u).cv_scaler_ = u.cv_scaler_ ∧
      (l.foldl (Ui.pollSwitch now ui.comboScan.1 ui.comboScan.2
        ((ui.comboScan.1 <<< 2) % 2 ^ 16)) u).settings_ = u.settings_ ∧
      (l.foldl (Ui.pollSwitch now ui.comboScan.1 ui.comboScan.2
        ((ui.comboScan.1 <<< 2) % 2 ^ 16)) u).processor_ = u.processor_ ∧
      (l.foldl (Ui.pollSwitch now ui.comboScan.1 ui.comboScan.2
        ((ui.comboScan.1 <<< 2) % 2 ^ 16)) u).load_save_bank_ = u.load_save_bank_ ∧
      (l.foldl (Ui.pollSwitch now ui.comboScan.1 ui.comboScan.2
        ((ui.comboScan.1 <<< 2) % 2 ^ 16)) u).load_save_location_ = u.load_save_location_ ∧
      ∀ j, kNumSwitches ≤ j →
        (l.foldl (Ui.pollSwitch now ui.comboScan.1 ui.comboScan.2
          ((ui.comboScan.1 <<< 2) % 2 ^ 16)) u).switches_ j = u.switches_ j := by
    intro l
    induction l with
    | nil => exact fun u _ => ⟨rfl, rfl, rfl, rfl, rfl, rfl, fun _ _ => rfl⟩
    | cons i l ih =>
      intro u hl
      have h1 := Ui.pollSwitch_frame now ui.comboScan.1 ui.comboScan.2
        ((ui.comboScan.1 <<< 2) % 2 ^ 16) u i (hl i (List.mem_cons_self _ _))
      have h2 := ih (Ui.pollSwitch now ui.comboScan.1 ui.comboScan.2
        ((ui.comboScan.1 <<< 2) % 2 ^ 16) u i) (fun i' hi' => hl i' (List.mem_cons_of_mem _ hi'))
      rw [List.foldl_cons]
      refine ⟨h2.1.trans h1.1, h2.2.1.trans h1.2.1, h2.2.2.1.trans h1.2.2.1,
        h2.2.2.2.1.trans h1.2.2.2.1, h2.2.2.2.2.1.trans h1.2.2.2.2.1,
        h2.2.2.2.2.2.1.trans h1.2.2.2.2.2.1, fun j hj => ?_⟩
      rw [h2.2.2.2.2.2.2 j hj, h1.2.2.2.2.2.2 j hj]
  have h := hfold (List.range kNumSwitches) (ui.scanned pins) (fun i hi => List.mem_range.1 hi)
  rw [Ui.Poll_eq]
  refine ⟨h.1, h.2.1, h.2.2.1, h.2.2.2.1, h.2.2.2.2.1, h.2.2.2.2.2.1, fun j hj => ?_⟩
  rw [h.2.2.2.2.2.2 j hj]
  simp only [Ui.scanned, Switches.Scan_apply, if_neg (Nat.not_lt.2 hj)]

theorem Ui.Polls_frame (l : List (Nat → Bool)) (ui : Ui) (now : Nat) :
    (ui.Polls now l).mode_ = ui.mode_ ∧
    (ui.Polls now l).cv_scaler_ = ui.cv_scaler_ ∧
    (ui.Polls now l).settings_ = ui.settings_ ∧
    (ui.Polls now l).processor_ = ui.processor_ ∧
    (ui.Polls now l).load_save_bank_ = ui.load_save_bank_ ∧
    (ui.Polls now l).load_save_location_ = ui.load_save_location_ ∧
    ∀ j, kNumSwitches ≤ j → (ui.Polls now l).switches_ j = ui.switches_ j := by
  induction l generalizing ui now with
  | nil => exact ⟨rfl, rfl, rfl, rfl, rfl, rfl, fun _ _ => rfl⟩
  | cons pins l ih =>
    have h1 := Ui.Poll_frame ui now pins
    have h2 := ih (ui.Poll now pins) (now + 1)
    simp only [Ui.Polls]
    refine ⟨h2.1.trans h1.1, h2.2.1.trans h1.2.1, h2.2.2.1.trans h1.2.2.1,
      h2.2.2.2.1.trans h1.2.2.2.1, h2.2.2.2.2.1.trans h1.2.2.2.2.1,
      h2.2.2.2.2.2.1.trans h1.2.2.2.2.2.1, fun j hj => ?_⟩
    rw [h2.2.2.2.2.2.2 j hj, h1.2.2.2.2.2.2 j hj]

theorem Ui.eq_of_fields (u v : Ui) (hm : u.mode_ = v.mode_)
    (hs : ∀ j, u.switches_ j = v.switches_ j) (hq : u.queue_ = v.queue_)
    (hcv : u.cv_scaler_ = v.cv_scaler_) (hst : u.settings_ = v.settings_)
    (hp : u.processor_ = v.processor_) (hb : u.load_save_bank_ = v.load_save_bank_)
    (hl : u.load_save_location_ = v.load_save_location_) : u = v := by
  cases u
  cases v
  simp only at hm hq hcv hst hp hb hl hs
  have hs' := funext hs
  subst hm hq hcv hst hp hb hl hs'
  rfl

/-- A run of Ui::Poll calls reaches the state v when it does so on the four switches and the
queue, and v agrees with the start on everything else. -/
theorem Ui.Polls_eq_of (l : List (Nat → Bool)) (u v : Ui) (now : Nat)
    (hs : ∀ j, j < kNumSwitches → (u.Polls now l).switches_ j = v.switches_ j)
    (hq : (u.Polls now l).queue_ = v.queue_)
    (hm : u.mode_ = v.mode_) (hhigh : ∀ j, kNumSwitches ≤ j → u.switches_ j = v.switches_ j)
    (hcv : u.cv_scaler_ = v.cv_scaler_) (hst : u.settings_ = v.settings_)
    (hp : u.processor_ = v.processor_) (hb : u.load_save_bank_ = v.load_save_bank_)
    (hl : u.load_save_location_ = v.load_save_location_) : u.Polls now l = v := by
  have hf := Ui.Polls_frame l u now
  apply Ui.eq_of_fields
  · exact hf.1.trans hm
  · intro j
    by_cases hj : j < kNumSwitches
    · exact hs j hj
    · rw [hf.2.2.2.2.2.2 j (Nat.not_lt.1 hj)]
      exact hhigh j (Nat.not_lt.1 hj)
  · exact hq
  · exact hf.2.1.trans hcv
  · exact hf.2.2.1.trans hst
  · exact hf.2.2.2.1.trans hp
  · exact hf.2.2.2.2.1.trans hb
  · exact hf.2.2.2.2.2.1.trans hl

theorem Ui.Polls_append (l1 l2 : List (Nat → Bool)) (ui : Ui) (now : Nat) :
    ui.Polls now (l1 ++ l2) = (ui.Polls now l1).Polls (now + l1.length) l2 := by
  induction l1 generalizing ui now with
  | nil => rfl
  | cons p l1 ih =>
    show (ui.Poll now p).Polls (now + 1) (l1 ++ l2) =
      ((ui.Poll now p).Polls (now + 1) l1).Polls (now + (l1.length + 1)) l2
    rw [ih, Nat.add_assoc, Nat.add_comm 1]

/-- A Ui::Poll in which the scan changes no debounce history, no switch qualifies for an event
and the quiet step changes no switch leaves the UI as it is. -/
theorem Ui.Poll_hold (ui : Ui) (now : Nat) (pins : Nat → Bool)
    (hstable : ∀ j, j < kNumSwitches → (ui.switches_ j).scan (pins j) = ui.switches_ j)
    (hquiet : ∀ j, j < kNumSwitches → (ui.switches_ j).fires now = false ∧
      (ui.switches_ j).quietStep now = ui.switches_ j) :
    ui.Poll now pins = ui := by
  have hsc : ∀ j, (ui.scanned pins).switches_ j = ui.switches_ j := by
    intro j
    simp only [Ui.scanned, Switches.Scan_apply]
    split
    · exact hstable j (by assumption)
    · rfl
  rw [Ui.Poll_quiet ui now pins (fun j hj => by rw [hsc j]; exact (hquiet j hj).1)]
  apply Ui.eq_of_fields <;> try rfl
  intro j
  simp only [Ui.quietOn, hsc]
  split
  · exact (hquiet j (by assumption)).2
  · rfl

theorem Ui.Polls_hold (n : Nat) (ui : Ui) (now : Nat) (pins : Nat → Bool)
    (hstable : ∀ j, j < kNumSwitches → (ui.switches_ j).scan (pins j) = ui.switches_ j)
    (hquiet : ∀ t, now ≤ t → t < now + n → ∀ j, j < kNumSwitches →
      (ui.switches_ j).fires t = false ∧ (ui.switches_ j).quietStep t = ui.switches_ j) :
    ui.Polls now (List.replicate n pins) = ui := by
  induction n generalizing now with
  | zero => rfl
  | succ n ih =>
    simp only [List.replicate_succ, Ui.Polls]
    rw [Ui.Poll_hold ui now pins hstable (hquiet now (Nat.le_refl _) (by omega))]
    exact ih (now + 1) (fun t h1 h2 => hquiet t (by omega) (by omega))

set_option maxRecDepth 100000 in
theorem race_stage_capture :
    resetExample.Polls 1 (List.replicate 8 modeHeld) = raceHeld := by
  apply Ui.Polls_eq_of
  · decide
  · decide
  · rfl
  · intro j hj
    have h0 : j ≠ 0 := by simp only [kNumSwitches] at hj; omega
    simp [resetExample, raceHeld, h0]
  all_goals rfl

theorem toInt32_sub32_small (t p : Nat) (hp : p ≤ t) (ht : t < 2 ^ 31) :
    toInt32 (sub32 t p) = ((t - p : Nat) : Int) := by
  have h1 : sub32 t p = t - p := by
    unfold sub32
    omega
  rw [h1]
  unfold toInt32
  have h2 : (t - p) % 2 ^ 32 = t - p := by omega
  rw [h2, if_pos (by omega)]

theorem race_stage_hold_mode :
    raceHeld.Polls 9 (List.replicate 999 modeHeld) = raceHeld := by
  apply Ui.Polls_hold
  · intro j hj
    simp only [kNumSwitches] at hj
    interval_cases j <;> decide
  · intro t h1 h2 j hj
    simp only [kNumSwitches] at hj
    have hlong : ¬ toInt32 (sub32 t 7) > kLongPressDuration := by
      rw [toInt32_sub32_small t 7 (by omega) (by omega)]
      simp only [kLongPressDuration]
      omega
    interval_cases j <;>
      simp [raceHeld, Switch.fires, Switch.quietStep, Switch.just_released, Switch.just_pressed,
        Switch.idle, hlong]

set_option maxRecDepth 100000 in
theorem race_stage_long :
    raceHeld.Polls 1008 ([modeHeld] ++ List.replicate 8 bothHeld) = raceBoth := by
  apply Ui.Polls_eq_of
  · decide
  · decide
  · rfl
  · intro j hj
    have h0 : j ≠ 0 := by simp only [kNumSwitches] at hj; omega
    have h1 : j ≠ 1 := by simp only [kNumSwitches] at hj; omega
    simp [raceBoth, raceHeld, h0, h1]
  all_goals rfl

theorem race_stage_hold_both :
    raceBoth.Polls 1017 (List.replicate 993 bothHeld) = raceBoth := by
  apply Ui.Polls_hold
  · intro j hj
    simp only [kNumSwitches] at hj
    interval_cases j <;> decide
  · intro t h1 h2 j hj
    simp only [kNumSwitches] at hj
    have hlong : ¬ toInt32 (sub32 t 1015) > kLongPressDuration := by
      rw [toInt32_sub32_small t 1015 (by omega) (by omega)]
      simp only [kLongPressDuration]
      omega
    interval_cases j <;>
      simp [raceBoth, Switch.fires, Switch.quietStep, Switch.just_released, Switch.just_pressed,
        Switch.idle, hlong]

/-- With one Ui::Poll per millisecond from clock 1 and every switch reset at the start: MODE
held for 1008 ticks and WRITE held as well for 1001 more lead to the state raceBoth at clock
2009. -/
theorem race_reach :
    resetExample.Polls 1 (List.replicate 1008 modeHeld ++ List.replicate 1001 bothHeld) =
      raceBoth := by
  have e1 : List.replicate 1008 modeHeld =
      List.replicate 8 modeHeld ++ (List.replicate 999 modeHeld ++ [modeHeld]) := by
    rw [← List.append_assoc, ← List.replicate_add]
    exact List.replicate_succ' ..
  have e2 : List.replicate 1001 bothHeld =
      List.replicate 8 bothHeld ++ List.replicate 993 bothHeld := by
    rw [← List.replicate_add]
  have e3 : List.replicate 1008 modeHeld ++ List.replicate 1001 bothHeld =
      List.replicate 8 modeHeld ++ (List.replicate 999 modeHeld ++
        (([modeHeld] ++ List.replicate 8 bothHeld) ++ List.replicate 993 bothHeld)) := by
    rw [e1, e2]
    simp only [List.append_assoc]
  rw [e3, Ui.Polls_append, race_stage_capture, Ui.Polls_append]
  simp only [List.length_replicate]
  rw [race_stage_hold_mode, Ui.Polls_append, race_stage_long]
  simp only [List.length_append, List.length_replicate, List.length_singleton]
  exact race_stage_hold_both

set_option maxRecDepth 100000 in
theorem race_last_ticks :
    (raceBoth.Polls 2010 (List.replicate 6 comboPins)).switches_ SWITCH_MODE =
      { debounce_buffer_ := 0x3f, state_ := .SwitchLongPressed, press_time_ := 7 } ∧
    (raceBoth.Polls 2010 (List.replicate 6 comboPins)).switches_ SWITCH_WRITE =
      { debounce_buffer_ := 0x00, state_ := .SwitchPressed, press_time_ := 1015 } ∧
    (raceBoth.Polls 2010 (List.replicate 7 comboPins)).switches_ SWITCH_MODE =
      { debounce_buffer_ := 0x7f, state_ := .SwitchLongPressed, press_time_ := 0 } ∧
    (raceBoth.Polls 2010 (List.replicate 7 comboPins)).switches_ SWITCH_WRITE =
      { debounce_buffer_ := 0x00, state_ := .SwitchLongPressed, press_time_ := 1015 } ∧
    (raceBoth.Polls 2010 (List.replicate 7 comboPins)).queue_.events_ =
      [{ control_type := .CONTROL_SWITCH, control_id := SWITCH_MODE,
         data := SwitchState.SwitchLongPressed.toInt },
       { control_type := .CONTROL_SWITCH, control_id := 12,
         data := SwitchState.SwitchLongPressed.toInt }] := by
  decide

/-- C26 fails in the code. Ui::Poll runs once per millisecond from clock 1, every switch reset
at the start. SWITCH_MODE is held from tick 1: after tick 7 it is SwitchPressed with
press_time 7, the clock value of its capture_press. It is long-pressed at clock 1008; WRITE is
held from tick 1009 and captured at clock 1015; MODE is let go at tick 2010. After tick 2015
MODE is SwitchLongPressed with press_time 7 and WRITE SwitchPressed with press_time 1015. In the
Poll at clock 2016 the release of MODE is detected and WRITE passes the long-press threshold:
the loop resets MODE, and setFlaggedSwitchState, working from the flags computed before the
loop, sets it to SwitchLongPressed again. MODE ends SwitchLongPressed with press_time 0, which
is not the clock value 7 of its last capture_press and not a clock value of this run at all. -/
theorem switch_timestamp_race :
    (∀ j, (resetExample.switches_ j).state_ = .SwitchReleased ∧
      (resetExample.switches_ j).press_time_ = 0) ∧
    (resetExample.Polls 1 (List.replicate 7 modeHeld)).switches_ SWITCH_MODE =
      { debounce_buffer_ := 0x80, state_ := .SwitchPressed, press_time_ := 7 } ∧
    (resetExample.Polls 1 (List.replicate 1008 modeHeld ++ List.replicate 1001 bothHeld ++
        List.replicate 6 comboPins)).switches_ SWITCH_MODE =
      { debounce_buffer_ := 0x3f, state_ := .SwitchLongPressed, press_time_ := 7 } ∧
    (resetExample.Polls 1 (List.replicate 1008 modeHeld ++ List.replicate 1001 bothHeld ++
        List.replicate 6 comboPins)).switches_ SWITCH_WRITE =
      { debounce_buffer_ := 0x00, state_ := .SwitchPressed, press_time_ := 1015 } ∧
    (resetExample.Polls 1 raceTicks).switches_ SWITCH_MODE =
      { debounce_buffer_ := 0x7f, state_ := .SwitchLongPressed, press_time_ := 0 } ∧
    (resetExample.Polls 1 raceTicks).switches_ SWITCH_WRITE =
      { debounce_buffer_ := 0x00, state_ := .SwitchLongPressed, press_time_ := 1015 } ∧
    (resetExample.Polls 1 raceTicks).queue_.events_ =
      [{ control_type := .CONTROL_SWITCH, control_id := SWITCH_MODE,
         data := SwitchState.SwitchLongPressed.toInt },
       { control_type := .CONTROL_SWITCH, control_id := 12,
         data := SwitchState.SwitchLongPressed.toInt }] := by
  have h6 : resetExample.Polls 1 (List.replicate 1008 modeHeld ++ List.replicate 1001 bothHeld ++
      List.replicate 6 comboPins) = raceBoth.Polls 2010 (List.replicate 6 comboPins) := by
    rw [Ui.Polls_append, race_reach]
    simp only [List.length_append, List.length_replicate]
  have h7 : resetExample.Polls 1 raceTicks = raceBoth.Polls 2010 (List.replicate 7 comboPins) := by
    unfold raceTicks
    rw [Ui.Polls_append, race_reach]
    simp only [List.length_append, List.length_replicate]
  have hl := race_last_ticks
  rw [h6, h7]
  exact ⟨fun j => ⟨rfl, rfl⟩, by decide, hl.1, hl.2.1, hl.2.2.1, hl.2.2.2.1, hl.2.2.2.2⟩

/-! Calibration data and the parameter snapshot -/

theorem CvScaler.smooth_scalars (cal : CalibrationData) (adc : Nat → ℚ) (cv : CvScaler) :
    (cv.smooth cal adc).note_ = cv.note_ ∧ (cv.smooth cal adc).cv_c1_ = cv.cv_c1_ := by
  unfold CvScaler.smooth
  generalize List.range ADC_CHANNEL_LAST = l
  induction l generalizing cv with
  | nil => exact ⟨rfl, rfl⟩
  | cons i l ih =>
    rw [List.foldl_cons]
    exact ih _

theorem CvScaler.scaler_eq_of_fields (a b : CvScaler) (hi : a.inputs_ = b.inputs_)
    (hn : a.note_ = b.note_) (hc : a.cv_c1_ = b.cv_c1_)
    (ht : a.previous_trigger_ = b.previous_trigger_)
    (hg : a.previous_gate_ = b.previous_gate_) : a = b := by
  cases a
  cases b
  simp only at hi hn hc ht hg
  subst hi hn hc ht hg
  rfl

/-- The smoothing loop of CvScaler::Read reads the calibration data only on a channel with
kApplyOffset: when no channel has it, the loop gives the same scaler for any calibration
data. -/
theorem CvScaler.smooth_cal (cv : CvScaler) (cal1 cal2 : CalibrationData) (adc : Nat → ℚ)
    (h : ∀ i, i < ADC_CHANNEL_LAST → (cv.inputs_ i).offset = .kNoOffset) :
    cv.smooth cal1 adc = cv.smooth cal2 adc := by
  have hne : CvOffset.kNoOffset ≠ CvOffset.kApplyOffset := by decide
  apply CvScaler.scaler_eq_of_fields
  · funext j
    rw [CvScaler.smooth_inputs, CvScaler.smooth_inputs]
    by_cases hj : j < ADC_CHANNEL_LAST
    · rw [if_pos hj, if_pos hj, h j hj, if_neg hne, if_neg hne]
    · rw [if_neg hj, if_neg hj]
  · rw [(CvScaler.smooth_scalars cal1 adc cv).1, (CvScaler.smooth_scalars cal2 adc cv).1]
  · rw [(CvScaler.smooth_scalars cal1 adc cv).2, (CvScaler.smooth_scalars cal2 adc cv).2]
  · rw [(CvScaler.smooth_previous cal1 adc cv).2, (CvScaler.smooth_previous cal2 adc cv).2]
  · rw [(CvScaler.smooth_previous cal1 adc cv).1, (CvScaler.smooth_previous cal2 adc cv).1]

theorem CvScaler.Read_cal (qp : ℚ → ℚ) (cv : CvScaler) (cal1 cal2 : CalibrationData)
    (P : Parameters) (hw : ReadInput)
    (h : ∀ i, i < ADC_CHANNEL_LAST → (cv.inputs_ i).offset = .kNoOffset) :
    cv.Read qp cal1 P hw = cv.Read qp cal2 P hw := by
  unfold CvScaler.Read
  rw [CvScaler.smooth_cal cv cal1 cal2 hw.adc h]

theorem CvScaler.Read_offset (qp : ℚ → ℚ) (cv : CvScaler) (cal : CalibrationData)
    (P : Parameters) (hw : ReadInput) (i : Nat) :
    ((cv.Read qp cal P hw).1.inputs_ i).offset = (cv.inputs_ i).offset := by
  rw [CvScaler.Read_inputs, CvScaler.smooth_inputs]
  split <;> rfl

/-- C31: calibration data does not influence the parameter snapshot. None of the ten channels
of the configuration table has kApplyOffset. For every sequence of raw readings and every
start (smoothed values, delay-line contents, parameters) whose channels have the offset
setting of the table, two runs of CvScaler::Read that differ only in the calibration data
(per-channel offsets, pitch scale, pitch offset, all arbitrary) are in the same state after
every number of calls: the same scaler, so the same smoothed values and delay lines, and the
same Parameters. -/
theorem calibration_noninterference (qp : ℚ → ℚ) (cal1 cal2 : CalibrationData)
    (hw : Nat → ReadInput) (cv : CvScaler) (P : Parameters) (n : Nat)
    (hcfg : ∀ i, i < ADC_CHANNEL_LAST → (cv.inputs_ i).offset = (inputs_table i).offset) :
    (∀ i, i < ADC_CHANNEL_LAST → (inputs_table i).offset = .kNoOffset) ∧
    CvScaler.reads qp cal1 hw (cv, P) n = CvScaler.reads qp cal2 hw (cv, P) n ∧
    (∀ i, (CvScaler.reads qp cal1 hw (cv, P) n).1.value i =
      (CvScaler.reads qp cal2 hw (cv, P) n).1.value i) ∧
    (CvScaler.reads qp cal1 hw (cv, P) n).2 = (CvScaler.reads qp cal2 hw (cv, P) n).2 ∧
    (cv.Read qp cal1 P (hw 0)).2 = (cv.Read qp cal2 P (hw 0)).2 := by
  have htab : ∀ i, i < ADC_CHANNEL_LAST → (inputs_table i).offset = .kNoOffset :=
    fun i hi => (inputs_table_facts i hi).2.2.1
  have h0 : ∀ i, i < ADC_CHANNEL_LAST → (cv.inputs_ i).offset = .kNoOffset :=
    fun i hi => (hcfg i hi).trans (htab i hi)
  have key : ∀ m, CvScaler.reads qp cal1 hw (cv, P) m = CvScaler.reads qp cal2 hw (cv, P) m ∧
      ∀ i, i < ADC_CHANNEL_LAST →
        ((CvScaler.reads qp cal2 hw (cv, P) m).1.inputs_ i).offset = .kNoOffset := by
    intro m
    induction m with
    | zero => exact ⟨rfl, h0⟩
    | succ m ih =>
      refine ⟨?_, fun i hi => ?_⟩
      · simp only [CvScaler.reads]
        rw [ih.1]
        exact CvScaler.Read_cal qp _ cal1 cal2 _ _ ih.2
      · simp only [CvScaler.reads]
        rw [CvScaler.Read_offset]
        exact ih.2 i hi
  have hn := (key n).1
  refine ⟨htab, hn, fun i => by rw [hn], by rw [hn], ?_⟩
  rw [CvScaler.Read_cal qp cv cal1 cal2 P (hw 0) h0]

theorem calibration_noninterference_witness :
    CvScaler.reads (fun x => x) {} readsExample ({}, parametersExample) 3 =
      CvScaler.reads (fun x => x) calibrationFallback readsExample ({}, parametersExample) 3 :=
  (calibration_noninterference (fun x => x) {} calibrationFallback readsExample {}
    parametersExample 3 (fun _ _ => rfl)).2.1

/-- The condition on the table is what the result rests on: on a channel with kApplyOffset
the smoothing loop subtracts the stored offset, so the smoothed value follows the calibration
data (reading 1/2, coefficient 1: 1/2 with offset 0, -1/200 with offset 505/1000). -/
theorem CvScaler.smooth_offset_channel :
    ((offsetScaler.smooth {} adcHalf).value ADC_V_OCT_CV = 1 / 2) ∧
    ((offsetScaler.smooth calibrationFallback adcHalf).value ADC_V_OCT_CV = -(1 / 200)) := by
  constructor
  · rw [CvScaler.value, CvScaler.smooth_inputs]
    norm_num [offsetScaler, adcHalf, CvInput.adjusted, ADC_V_OCT_CV, ADC_CHANNEL_LAST]
  · rw [CvScaler.value, CvScaler.smooth_inputs]
    norm_num [offsetScaler, adcHalf, CvInput.adjusted, ADC_V_OCT_CV, ADC_CHANNEL_LAST,
      calibrationFallback]
end clouds
